import Mathlib

/-!
# webauthn-node: the FIDO2 bridge `src/fido2.cc`

A shallow embedding of the three exported operations of `src/fido2.cc`
(`ListDevices`, `MakeCredential`, `GetAssertion`) together with the helper
`makeBuffer`.

* JavaScript values handed over by the host runtime are the inductive type
  `JSValue`; the `Napi::Value` predicates used by the source (`IsObject`,
  `IsString`, `IsBuffer`, `IsBoolean`, `IsArray`, `Has`, `Get`) are functions on it.
* The protocol library (libfido2) is an external collaborator.  It is a record
  `Lib σ` of transition functions over an arbitrary library state `σ`; every
  response may depend on everything that was called before, so any failure
  pattern can be expressed.
* Every call the source makes to the library is appended, in program order, to a
  trace of `Event`s.  Statements about "which calls were issued" and about
  allocation and release of native objects are statements about this trace.
* The trace of every operation is a faithful log of the library (`faithful`): each
  recorded result is the one the library gives, for the recorded arguments, in the
  state the earlier calls of the trace have left it in (`stateAfter`).  Statements
  about "what the authenticator reports" are statements about the accessors of `Lib`
  in that state.
-/

namespace Fido2

/-! ## Bytes and C strings -/

/-- One octet (`uint8_t`, `unsigned char`). -/
abbrev Byte := Fin 256

/-- A byte sequence (`Napi::Buffer<uint8_t>` contents, `std::vector<uint8_t>`,
or a `std::string` used as a byte container). -/
abbrev Bytes := List Byte

/-- The terminator of a C string. -/
def NUL : Char := Char.ofNat 0

/-- A text is free of the terminator character. -/
def nulFree (s : String) : Bool := s.data.all fun c => c != NUL

/-- A value of type `const char *`: the characters in front of the terminator. -/
abbrev CStr := { s : String // nulFree s = true }

/-- The call `s.c_str()` as seen by a C function: the content of the
`std::string` up to (not including) its first terminator character. -/
def c_str (s : String) : CStr :=
  ⟨String.mk (s.data.takeWhile fun c => c != NUL), List.all_takeWhile⟩

/-- Helper function to convert bytes to a `Napi::Buffer` (`makeBuffer`, lines 8-14):
allocates `len` octets and copies `data[0 .. len)` into them.  A pointer is the
memory readable from it, indexed by offset. -/
def makeBuffer (data : Nat → Byte) (len : Nat) : Bytes :=
  (List.range len).map data

/-! ## JavaScript values -/

/-- The JavaScript values the operations inspect: the primitives, buffers, arrays and
plain objects with their own named properties (functions and symbols are left out). -/
inductive JSValue where
  | undefined
  | null
  | boolean (b : Bool)
  | number (n : Int)
  | string (s : String)
  | buffer (bytes : Bytes)
  | array (items : List JSValue)
  | object (fields : List (String × JSValue))

namespace JSValue

/-- The predicate `Napi::Value::IsObject`: plain objects, arrays and buffers all have
the runtime type "object"; `null` and the primitives do not. -/
def IsObject : JSValue → Bool
  | object _ => true
  | array _ => true
  | buffer _ => true
  | _ => false

/-- The predicate `Napi::Value::IsString`. -/
def IsString : JSValue → Bool
  | string _ => true
  | _ => false

/-- The predicate `Napi::Value::IsBuffer`. -/
def IsBuffer : JSValue → Bool
  | buffer _ => true
  | _ => false

/-- The predicate `Napi::Value::IsBoolean`. -/
def IsBoolean : JSValue → Bool
  | boolean _ => true
  | _ => false

/-- The predicate `Napi::Value::IsArray`. -/
def IsArray : JSValue → Bool
  | array _ => true
  | _ => false

/-- The named properties of a value.  Arrays and buffers carry none of the names
the source asks for. -/
def props : JSValue → List (String × JSValue)
  | object fields => fields
  | _ => []

/-- The call `o.Has(key)`. -/
def Has (o : JSValue) (key : String) : Bool := (o.props.lookup key).isSome

/-- The call `o.Get(key)`; an absent property reads as `undefined`. -/
def Get (o : JSValue) (key : String) : JSValue := (o.props.lookup key).getD undefined

/-- The conversion `As<Napi::String>()` followed by the conversion to `std::string`. -/
def asString : JSValue → String
  | string s => s
  | _ => ""

/-- The conversion `As<Napi::Buffer<uint8_t>>()`, read as `Data()[0 .. Length())`. -/
def asBytes : JSValue → Bytes
  | buffer b => b
  | _ => []

/-- The conversion `As<Napi::Boolean>()` used as a condition. -/
def asBool : JSValue → Bool
  | boolean b => b
  | _ => false

/-- The elements `a.Get(0) .. a.Get(a.Length() - 1)` of an array. -/
def elements : JSValue → List JSValue
  | array items => items
  | _ => []

end JSValue

/-- The idiom `if (o.Has(k) && o.Get(k).IsString()) x = o.Get(k).As<Napi::String>();`
on a default-constructed (empty) `std::string x`. -/
def optString (o : JSValue) (k : String) : String :=
  if o.Has k && (o.Get k).IsString then (o.Get k).asString else ""

/-- The idiom `if (o.Has(k) && o.Get(k).IsBuffer()) x = std::string(Data(), Length());`
on a default-constructed (empty) `std::string x`. -/
def optBuffer (o : JSValue) (k : String) : Bytes :=
  if o.Has k && (o.Get k).IsBuffer then (o.Get k).asBytes else []

/-- The call `obj.Set(key, value)` on a `Napi::Object`. -/
def objSet (obj : List (String × JSValue)) (key : String) (value : JSValue) :
    List (String × JSValue) :=
  if (obj.lookup key).isSome then
    obj.map fun kv => if kv.1 == key then (key, value) else kv
  else obj ++ [(key, value)]

/-- A pending JavaScript exception. -/
inductive JSError where
  | TypeError (message : String)
  | Error (message : String)
  deriving DecidableEq, Repr

/-! ## The protocol library -/

/-- A native pointer: `none` is `NULL`, `some h` is the object with handle `h`. -/
abbrev Ptr := Option Nat

/-- Modelled from the spec: the three-valued option type of the protocol library
(`fido_opt_t` of `fido.h`, which is not part of the sources): enforce-true,
enforce-false, or omit the flag. -/
inductive fido_opt_t where
  | FIDO_OPT_OMIT
  | FIDO_OPT_FALSE
  | FIDO_OPT_TRUE
  deriving DecidableEq, Repr

export fido_opt_t (FIDO_OPT_OMIT FIDO_OPT_FALSE FIDO_OPT_TRUE)

/-- Modelled from the spec: the success status of the protocol library (`FIDO_OK` of
`fido.h`, which is not part of the sources); every other status is a failure. -/
def FIDO_OK : Int := 0

/-- Modelled from the spec: the identifier of the fixed default algorithm ES256
(`COSE_ES256` of `fido.h`, which is not part of the sources). -/
def COSE_ES256 : Int := -7

/-- One call of the source into the protocol library, with its arguments and, where
the source looks at it, its result. -/
inductive Event where
  | fido_strerr (r : Int)
  | fido_dev_info_new (n : Nat) (ret : Ptr)
  | fido_dev_info_manifest (devlist : Ptr) (ilen : Nat) (r : Int) (olen : Nat)
  | fido_dev_info_ptr (devlist : Ptr) (i : Nat)
  | fido_dev_info_path (devlist : Ptr) (i : Nat) (ret : CStr)
  | fido_dev_info_manufacturer_string (devlist : Ptr) (i : Nat) (ret : CStr)
  | fido_dev_info_product_string (devlist : Ptr) (i : Nat) (ret : CStr)
  | fido_dev_info_free (devlist : Ptr) (n : Nat)
  | fido_cred_new (ret : Ptr)
  | fido_cred_set_type (cred : Ptr) (alg : Int) (r : Int)
  | fido_cred_set_rp (cred : Ptr) (id name : CStr) (r : Int)
  | fido_cred_set_user (cred : Ptr) (userId : Bytes) (name displayName : CStr)
      (icon : Option CStr) (r : Int)
  | fido_cred_set_clientdata_hash (cred : Ptr) (hash : Bytes) (r : Int)
  | fido_cred_set_rk (cred : Ptr) (rk : fido_opt_t) (r : Int)
  | fido_cred_set_uv (cred : Ptr) (uv : fido_opt_t) (r : Int)
  | fido_cred_free (cred : Ptr)
  | fido_cred_id_len (cred : Ptr) (ret : Nat)
  | fido_cred_id_ptr (cred : Ptr) (ret : Nat → Byte)
  | fido_cred_authdata_len (cred : Ptr) (ret : Nat)
  | fido_cred_authdata_ptr (cred : Ptr) (ret : Nat → Byte)
  | fido_cred_x5c_len (cred : Ptr) (ret : Nat)
  | fido_cred_x5c_ptr (cred : Ptr) (ret : Nat → Byte)
  | fido_dev_new (ret : Ptr)
  | fido_dev_open (dev : Ptr) (path : CStr) (r : Int)
  | fido_dev_close (dev : Ptr)
  | fido_dev_free (dev : Ptr)
  | fido_dev_make_cred (dev cred : Ptr) (pin : Option CStr) (r : Int)
  | fido_dev_get_assert (dev assert : Ptr) (pin : Option CStr) (r : Int)
  | fido_assert_new (ret : Ptr)
  | fido_assert_set_rp (assert : Ptr) (id : CStr) (r : Int)
  | fido_assert_set_clientdata_hash (assert : Ptr) (hash : Bytes) (r : Int)
  | fido_assert_allow_cred (assert : Ptr) (id : Bytes) (r : Int)
  | fido_assert_set_uv (assert : Ptr) (uv : fido_opt_t) (r : Int)
  | fido_assert_free (assert : Ptr)
  | fido_assert_count (assert : Ptr) (ret : Nat)
  | fido_assert_id_len (assert : Ptr) (idx : Nat) (ret : Nat)
  | fido_assert_id_ptr (assert : Ptr) (idx : Nat) (ret : Nat → Byte)
  | fido_assert_authdata_len (assert : Ptr) (idx : Nat) (ret : Nat)
  | fido_assert_authdata_ptr (assert : Ptr) (idx : Nat) (ret : Nat → Byte)
  | fido_assert_sig_len (assert : Ptr) (idx : Nat) (ret : Nat)
  | fido_assert_sig_ptr (assert : Ptr) (idx : Nat) (ret : Nat → Byte)
  | fido_assert_user_id_len (assert : Ptr) (idx : Nat) (ret : Nat)
  | fido_assert_user_id_ptr (assert : Ptr) (idx : Nat) (ret : Nat → Byte)

/-- The calls issued so far, oldest first. -/
abbrev Trace := List Event

/-- The protocol library as seen by the source, over a library state `σ` (attached
devices, contents of the native objects, anything else).  An entry point that can change
the state returns the new state next to its result; the read-only accessors and the
status-to-text table `fido_strerr` only read.  For the four `*_new` entry points the
result says whether the allocation succeeded.  The two entry points `fido_cred_free` and
`fido_assert_free` are always the last call into the library that could observe the
state, so they appear in the trace only. -/
structure Lib (σ : Type) where
  fido_strerr : Int → CStr
  fido_dev_info_new : σ → Nat → Bool × σ
  fido_dev_info_manifest : σ → Ptr → Nat → (Int × Nat) × σ
  fido_dev_info_path : σ → Ptr → Nat → CStr
  fido_dev_info_manufacturer_string : σ → Ptr → Nat → CStr
  fido_dev_info_product_string : σ → Ptr → Nat → CStr
  fido_dev_info_free : σ → Ptr → Nat → σ
  fido_cred_new : σ → Bool × σ
  fido_cred_set_type : σ → Ptr → Int → Int × σ
  fido_cred_set_rp : σ → Ptr → CStr → CStr → Int × σ
  fido_cred_set_user : σ → Ptr → Bytes → CStr → CStr → Option CStr → Int × σ
  fido_cred_set_clientdata_hash : σ → Ptr → Bytes → Int × σ
  fido_cred_set_rk : σ → Ptr → fido_opt_t → Int × σ
  fido_cred_set_uv : σ → Ptr → fido_opt_t → Int × σ
  fido_cred_id_len : σ → Ptr → Nat
  fido_cred_id_ptr : σ → Ptr → Nat → Byte
  fido_cred_authdata_len : σ → Ptr → Nat
  fido_cred_authdata_ptr : σ → Ptr → Nat → Byte
  fido_cred_x5c_len : σ → Ptr → Nat
  fido_cred_x5c_ptr : σ → Ptr → Nat → Byte
  fido_dev_new : σ → Bool × σ
  fido_dev_open : σ → Ptr → CStr → Int × σ
  fido_dev_close : σ → Ptr → σ
  fido_dev_free : σ → Ptr → σ
  fido_dev_make_cred : σ → Ptr → Ptr → Option CStr → Int × σ
  fido_dev_get_assert : σ → Ptr → Ptr → Option CStr → Int × σ
  fido_assert_new : σ → Bool × σ
  fido_assert_set_rp : σ → Ptr → CStr → Int × σ
  fido_assert_set_clientdata_hash : σ → Ptr → Bytes → Int × σ
  fido_assert_allow_cred : σ → Ptr → Bytes → Int × σ
  fido_assert_set_uv : σ → Ptr → fido_opt_t → Int × σ
  fido_assert_count : σ → Ptr → Nat
  fido_assert_id_len : σ → Ptr → Nat → Nat
  fido_assert_id_ptr : σ → Ptr → Nat → Nat → Byte
  fido_assert_authdata_len : σ → Ptr → Nat → Nat
  fido_assert_authdata_ptr : σ → Ptr → Nat → Nat → Byte
  fido_assert_sig_len : σ → Ptr → Nat → Nat
  fido_assert_sig_ptr : σ → Ptr → Nat → Nat → Byte
  fido_assert_user_id_len : σ → Ptr → Nat → Nat
  fido_assert_user_id_ptr : σ → Ptr → Nat → Nat → Byte

/-- The pointer returned by a `*_new` call issued after the calls `t`: `NULL` when the
allocation fails, otherwise a handle no earlier call has returned. -/
def newPtr (t : Trace) (ok : Bool) : Ptr := if ok then some t.length else none

/-- What an exported operation leaves behind: the value it returns to the host, the
JavaScript exception it left pending (if any), and the library calls it issued. -/
structure Outcome where
  value : JSValue
  exception : Option JSError
  trace : Trace

/-- The argument `pin.empty() ? NULL : pin.c_str()` of the two transaction calls. -/
def pinArg (pin : String) : Option CStr := if pin = "" then none else some (c_str pin)

variable {σ : Type}

/-! ## `MakeCredential` (lines 46-271) -/

/-- The part "Open device and make credential" and "Extract and return credential data"
of `MakeCredential` (lines 212-271), entered with the built credential object `cred`
in library state `s` after the calls `t`. -/
def MakeCredential_session (lib : Lib σ) (result : List (String × JSValue))
    (devicePath pin : String) (cred : Ptr) (s : σ) (t : Trace) : Outcome :=
  let (ok, s) := lib.fido_dev_new s
  let dev := newPtr t ok
  let t := t ++ [Event.fido_dev_new dev]
  if dev = none then
    ⟨JSValue.object result, some (JSError.Error "Failed to create device structure"),
      t ++ [Event.fido_cred_free cred]⟩
  else
  let (r, s) := lib.fido_dev_open s dev (c_str devicePath)
  let t := t ++ [Event.fido_dev_open dev (c_str devicePath) r]
  if r ≠ FIDO_OK then
    ⟨JSValue.object result,
      some (JSError.Error ("Failed to open device: " ++ (lib.fido_strerr r).val)),
      t ++ [Event.fido_dev_close dev, Event.fido_dev_free dev, Event.fido_cred_free cred,
            Event.fido_strerr r]⟩
  else
  let (r, s) := lib.fido_dev_make_cred s dev cred (pinArg pin)
  let t := t ++ [Event.fido_dev_make_cred dev cred (pinArg pin) r]
  let s := lib.fido_dev_close s dev
  let t := t ++ [Event.fido_dev_close dev]
  let s := lib.fido_dev_free s dev
  let t := t ++ [Event.fido_dev_free dev]
  if r ≠ FIDO_OK then
    ⟨JSValue.object result,
      some (JSError.Error ("Failed to create credential: " ++ (lib.fido_strerr r).val)),
      t ++ [Event.fido_cred_free cred, Event.fido_strerr r]⟩
  else
  let id_len := lib.fido_cred_id_len s cred
  let t := t ++ [Event.fido_cred_id_len cred id_len]
  let id_ptr := lib.fido_cred_id_ptr s cred
  let t := t ++ [Event.fido_cred_id_ptr cred id_ptr]
  let result := objSet result "id" (JSValue.buffer (makeBuffer id_ptr id_len))
  let result := objSet result "rawId" (JSValue.buffer (makeBuffer id_ptr id_len))
  let response : List (String × JSValue) := []
  let authData_len := lib.fido_cred_authdata_len s cred
  let t := t ++ [Event.fido_cred_authdata_len cred authData_len]
  let authData_ptr := lib.fido_cred_authdata_ptr s cred
  let t := t ++ [Event.fido_cred_authdata_ptr cred authData_ptr]
  let response :=
    objSet response "authenticatorData" (JSValue.buffer (makeBuffer authData_ptr authData_len))
  let attestation_len := lib.fido_cred_x5c_len s cred
  let t := t ++ [Event.fido_cred_x5c_len cred attestation_len]
  let attestation_ptr := lib.fido_cred_x5c_ptr s cred
  let t := t ++ [Event.fido_cred_x5c_ptr cred attestation_ptr]
  let response :=
    objSet response "attestationObject"
      (JSValue.buffer (makeBuffer attestation_ptr attestation_len))
  let result := objSet result "response" (JSValue.object response)
  let result := objSet result "type" (JSValue.string "public-key")
  ⟨JSValue.object result, none, t ++ [Event.fido_cred_free cred]⟩

/-- The part "Create credential", "Set credential parameters" and "Set options" of
`MakeCredential` (lines 128-210), entered with the chosen `devicePath` in library state
`s` after the calls `t`. -/
def MakeCredential_build (lib : Lib σ) (result : List (String × JSValue)) (options : JSValue)
    (rpId rpName : String) (userId : Bytes) (userName userDisplayName : String)
    (challenge : Bytes) (pin devicePath : String) (s : σ) (t : Trace) : Outcome :=
  let (ok, s) := lib.fido_cred_new s
  let cred := newPtr t ok
  let t := t ++ [Event.fido_cred_new cred]
  if cred = none then
    ⟨JSValue.object result, some (JSError.Error "Failed to create credential structure"), t⟩
  else
  let (r, s) := lib.fido_cred_set_type s cred COSE_ES256
  let t := t ++ [Event.fido_cred_set_type cred COSE_ES256 r]
  if r ≠ FIDO_OK then
    ⟨JSValue.object result,
      some (JSError.Error ("Failed to set credential type: " ++ (lib.fido_strerr r).val)),
      t ++ [Event.fido_cred_free cred, Event.fido_strerr r]⟩
  else
  let (r, s) := lib.fido_cred_set_rp s cred (c_str rpId) (c_str rpName)
  let t := t ++ [Event.fido_cred_set_rp cred (c_str rpId) (c_str rpName) r]
  if r ≠ FIDO_OK then
    ⟨JSValue.object result,
      some (JSError.Error ("Failed to set RP: " ++ (lib.fido_strerr r).val)),
      t ++ [Event.fido_cred_free cred, Event.fido_strerr r]⟩
  else
  let (r, s) :=
    lib.fido_cred_set_user s cred userId (c_str userName) (c_str userDisplayName) none
  let t := t ++ [Event.fido_cred_set_user cred userId (c_str userName)
                   (c_str userDisplayName) none r]
  if r ≠ FIDO_OK then
    ⟨JSValue.object result,
      some (JSError.Error ("Failed to set user: " ++ (lib.fido_strerr r).val)),
      t ++ [Event.fido_cred_free cred, Event.fido_strerr r]⟩
  else
  let (r, s) := lib.fido_cred_set_clientdata_hash s cred challenge
  let t := t ++ [Event.fido_cred_set_clientdata_hash cred challenge r]
  if r ≠ FIDO_OK then
    ⟨JSValue.object result,
      some (JSError.Error ("Failed to set challenge: " ++ (lib.fido_strerr r).val)),
      t ++ [Event.fido_cred_free cred, Event.fido_strerr r]⟩
  else
  let rk :=
    if options.Has "resident" && (options.Get "resident").IsBoolean &&
        (options.Get "resident").asBool then FIDO_OPT_TRUE
    else FIDO_OPT_FALSE
  let (r, s) := lib.fido_cred_set_rk s cred rk
  let t := t ++ [Event.fido_cred_set_rk cred rk r]
  if r ≠ FIDO_OK then
    ⟨JSValue.object result,
      some (JSError.Error ("Failed to set resident key option: " ++ (lib.fido_strerr r).val)),
      t ++ [Event.fido_cred_free cred, Event.fido_strerr r]⟩
  else
  if options.Has "userVerification" && (options.Get "userVerification").IsString then
    let uv := (options.Get "userVerification").asString
    let opt :=
      if uv = "required" then FIDO_OPT_TRUE
      else if uv = "preferred" then FIDO_OPT_OMIT
      else FIDO_OPT_FALSE
    let (r, s) := lib.fido_cred_set_uv s cred opt
    let t := t ++ [Event.fido_cred_set_uv cred opt r]
    if r ≠ FIDO_OK then
      ⟨JSValue.object result,
        some (JSError.Error ("Failed to set user verification: " ++ (lib.fido_strerr r).val)),
        t ++ [Event.fido_cred_free cred, Event.fido_strerr r]⟩
    else MakeCredential_session lib result devicePath pin cred s t
  else MakeCredential_session lib result devicePath pin cred s t

/-- The relying-party id extracted from the request (lines 59, 71-75). -/
def credRpId (options : JSValue) : String :=
  if options.Has "rp" && (options.Get "rp").IsObject then optString (options.Get "rp") "id"
  else ""

/-- The relying-party name extracted from the request (lines 60, 71-78). -/
def credRpName (options : JSValue) : String :=
  if options.Has "rp" && (options.Get "rp").IsObject then optString (options.Get "rp") "name"
  else ""

/-- The user id extracted from the request (lines 61, 81-87). -/
def credUserId (options : JSValue) : Bytes :=
  if options.Has "user" && (options.Get "user").IsObject then
    optBuffer (options.Get "user") "id"
  else []

/-- The user name extracted from the request (lines 62, 81-90). -/
def credUserName (options : JSValue) : String :=
  if options.Has "user" && (options.Get "user").IsObject then
    optString (options.Get "user") "name"
  else ""

/-- The user display name extracted from the request (lines 63, 81-93). -/
def credUserDisplayName (options : JSValue) : String :=
  if options.Has "user" && (options.Get "user").IsObject then
    optString (options.Get "user") "displayName"
  else ""

/-- Create credentials (`MakeCredential`, lines 46-271), called with the argument list
`info` while the library is in state `s`.  The part up to the choice of the device path
(lines 46-126) is spelled out here and continues in `MakeCredential_build`. -/
def MakeCredential (lib : Lib σ) (s : σ) (info : List JSValue) : Outcome :=
  let result : List (String × JSValue) := []
  if info.length < 1 || !(info.getD 0 JSValue.undefined).IsObject then
    ⟨JSValue.object result, some (JSError.TypeError "Object argument expected"), []⟩
  else
  let options := info.getD 0 JSValue.undefined
  let pin := optString options "pin"
  let rpId := credRpId options
  let rpName := credRpName options
  let userId := credUserId options
  let userName := credUserName options
  let userDisplayName := credUserDisplayName options
  let challenge := optBuffer options "challenge"
  if rpId = "" || userId = [] || challenge = [] then
    ⟨JSValue.object result, some (JSError.Error "Missing required parameters"), []⟩
  else
  if options.Has "device" && (options.Get "device").IsString then
    let devicePath := (options.Get "device").asString
    MakeCredential_build lib result options rpId rpName userId userName userDisplayName
      challenge pin devicePath s []
  else
    let (ok, s) := lib.fido_dev_info_new s 64
    let dev_infos := newPtr [] ok
    let t := [Event.fido_dev_info_new 64 dev_infos]
    let ((r, ndevs), s) := lib.fido_dev_info_manifest s dev_infos 64
    let t := t ++ [Event.fido_dev_info_manifest dev_infos 64 r ndevs]
    if r ≠ FIDO_OK || ndevs = 0 then
      ⟨JSValue.object result, some (JSError.Error "No FIDO2 devices found"),
        t ++ [Event.fido_dev_info_free dev_infos ndevs]⟩
    else
    let t := t ++ [Event.fido_dev_info_ptr dev_infos 0]
    let path := lib.fido_dev_info_path s dev_infos 0
    let t := t ++ [Event.fido_dev_info_path dev_infos 0 path]
    let devicePath := path.val
    let s := lib.fido_dev_info_free s dev_infos ndevs
    let t := t ++ [Event.fido_dev_info_free dev_infos ndevs]
    MakeCredential_build lib result options rpId rpName userId userName userDisplayName
      challenge pin devicePath s t

/-! ## `GetAssertion` (lines 274-486) -/

/-- The part "Open device and get assertion" and "Extract and return assertion data" of
`GetAssertion` (lines 411-486), entered with the built assertion object `assert` in
library state `s` after the calls `t`. -/
def GetAssertion_session (lib : Lib σ) (result : List (String × JSValue))
    (devicePath pin : String) (assert : Ptr) (s : σ) (t : Trace) : Outcome :=
  let (ok, s) := lib.fido_dev_new s
  let dev := newPtr t ok
  let t := t ++ [Event.fido_dev_new dev]
  if dev = none then
    ⟨JSValue.object result, some (JSError.Error "Failed to create device structure"),
      t ++ [Event.fido_assert_free assert]⟩
  else
  let (r, s) := lib.fido_dev_open s dev (c_str devicePath)
  let t := t ++ [Event.fido_dev_open dev (c_str devicePath) r]
  if r ≠ FIDO_OK then
    ⟨JSValue.object result,
      some (JSError.Error ("Failed to open device: " ++ (lib.fido_strerr r).val)),
      t ++ [Event.fido_dev_close dev, Event.fido_dev_free dev, Event.fido_assert_free assert,
            Event.fido_strerr r]⟩
  else
  let (r, s) := lib.fido_dev_get_assert s dev assert (pinArg pin)
  let t := t ++ [Event.fido_dev_get_assert dev assert (pinArg pin) r]
  let s := lib.fido_dev_close s dev
  let t := t ++ [Event.fido_dev_close dev]
  let s := lib.fido_dev_free s dev
  let t := t ++ [Event.fido_dev_free dev]
  if r ≠ FIDO_OK then
    ⟨JSValue.object result,
      some (JSError.Error ("Failed to get assertion: " ++ (lib.fido_strerr r).val)),
      t ++ [Event.fido_assert_free assert, Event.fido_strerr r]⟩
  else
  let assert_count := lib.fido_assert_count s assert
  let t := t ++ [Event.fido_assert_count assert assert_count]
  if assert_count = 0 then
    ⟨JSValue.object result, some (JSError.Error "No assertion returned"),
      t ++ [Event.fido_assert_free assert]⟩
  else
  let id_len := lib.fido_assert_id_len s assert 0
  let t := t ++ [Event.fido_assert_id_len assert 0 id_len]
  let id_ptr := lib.fido_assert_id_ptr s assert 0
  let t := t ++ [Event.fido_assert_id_ptr assert 0 id_ptr]
  let result := objSet result "id" (JSValue.buffer (makeBuffer id_ptr id_len))
  let result := objSet result "rawId" (JSValue.buffer (makeBuffer id_ptr id_len))
  let response : List (String × JSValue) := []
  let authData_len := lib.fido_assert_authdata_len s assert 0
  let t := t ++ [Event.fido_assert_authdata_len assert 0 authData_len]
  let authData_ptr := lib.fido_assert_authdata_ptr s assert 0
  let t := t ++ [Event.fido_assert_authdata_ptr assert 0 authData_ptr]
  let response :=
    objSet response "authenticatorData" (JSValue.buffer (makeBuffer authData_ptr authData_len))
  let sig_len := lib.fido_assert_sig_len s assert 0
  let t := t ++ [Event.fido_assert_sig_len assert 0 sig_len]
  let sig_ptr := lib.fido_assert_sig_ptr s assert 0
  let t := t ++ [Event.fido_assert_sig_ptr assert 0 sig_ptr]
  let response := objSet response "signature" (JSValue.buffer (makeBuffer sig_ptr sig_len))
  let user_id_len := lib.fido_assert_user_id_len s assert 0
  let t := t ++ [Event.fido_assert_user_id_len assert 0 user_id_len]
  if user_id_len > 0 then
    let user_id_ptr := lib.fido_assert_user_id_ptr s assert 0
    let t := t ++ [Event.fido_assert_user_id_ptr assert 0 user_id_ptr]
    let response :=
      objSet response "userHandle" (JSValue.buffer (makeBuffer user_id_ptr user_id_len))
    let result := objSet result "response" (JSValue.object response)
    let result := objSet result "type" (JSValue.string "public-key")
    ⟨JSValue.object result, none, t ++ [Event.fido_assert_free assert]⟩
  else
    let response := objSet response "userHandle" JSValue.null
    let result := objSet result "response" (JSValue.object response)
    let result := objSet result "type" (JSValue.string "public-key")
    ⟨JSValue.object result, none, t ++ [Event.fido_assert_free assert]⟩

/-- The loop "Add allowed credentials" of `GetAssertion` (lines 379-388) up to its exit:
either the status of the first rejected entry (the loop body then leaves the function),
or `none` when the loop runs to its end; with the library state reached and the calls
issued. -/
def GetAssertion_allowLoop (lib : Lib σ) (assert : Ptr) :
    List Bytes → σ → Trace → Option Int × σ × Trace
  | [], s, t => (none, s, t)
  | cred :: rest, s, t =>
    let (r, s) := lib.fido_assert_allow_cred s assert cred
    let t := t ++ [Event.fido_assert_allow_cred assert cred r]
    if r ≠ FIDO_OK then (some r, s, t) else GetAssertion_allowLoop lib assert rest s t

/-- The part "Create assertion", "Set assertion parameters", "Add allowed credentials" and
"Set options" of `GetAssertion` (lines 349-409), entered with the chosen `devicePath` in
library state `s` after the calls `t`. -/
def GetAssertion_build (lib : Lib σ) (result : List (String × JSValue)) (options : JSValue)
    (rpId : String) (challenge : Bytes) (allowedCredentials : List Bytes)
    (pin devicePath : String) (s : σ) (t : Trace) : Outcome :=
  let (ok, s) := lib.fido_assert_new s
  let assert := newPtr t ok
  let t := t ++ [Event.fido_assert_new assert]
  if assert = none then
    ⟨JSValue.object result, some (JSError.Error "Failed to create assertion structure"), t⟩
  else
  let (r, s) := lib.fido_assert_set_rp s assert (c_str rpId)
  let t := t ++ [Event.fido_assert_set_rp assert (c_str rpId) r]
  if r ≠ FIDO_OK then
    ⟨JSValue.object result,
      some (JSError.Error ("Failed to set RP: " ++ (lib.fido_strerr r).val)),
      t ++ [Event.fido_assert_free assert, Event.fido_strerr r]⟩
  else
  let (r, s) := lib.fido_assert_set_clientdata_hash s assert challenge
  let t := t ++ [Event.fido_assert_set_clientdata_hash assert challenge r]
  if r ≠ FIDO_OK then
    ⟨JSValue.object result,
      some (JSError.Error ("Failed to set challenge: " ++ (lib.fido_strerr r).val)),
      t ++ [Event.fido_assert_free assert, Event.fido_strerr r]⟩
  else
  match GetAssertion_allowLoop lib assert allowedCredentials s t with
  | (some r, _, t) =>
    ⟨JSValue.object result,
      some (JSError.Error ("Failed to add allowed credential: " ++ (lib.fido_strerr r).val)),
      t ++ [Event.fido_assert_free assert, Event.fido_strerr r]⟩
  | (none, s, t) =>
  if options.Has "userVerification" && (options.Get "userVerification").IsString then
    let uv := (options.Get "userVerification").asString
    let opt :=
      if uv = "required" then FIDO_OPT_TRUE
      else if uv = "preferred" then FIDO_OPT_OMIT
      else FIDO_OPT_FALSE
    let (r, s) := lib.fido_assert_set_uv s assert opt
    let t := t ++ [Event.fido_assert_set_uv assert opt r]
    if r ≠ FIDO_OK then
      ⟨JSValue.object result,
        some (JSError.Error ("Failed to set user verification: " ++ (lib.fido_strerr r).val)),
        t ++ [Event.fido_assert_free assert, Event.fido_strerr r]⟩
    else GetAssertion_session lib result devicePath pin assert s t
  else GetAssertion_session lib result devicePath pin assert s t

/-- The entries collected into `allowedCredentials` (lines 307-322): array elements that
are not objects, or that have no buffer-valued `id`, are skipped. -/
def allowedCredentialsOf (options : JSValue) : List Bytes :=
  if options.Has "allowCredentials" && (options.Get "allowCredentials").IsArray then
    (options.Get "allowCredentials").elements.filterMap fun cred =>
      if !cred.IsObject then none
      else if cred.Has "id" && (cred.Get "id").IsBuffer then some (cred.Get "id").asBytes
      else none
  else []

/-- Get assertion (`GetAssertion`, lines 274-486), called with the argument list `info`
while the library is in state `s`.  The part up to the choice of the device path
(lines 274-347) is spelled out here and continues in `GetAssertion_build`. -/
def GetAssertion (lib : Lib σ) (s : σ) (info : List JSValue) : Outcome :=
  let result : List (String × JSValue) := []
  if info.length < 1 || !(info.getD 0 JSValue.undefined).IsObject then
    ⟨JSValue.object result, some (JSError.TypeError "Object argument expected"), []⟩
  else
  let options := info.getD 0 JSValue.undefined
  let pin := optString options "pin"
  let rpId := optString options "rpId"
  let challenge := optBuffer options "challenge"
  let allowedCredentials := allowedCredentialsOf options
  if rpId = "" || challenge = [] then
    ⟨JSValue.object result, some (JSError.Error "Missing required parameters"), []⟩
  else
  if options.Has "device" && (options.Get "device").IsString then
    let devicePath := (options.Get "device").asString
    GetAssertion_build lib result options rpId challenge allowedCredentials pin devicePath s []
  else
    let (ok, s) := lib.fido_dev_info_new s 64
    let dev_infos := newPtr [] ok
    let t := [Event.fido_dev_info_new 64 dev_infos]
    let ((r, ndevs), s) := lib.fido_dev_info_manifest s dev_infos 64
    let t := t ++ [Event.fido_dev_info_manifest dev_infos 64 r ndevs]
    if r ≠ FIDO_OK || ndevs = 0 then
      ⟨JSValue.object result, some (JSError.Error "No FIDO2 devices found"),
        t ++ [Event.fido_dev_info_free dev_infos ndevs]⟩
    else
    let t := t ++ [Event.fido_dev_info_ptr dev_infos 0]
    let path := lib.fido_dev_info_path s dev_infos 0
    let t := t ++ [Event.fido_dev_info_path dev_infos 0 path]
    let devicePath := path.val
    let s := lib.fido_dev_info_free s dev_infos ndevs
    let t := t ++ [Event.fido_dev_info_free dev_infos ndevs]
    GetAssertion_build lib result options rpId challenge allowedCredentials pin devicePath s t

/-! ## `ListDevices` (lines 17-43) -/

/-- The loop of `ListDevices` (lines 31-39) over the indices still to visit: the device
records collected (after `acc`) and the calls issued (after `t`). -/
def ListDevices_loop (lib : Lib σ) (s : σ) (dev_infos : Ptr) :
    List Nat → List JSValue → Trace → List JSValue × Trace
  | [], acc, t => (acc, t)
  | i :: rest, acc, t =>
    let device : List (String × JSValue) := []
    let t := t ++ [Event.fido_dev_info_ptr dev_infos i]
    let path := lib.fido_dev_info_path s dev_infos i
    let t := t ++ [Event.fido_dev_info_path dev_infos i path]
    let device := objSet device "path" (JSValue.string path.val)
    let t := t ++ [Event.fido_dev_info_ptr dev_infos i]
    let manufacturer := lib.fido_dev_info_manufacturer_string s dev_infos i
    let t := t ++ [Event.fido_dev_info_manufacturer_string dev_infos i manufacturer]
    let device := objSet device "manufacturer" (JSValue.string manufacturer.val)
    let t := t ++ [Event.fido_dev_info_ptr dev_infos i]
    let product := lib.fido_dev_info_product_string s dev_infos i
    let t := t ++ [Event.fido_dev_info_product_string dev_infos i product]
    let device := objSet device "product" (JSValue.string product.val)
    ListDevices_loop lib s dev_infos rest (acc ++ [JSValue.object device]) t

/-- List available FIDO devices (`ListDevices`, lines 17-43), called while the library
is in state `s`. -/
def ListDevices (lib : Lib σ) (s : σ) : Outcome :=
  let (ok, s) := lib.fido_dev_info_new s 64
  let dev_infos := newPtr [] ok
  let t := [Event.fido_dev_info_new 64 dev_infos]
  let ((r, ndevs), s) := lib.fido_dev_info_manifest s dev_infos 64
  let t := t ++ [Event.fido_dev_info_manifest dev_infos 64 r ndevs]
  if r ≠ FIDO_OK then
    ⟨JSValue.array [], some (JSError.Error (lib.fido_strerr r).val),
      t ++ [Event.fido_strerr r, Event.fido_dev_info_free dev_infos ndevs]⟩
  else
  let (result, t) := ListDevices_loop lib s dev_infos (List.range ndevs) [] t
  ⟨JSValue.array result, none, t ++ [Event.fido_dev_info_free dev_infos ndevs]⟩

/-! ## Observations on the trace -/

/-- The four kinds of native object the operations allocate. -/
inductive Kind where
  | enumeration
  | credential
  | assertion
  | device
  deriving DecidableEq, Repr

/-- The object behind a pointer argument of the given kind (nothing for `NULL`). -/
def objOf (k : Kind) (p : Ptr) : List (Kind × Nat) :=
  match p with
  | some h => [(k, h)]
  | none => []

/-- The object a call allocates: a `*_new` call that did not return `NULL`. -/
def Event.allocated : Event → List (Kind × Nat)
  | Event.fido_dev_info_new _ ret => objOf Kind.enumeration ret
  | Event.fido_cred_new ret => objOf Kind.credential ret
  | Event.fido_assert_new ret => objOf Kind.assertion ret
  | Event.fido_dev_new ret => objOf Kind.device ret
  | _ => []

/-- The object a call releases: the matching `*_free` call on a non-`NULL` pointer. -/
def Event.released : Event → List (Kind × Nat)
  | Event.fido_dev_info_free devlist _ => objOf Kind.enumeration devlist
  | Event.fido_cred_free cred => objOf Kind.credential cred
  | Event.fido_assert_free assert => objOf Kind.assertion assert
  | Event.fido_dev_free dev => objOf Kind.device dev
  | _ => []

/-- The objects a call reads or writes through its pointer arguments. -/
def Event.used : Event → List (Kind × Nat)
  | Event.fido_dev_info_manifest devlist _ _ _ => objOf Kind.enumeration devlist
  | Event.fido_dev_info_ptr devlist _ => objOf Kind.enumeration devlist
  | Event.fido_dev_info_path devlist _ _ => objOf Kind.enumeration devlist
  | Event.fido_dev_info_manufacturer_string devlist _ _ => objOf Kind.enumeration devlist
  | Event.fido_dev_info_product_string devlist _ _ => objOf Kind.enumeration devlist
  | Event.fido_cred_set_type cred _ _ => objOf Kind.credential cred
  | Event.fido_cred_set_rp cred _ _ _ => objOf Kind.credential cred
  | Event.fido_cred_set_user cred _ _ _ _ _ => objOf Kind.credential cred
  | Event.fido_cred_set_clientdata_hash cred _ _ => objOf Kind.credential cred
  | Event.fido_cred_set_rk cred _ _ => objOf Kind.credential cred
  | Event.fido_cred_set_uv cred _ _ => objOf Kind.credential cred
  | Event.fido_cred_id_len cred _ => objOf Kind.credential cred
  | Event.fido_cred_id_ptr cred _ => objOf Kind.credential cred
  | Event.fido_cred_authdata_len cred _ => objOf Kind.credential cred
  | Event.fido_cred_authdata_ptr cred _ => objOf Kind.credential cred
  | Event.fido_cred_x5c_len cred _ => objOf Kind.credential cred
  | Event.fido_cred_x5c_ptr cred _ => objOf Kind.credential cred
  | Event.fido_dev_open dev _ _ => objOf Kind.device dev
  | Event.fido_dev_close dev => objOf Kind.device dev
  | Event.fido_dev_make_cred dev cred _ _ => objOf Kind.device dev ++ objOf Kind.credential cred
  | Event.fido_dev_get_assert dev assert _ _ =>
    objOf Kind.device dev ++ objOf Kind.assertion assert
  | Event.fido_assert_set_rp assert _ _ => objOf Kind.assertion assert
  | Event.fido_assert_set_clientdata_hash assert _ _ => objOf Kind.assertion assert
  | Event.fido_assert_allow_cred assert _ _ => objOf Kind.assertion assert
  | Event.fido_assert_set_uv assert _ _ => objOf Kind.assertion assert
  | Event.fido_assert_count assert _ => objOf Kind.assertion assert
  | Event.fido_assert_id_len assert _ _ => objOf Kind.assertion assert
  | Event.fido_assert_id_ptr assert _ _ => objOf Kind.assertion assert
  | Event.fido_assert_authdata_len assert _ _ => objOf Kind.assertion assert
  | Event.fido_assert_authdata_ptr assert _ _ => objOf Kind.assertion assert
  | Event.fido_assert_sig_len assert _ _ => objOf Kind.assertion assert
  | Event.fido_assert_sig_ptr assert _ _ => objOf Kind.assertion assert
  | Event.fido_assert_user_id_len assert _ _ => objOf Kind.assertion assert
  | Event.fido_assert_user_id_ptr assert _ _ => objOf Kind.assertion assert
  | _ => []

/-- The native-allocation bookkeeping: the objects allocated and not yet released, and
whether a release hit an object that was not live (released twice) or a call touched an
object that was not live (used after its release). -/
structure Heap where
  live : List (Kind × Nat)
  doubleFree : Bool
  useAfterFree : Bool
  deriving DecidableEq, Repr

/-- The bookkeeping before any call. -/
def Heap.empty : Heap := ⟨[], false, false⟩

/-- The effect of one library call on the bookkeeping: its pointer arguments must be
live, a successful `*_new` adds its object, a `*_free` removes a live object. -/
def Heap.step (h : Heap) (e : Event) : Heap :=
  let used := e.used.all fun o => h.live.contains o
  let freed := e.released.all fun o => h.live.contains o
  { live := e.allocated ++ h.live.diff e.released
    doubleFree := h.doubleFree || !freed
    useAfterFree := h.useAfterFree || !used }

/-- The bookkeeping after the calls of a trace. -/
def heapAfter (t : Trace) : Heap := t.foldl Heap.step Heap.empty

/-- The counter of outstanding native allocations after the calls of a trace: one up for
every successful `*_new`, one down for every matching `*_free`. -/
def outstanding (t : Trace) : Nat := (heapAfter t).live.length

/-! ## The exits of `MakeCredential`

Each stage of the operation is summarised by the list of its exits: the outcome at every
`return`, with the results the library handed back as the only unknowns. -/

/-- The user-verification option the builders hand to the library: the call is made only
for a string-valued `userVerification` (lines 192-201 and 391-400). -/
def uvSetting (options : JSValue) : Option fido_opt_t :=
  if options.Has "userVerification" && (options.Get "userVerification").IsString then
    some (if (options.Get "userVerification").asString = "required" then FIDO_OPT_TRUE
      else if (options.Get "userVerification").asString = "preferred" then FIDO_OPT_OMIT
      else FIDO_OPT_FALSE)
  else none

/-- The resident-key option handed to the library (lines 177-182). -/
def rkSetting (options : JSValue) : fido_opt_t :=
  if options.Has "resident" && (options.Get "resident").IsBoolean &&
      (options.Get "resident").asBool then FIDO_OPT_TRUE
  else FIDO_OPT_FALSE

/-- The exits of `MakeCredential_session` entered with an empty result object. -/
inductive SessionExit (lib : Lib σ) (devicePath pin : String) (cred : Ptr) (t : Trace) :
    Outcome → Prop where
  | dev_new_failed :
    SessionExit lib devicePath pin cred t
      ⟨JSValue.object [], some (JSError.Error "Failed to create device structure"),
        t ++ [Event.fido_dev_new none, Event.fido_cred_free cred]⟩
  | open_failed (r : Int) (hr : r ≠ FIDO_OK) :
    SessionExit lib devicePath pin cred t
      ⟨JSValue.object [],
        some (JSError.Error ("Failed to open device: " ++ (lib.fido_strerr r).val)),
        t ++ [Event.fido_dev_new (some t.length),
          Event.fido_dev_open (some t.length) (c_str devicePath) r,
          Event.fido_dev_close (some t.length), Event.fido_dev_free (some t.length),
          Event.fido_cred_free cred, Event.fido_strerr r]⟩
  | make_cred_failed (r : Int) (hr : r ≠ FIDO_OK) :
    SessionExit lib devicePath pin cred t
      ⟨JSValue.object [],
        some (JSError.Error ("Failed to create credential: " ++ (lib.fido_strerr r).val)),
        t ++ [Event.fido_dev_new (some t.length),
          Event.fido_dev_open (some t.length) (c_str devicePath) FIDO_OK,
          Event.fido_dev_make_cred (some t.length) cred (pinArg pin) r,
          Event.fido_dev_close (some t.length), Event.fido_dev_free (some t.length),
          Event.fido_cred_free cred, Event.fido_strerr r]⟩
  | done (id_len : Nat) (id_ptr : Nat → Byte) (authData_len : Nat) (authData_ptr : Nat → Byte)
      (attestation_len : Nat) (attestation_ptr : Nat → Byte) :
    SessionExit lib devicePath pin cred t
      ⟨JSValue.object [("id", JSValue.buffer (makeBuffer id_ptr id_len)),
          ("rawId", JSValue.buffer (makeBuffer id_ptr id_len)),
          ("response", JSValue.object
            [("authenticatorData", JSValue.buffer (makeBuffer authData_ptr authData_len)),
             ("attestationObject",
                JSValue.buffer (makeBuffer attestation_ptr attestation_len))]),
          ("type", JSValue.string "public-key")],
        none,
        t ++ [Event.fido_dev_new (some t.length),
          Event.fido_dev_open (some t.length) (c_str devicePath) FIDO_OK,
          Event.fido_dev_make_cred (some t.length) cred (pinArg pin) FIDO_OK,
          Event.fido_dev_close (some t.length), Event.fido_dev_free (some t.length),
          Event.fido_cred_id_len cred id_len, Event.fido_cred_id_ptr cred id_ptr,
          Event.fido_cred_authdata_len cred authData_len,
          Event.fido_cred_authdata_ptr cred authData_ptr,
          Event.fido_cred_x5c_len cred attestation_len,
          Event.fido_cred_x5c_ptr cred attestation_ptr,
          Event.fido_cred_free cred]⟩

/-- The five setter calls of the credential builder in the order of lines 138-182
(algorithm, relying party, user, client-data hash, resident key), each returning the
status `r`. -/
def credSetterCalls (cred : Ptr) (options : JSValue) (rpId rpName : String) (userId : Bytes)
    (userName userDisplayName : String) (challenge : Bytes) (r : Int) : List Event :=
  [Event.fido_cred_set_type cred COSE_ES256 r,
   Event.fido_cred_set_rp cred (c_str rpId) (c_str rpName) r,
   Event.fido_cred_set_user cred userId (c_str userName) (c_str userDisplayName) none r,
   Event.fido_cred_set_clientdata_hash cred challenge r,
   Event.fido_cred_set_rk cred (rkSetting options) r]

/-- The texts that name the five setters in the error messages (lines 141-186). -/
def credSetterNames : List String :=
  ["Failed to set credential type: ", "Failed to set RP: ", "Failed to set user: ",
   "Failed to set challenge: ", "Failed to set resident key option: "]

/-- The exits of `MakeCredential_build` entered with an empty result object. -/
inductive BuildExit (lib : Lib σ) (options : JSValue) (rpId rpName : String) (userId : Bytes)
    (userName userDisplayName : String) (challenge : Bytes) (pin devicePath : String)
    (t : Trace) : Outcome → Prop where
  | cred_new_failed :
    BuildExit lib options rpId rpName userId userName userDisplayName challenge pin devicePath t
      ⟨JSValue.object [], some (JSError.Error "Failed to create credential structure"),
        t ++ [Event.fido_cred_new none]⟩
  | setter_failed (k : Nat) (hk : k < 5) (r : Int) (hr : r ≠ FIDO_OK) :
    BuildExit lib options rpId rpName userId userName userDisplayName challenge pin devicePath t
      ⟨JSValue.object [],
        some (JSError.Error (credSetterNames.getD k "" ++ (lib.fido_strerr r).val)),
        t ++ (Event.fido_cred_new (some t.length) ::
          ((credSetterCalls (some t.length) options rpId rpName userId userName
              userDisplayName challenge FIDO_OK).take k ++
           ((credSetterCalls (some t.length) options rpId rpName userId userName
              userDisplayName challenge r).drop k).take 1 ++
           [Event.fido_cred_free (some t.length), Event.fido_strerr r]))⟩
  | uv_failed (uv : fido_opt_t) (huv : uvSetting options = some uv) (r : Int)
      (hr : r ≠ FIDO_OK) :
    BuildExit lib options rpId rpName userId userName userDisplayName challenge pin devicePath t
      ⟨JSValue.object [],
        some (JSError.Error ("Failed to set user verification: " ++ (lib.fido_strerr r).val)),
        t ++ (Event.fido_cred_new (some t.length) ::
          (credSetterCalls (some t.length) options rpId rpName userId userName
              userDisplayName challenge FIDO_OK ++
           [Event.fido_cred_set_uv (some t.length) uv r,
            Event.fido_cred_free (some t.length), Event.fido_strerr r]))⟩
  | session (o : Outcome)
      (ho : SessionExit lib devicePath pin (some t.length)
        (t ++ (Event.fido_cred_new (some t.length) ::
          (credSetterCalls (some t.length) options rpId rpName userId userName
              userDisplayName challenge FIDO_OK ++
           (uvSetting options).toList.map fun uv =>
              Event.fido_cred_set_uv (some t.length) uv FIDO_OK))) o) :
    BuildExit lib options rpId rpName userId userName userDisplayName challenge pin devicePath t o

/-- The ways the device path is chosen (lines 109-126 and 330-347) when a path is found:
the `device` string of the request, or the path the library reports for the first
enumerated device; with the calls issued. -/
inductive DeviceChoice (options : JSValue) : String → Trace → Prop where
  | given (h : (options.Has "device" && (options.Get "device").IsString) = true) :
    DeviceChoice options (options.Get "device").asString []
  | first (h : ¬ (options.Has "device" && (options.Get "device").IsString) = true)
      (dev_infos : Ptr) (hp : dev_infos = none ∨ dev_infos = some 0) (ndevs : Nat)
      (hn : ndevs ≠ 0) (path : CStr) :
    DeviceChoice options path.val
      [Event.fido_dev_info_new 64 dev_infos,
       Event.fido_dev_info_manifest dev_infos 64 FIDO_OK ndevs,
       Event.fido_dev_info_ptr dev_infos 0,
       Event.fido_dev_info_path dev_infos 0 path,
       Event.fido_dev_info_free dev_infos ndevs]

/-- The exits of `MakeCredential`. -/
inductive MakeCredentialExit (lib : Lib σ) (info : List JSValue) : Outcome → Prop where
  | not_an_object (h : info.length < 1 ∨ (info.getD 0 JSValue.undefined).IsObject = false) :
    MakeCredentialExit lib info
      ⟨JSValue.object [], some (JSError.TypeError "Object argument expected"), []⟩
  | missing_parameters (hobj : (info.getD 0 JSValue.undefined).IsObject = true)
      (h : credRpId (info.getD 0 JSValue.undefined) = "" ∨
        credUserId (info.getD 0 JSValue.undefined) = [] ∨
        optBuffer (info.getD 0 JSValue.undefined) "challenge" = []) :
    MakeCredentialExit lib info
      ⟨JSValue.object [], some (JSError.Error "Missing required parameters"), []⟩
  | no_devices (hobj : (info.getD 0 JSValue.undefined).IsObject = true)
      (hrp : credRpId (info.getD 0 JSValue.undefined) ≠ "")
      (huser : credUserId (info.getD 0 JSValue.undefined) ≠ [])
      (hch : optBuffer (info.getD 0 JSValue.undefined) "challenge" ≠ [])
      (hdev : ¬ ((info.getD 0 JSValue.undefined).Has "device" &&
        ((info.getD 0 JSValue.undefined).Get "device").IsString) = true)
      (dev_infos : Ptr) (hp : dev_infos = none ∨ dev_infos = some 0) (r : Int) (ndevs : Nat)
      (h : r ≠ FIDO_OK ∨ ndevs = 0) :
    MakeCredentialExit lib info
      ⟨JSValue.object [], some (JSError.Error "No FIDO2 devices found"),
        [Event.fido_dev_info_new 64 dev_infos,
         Event.fido_dev_info_manifest dev_infos 64 r ndevs,
         Event.fido_dev_info_free dev_infos ndevs]⟩
  | built (hobj : (info.getD 0 JSValue.undefined).IsObject = true)
      (hrp : credRpId (info.getD 0 JSValue.undefined) ≠ "")
      (huser : credUserId (info.getD 0 JSValue.undefined) ≠ [])
      (hch : optBuffer (info.getD 0 JSValue.undefined) "challenge" ≠ [])
      (devicePath : String) (t : Trace)
      (hsel : DeviceChoice (info.getD 0 JSValue.undefined) devicePath t) (o : Outcome)
      (ho : BuildExit lib (info.getD 0 JSValue.undefined)
        (credRpId (info.getD 0 JSValue.undefined)) (credRpName (info.getD 0 JSValue.undefined))
        (credUserId (info.getD 0 JSValue.undefined))
        (credUserName (info.getD 0 JSValue.undefined))
        (credUserDisplayName (info.getD 0 JSValue.undefined))
        (optBuffer (info.getD 0 JSValue.undefined) "challenge")
        (optString (info.getD 0 JSValue.undefined) "pin") devicePath t o) :
    MakeCredentialExit lib info o

/-! ## The exits of `GetAssertion` -/

/-- The exits of `GetAssertion_session` entered with an empty result object. -/
inductive AssertSessionExit (lib : Lib σ) (devicePath pin : String) (assert : Ptr) (t : Trace) :
    Outcome → Prop where
  | dev_new_failed :
    AssertSessionExit lib devicePath pin assert t
      ⟨JSValue.object [], some (JSError.Error "Failed to create device structure"),
        t ++ [Event.fido_dev_new none, Event.fido_assert_free assert]⟩
  | open_failed (r : Int) (hr : r ≠ FIDO_OK) :
    AssertSessionExit lib devicePath pin assert t
      ⟨JSValue.object [],
        some (JSError.Error ("Failed to open device: " ++ (lib.fido_strerr r).val)),
        t ++ [Event.fido_dev_new (some t.length),
          Event.fido_dev_open (some t.length) (c_str devicePath) r,
          Event.fido_dev_close (some t.length), Event.fido_dev_free (some t.length),
          Event.fido_assert_free assert, Event.fido_strerr r]⟩
  | get_assert_failed (r : Int) (hr : r ≠ FIDO_OK) :
    AssertSessionExit lib devicePath pin assert t
      ⟨JSValue.object [],
        some (JSError.Error ("Failed to get assertion: " ++ (lib.fido_strerr r).val)),
        t ++ [Event.fido_dev_new (some t.length),
          Event.fido_dev_open (some t.length) (c_str devicePath) FIDO_OK,
          Event.fido_dev_get_assert (some t.length) assert (pinArg pin) r,
          Event.fido_dev_close (some t.length), Event.fido_dev_free (some t.length),
          Event.fido_assert_free assert, Event.fido_strerr r]⟩
  | no_assertion :
    AssertSessionExit lib devicePath pin assert t
      ⟨JSValue.object [], some (JSError.Error "No assertion returned"),
        t ++ [Event.fido_dev_new (some t.length),
          Event.fido_dev_open (some t.length) (c_str devicePath) FIDO_OK,
          Event.fido_dev_get_assert (some t.length) assert (pinArg pin) FIDO_OK,
          Event.fido_dev_close (some t.length), Event.fido_dev_free (some t.length),
          Event.fido_assert_count assert 0,
          Event.fido_assert_free assert]⟩
  | done_with_user_handle (assert_count : Nat) (hcount : assert_count ≠ 0)
      (id_len : Nat) (id_ptr : Nat → Byte) (authData_len : Nat) (authData_ptr : Nat → Byte)
      (sig_len : Nat) (sig_ptr : Nat → Byte) (user_id_len : Nat) (hlen : user_id_len > 0)
      (user_id_ptr : Nat → Byte) :
    AssertSessionExit lib devicePath pin assert t
      ⟨JSValue.object [("id", JSValue.buffer (makeBuffer id_ptr id_len)),
          ("rawId", JSValue.buffer (makeBuffer id_ptr id_len)),
          ("response", JSValue.object
            [("authenticatorData", JSValue.buffer (makeBuffer authData_ptr authData_len)),
             ("signature", JSValue.buffer (makeBuffer sig_ptr sig_len)),
             ("userHandle", JSValue.buffer (makeBuffer user_id_ptr user_id_len))]),
          ("type", JSValue.string "public-key")],
        none,
        t ++ [Event.fido_dev_new (some t.length),
          Event.fido_dev_open (some t.length) (c_str devicePath) FIDO_OK,
          Event.fido_dev_get_assert (some t.length) assert (pinArg pin) FIDO_OK,
          Event.fido_dev_close (some t.length), Event.fido_dev_free (some t.length),
          Event.fido_assert_count assert assert_count,
          Event.fido_assert_id_len assert 0 id_len, Event.fido_assert_id_ptr assert 0 id_ptr,
          Event.fido_assert_authdata_len assert 0 authData_len,
          Event.fido_assert_authdata_ptr assert 0 authData_ptr,
          Event.fido_assert_sig_len assert 0 sig_len,
          Event.fido_assert_sig_ptr assert 0 sig_ptr,
          Event.fido_assert_user_id_len assert 0 user_id_len,
          Event.fido_assert_user_id_ptr assert 0 user_id_ptr,
          Event.fido_assert_free assert]⟩
  | done_without_user_handle (assert_count : Nat) (hcount : assert_count ≠ 0)
      (id_len : Nat) (id_ptr : Nat → Byte) (authData_len : Nat) (authData_ptr : Nat → Byte)
      (sig_len : Nat) (sig_ptr : Nat → Byte) :
    AssertSessionExit lib devicePath pin assert t
      ⟨JSValue.object [("id", JSValue.buffer (makeBuffer id_ptr id_len)),
          ("rawId", JSValue.buffer (makeBuffer id_ptr id_len)),
          ("response", JSValue.object
            [("authenticatorData", JSValue.buffer (makeBuffer authData_ptr authData_len)),
             ("signature", JSValue.buffer (makeBuffer sig_ptr sig_len)),
             ("userHandle", JSValue.null)]),
          ("type", JSValue.string "public-key")],
        none,
        t ++ [Event.fido_dev_new (some t.length),
          Event.fido_dev_open (some t.length) (c_str devicePath) FIDO_OK,
          Event.fido_dev_get_assert (some t.length) assert (pinArg pin) FIDO_OK,
          Event.fido_dev_close (some t.length), Event.fido_dev_free (some t.length),
          Event.fido_assert_count assert assert_count,
          Event.fido_assert_id_len assert 0 id_len, Event.fido_assert_id_ptr assert 0 id_ptr,
          Event.fido_assert_authdata_len assert 0 authData_len,
          Event.fido_assert_authdata_ptr assert 0 authData_ptr,
          Event.fido_assert_sig_len assert 0 sig_len,
          Event.fido_assert_sig_ptr assert 0 sig_ptr,
          Event.fido_assert_user_id_len assert 0 0,
          Event.fido_assert_free assert]⟩

/-- The exits of `GetAssertion_build` entered with an empty result object. -/
inductive AssertBuildExit (lib : Lib σ) (options : JSValue) (rpId : String) (challenge : Bytes)
    (allowedCredentials : List Bytes) (pin devicePath : String) (t : Trace) :
    Outcome → Prop where
  | assert_new_failed :
    AssertBuildExit lib options rpId challenge allowedCredentials pin devicePath t
      ⟨JSValue.object [], some (JSError.Error "Failed to create assertion structure"),
        t ++ [Event.fido_assert_new none]⟩
  | rp_failed (r : Int) (hr : r ≠ FIDO_OK) :
    AssertBuildExit lib options rpId challenge allowedCredentials pin devicePath t
      ⟨JSValue.object [],
        some (JSError.Error ("Failed to set RP: " ++ (lib.fido_strerr r).val)),
        t ++ [Event.fido_assert_new (some t.length),
          Event.fido_assert_set_rp (some t.length) (c_str rpId) r,
          Event.fido_assert_free (some t.length), Event.fido_strerr r]⟩
  | clientdata_failed (r : Int) (hr : r ≠ FIDO_OK) :
    AssertBuildExit lib options rpId challenge allowedCredentials pin devicePath t
      ⟨JSValue.object [],
        some (JSError.Error ("Failed to set challenge: " ++ (lib.fido_strerr r).val)),
        t ++ [Event.fido_assert_new (some t.length),
          Event.fido_assert_set_rp (some t.length) (c_str rpId) FIDO_OK,
          Event.fido_assert_set_clientdata_hash (some t.length) challenge r,
          Event.fido_assert_free (some t.length), Event.fido_strerr r]⟩
  | allow_cred_failed (pre : List Bytes) (cred : Bytes) (post : List Bytes)
      (hsplit : allowedCredentials = pre ++ cred :: post) (r : Int) (hr : r ≠ FIDO_OK) :
    AssertBuildExit lib options rpId challenge allowedCredentials pin devicePath t
      ⟨JSValue.object [],
        some (JSError.Error
          ("Failed to add allowed credential: " ++ (lib.fido_strerr r).val)),
        t ++ (Event.fido_assert_new (some t.length) ::
          Event.fido_assert_set_rp (some t.length) (c_str rpId) FIDO_OK ::
          Event.fido_assert_set_clientdata_hash (some t.length) challenge FIDO_OK ::
          ((pre.map fun c => Event.fido_assert_allow_cred (some t.length) c FIDO_OK) ++
            [Event.fido_assert_allow_cred (some t.length) cred r,
             Event.fido_assert_free (some t.length), Event.fido_strerr r]))⟩
  | uv_failed (uv : fido_opt_t) (huv : uvSetting options = some uv) (r : Int)
      (hr : r ≠ FIDO_OK) :
    AssertBuildExit lib options rpId challenge allowedCredentials pin devicePath t
      ⟨JSValue.object [],
        some (JSError.Error ("Failed to set user verification: " ++ (lib.fido_strerr r).val)),
        t ++ (Event.fido_assert_new (some t.length) ::
          Event.fido_assert_set_rp (some t.length) (c_str rpId) FIDO_OK ::
          Event.fido_assert_set_clientdata_hash (some t.length) challenge FIDO_OK ::
          ((allowedCredentials.map fun c =>
              Event.fido_assert_allow_cred (some t.length) c FIDO_OK) ++
            [Event.fido_assert_set_uv (some t.length) uv r,
             Event.fido_assert_free (some t.length), Event.fido_strerr r]))⟩
  | session (o : Outcome)
      (ho : AssertSessionExit lib devicePath pin (some t.length)
        (t ++ (Event.fido_assert_new (some t.length) ::
          Event.fido_assert_set_rp (some t.length) (c_str rpId) FIDO_OK ::
          Event.fido_assert_set_clientdata_hash (some t.length) challenge FIDO_OK ::
          ((allowedCredentials.map fun c =>
              Event.fido_assert_allow_cred (some t.length) c FIDO_OK) ++
            (uvSetting options).toList.map fun uv =>
              Event.fido_assert_set_uv (some t.length) uv FIDO_OK))) o) :
    AssertBuildExit lib options rpId challenge allowedCredentials pin devicePath t o

/-- The exits of `GetAssertion`. -/
inductive GetAssertionExit (lib : Lib σ) (info : List JSValue) : Outcome → Prop where
  | not_an_object (h : info.length < 1 ∨ (info.getD 0 JSValue.undefined).IsObject = false) :
    GetAssertionExit lib info
      ⟨JSValue.object [], some (JSError.TypeError "Object argument expected"), []⟩
  | missing_parameters (hobj : (info.getD 0 JSValue.undefined).IsObject = true)
      (h : optString (info.getD 0 JSValue.undefined) "rpId" = "" ∨
        optBuffer (info.getD 0 JSValue.undefined) "challenge" = []) :
    GetAssertionExit lib info
      ⟨JSValue.object [], some (JSError.Error "Missing required parameters"), []⟩
  | no_devices (hobj : (info.getD 0 JSValue.undefined).IsObject = true)
      (hrp : optString (info.getD 0 JSValue.undefined) "rpId" ≠ "")
      (hch : optBuffer (info.getD 0 JSValue.undefined) "challenge" ≠ [])
      (hdev : ¬ ((info.getD 0 JSValue.undefined).Has "device" &&
        ((info.getD 0 JSValue.undefined).Get "device").IsString) = true)
      (dev_infos : Ptr) (hp : dev_infos = none ∨ dev_infos = some 0) (r : Int) (ndevs : Nat)
      (h : r ≠ FIDO_OK ∨ ndevs = 0) :
    GetAssertionExit lib info
      ⟨JSValue.object [], some (JSError.Error "No FIDO2 devices found"),
        [Event.fido_dev_info_new 64 dev_infos,
         Event.fido_dev_info_manifest dev_infos 64 r ndevs,
         Event.fido_dev_info_free dev_infos ndevs]⟩
  | built (hobj : (info.getD 0 JSValue.undefined).IsObject = true)
      (hrp : optString (info.getD 0 JSValue.undefined) "rpId" ≠ "")
      (hch : optBuffer (info.getD 0 JSValue.undefined) "challenge" ≠ [])
      (devicePath : String) (t : Trace)
      (hsel : DeviceChoice (info.getD 0 JSValue.undefined) devicePath t) (o : Outcome)
      (ho : AssertBuildExit lib (info.getD 0 JSValue.undefined)
        (optString (info.getD 0 JSValue.undefined) "rpId")
        (optBuffer (info.getD 0 JSValue.undefined) "challenge")
        (allowedCredentialsOf (info.getD 0 JSValue.undefined))
        (optString (info.getD 0 JSValue.undefined) "pin") devicePath t o) :
    GetAssertionExit lib info o

/-! ## Release of native allocations (C3) -/

/-- After the calls of the trace no native allocation is outstanding, no object was
released twice and none was used after its release. -/
def leakFree (t : Trace) : Prop :=
  outstanding t = 0 ∧ (heapAfter t).doubleFree = false ∧ (heapAfter t).useAfterFree = false

/-! ## The trace as a log of the library -/

/-- The library state after one logged call: the state the entry point hands back for
the arguments of the call (read-only calls and the two calls the record `Lib` leaves out
keep the state). -/
def Lib.next (lib : Lib σ) (s : σ) : Event → σ
  | Event.fido_dev_info_new n _ => (lib.fido_dev_info_new s n).2
  | Event.fido_dev_info_manifest devlist ilen _ _ =>
    (lib.fido_dev_info_manifest s devlist ilen).2
  | Event.fido_dev_info_free devlist n => lib.fido_dev_info_free s devlist n
  | Event.fido_cred_new _ => (lib.fido_cred_new s).2
  | Event.fido_cred_set_type cred alg _ => (lib.fido_cred_set_type s cred alg).2
  | Event.fido_cred_set_rp cred id name _ => (lib.fido_cred_set_rp s cred id name).2
  | Event.fido_cred_set_user cred userId name displayName icon _ =>
    (lib.fido_cred_set_user s cred userId name displayName icon).2
  | Event.fido_cred_set_clientdata_hash cred hash _ =>
    (lib.fido_cred_set_clientdata_hash s cred hash).2
  | Event.fido_cred_set_rk cred rk _ => (lib.fido_cred_set_rk s cred rk).2
  | Event.fido_cred_set_uv cred uv _ => (lib.fido_cred_set_uv s cred uv).2
  | Event.fido_dev_new _ => (lib.fido_dev_new s).2
  | Event.fido_dev_open dev path _ => (lib.fido_dev_open s dev path).2
  | Event.fido_dev_close dev => lib.fido_dev_close s dev
  | Event.fido_dev_free dev => lib.fido_dev_free s dev
  | Event.fido_dev_make_cred dev cred pin _ => (lib.fido_dev_make_cred s dev cred pin).2
  | Event.fido_dev_get_assert dev assert pin _ =>
    (lib.fido_dev_get_assert s dev assert pin).2
  | Event.fido_assert_new _ => (lib.fido_assert_new s).2
  | Event.fido_assert_set_rp assert id _ => (lib.fido_assert_set_rp s assert id).2
  | Event.fido_assert_set_clientdata_hash assert hash _ =>
    (lib.fido_assert_set_clientdata_hash s assert hash).2
  | Event.fido_assert_allow_cred assert id _ => (lib.fido_assert_allow_cred s assert id).2
  | Event.fido_assert_set_uv assert uv _ => (lib.fido_assert_set_uv s assert uv).2
  | _ => s

/-- The result logged with a call is the result the library gives, in state `s`, for the
arguments of the call.  For a `*_new` call the logged pointer is non-`NULL` exactly when
the library reports a successful allocation. -/
def Lib.answers (lib : Lib σ) (s : σ) : Event → Prop
  | Event.fido_dev_info_new n ret => ret.isSome = (lib.fido_dev_info_new s n).1
  | Event.fido_dev_info_manifest devlist ilen r olen =>
    (r, olen) = (lib.fido_dev_info_manifest s devlist ilen).1
  | Event.fido_dev_info_path devlist i ret => ret = lib.fido_dev_info_path s devlist i
  | Event.fido_dev_info_manufacturer_string devlist i ret =>
    ret = lib.fido_dev_info_manufacturer_string s devlist i
  | Event.fido_dev_info_product_string devlist i ret =>
    ret = lib.fido_dev_info_product_string s devlist i
  | Event.fido_cred_new ret => ret.isSome = (lib.fido_cred_new s).1
  | Event.fido_cred_set_type cred alg r => r = (lib.fido_cred_set_type s cred alg).1
  | Event.fido_cred_set_rp cred id name r => r = (lib.fido_cred_set_rp s cred id name).1
  | Event.fido_cred_set_user cred userId name displayName icon r =>
    r = (lib.fido_cred_set_user s cred userId name displayName icon).1
  | Event.fido_cred_set_clientdata_hash cred hash r =>
    r = (lib.fido_cred_set_clientdata_hash s cred hash).1
  | Event.fido_cred_set_rk cred rk r => r = (lib.fido_cred_set_rk s cred rk).1
  | Event.fido_cred_set_uv cred uv r => r = (lib.fido_cred_set_uv s cred uv).1
  | Event.fido_cred_id_len cred ret => ret = lib.fido_cred_id_len s cred
  | Event.fido_cred_id_ptr cred ret => ret = lib.fido_cred_id_ptr s cred
  | Event.fido_cred_authdata_len cred ret => ret = lib.fido_cred_authdata_len s cred
  | Event.fido_cred_authdata_ptr cred ret => ret = lib.fido_cred_authdata_ptr s cred
  | Event.fido_cred_x5c_len cred ret => ret = lib.fido_cred_x5c_len s cred
  | Event.fido_cred_x5c_ptr cred ret => ret = lib.fido_cred_x5c_ptr s cred
  | Event.fido_dev_new ret => ret.isSome = (lib.fido_dev_new s).1
  | Event.fido_dev_open dev path r => r = (lib.fido_dev_open s dev path).1
  | Event.fido_dev_make_cred dev cred pin r => r = (lib.fido_dev_make_cred s dev cred pin).1
  | Event.fido_dev_get_assert dev assert pin r =>
    r = (lib.fido_dev_get_assert s dev assert pin).1
  | Event.fido_assert_new ret => ret.isSome = (lib.fido_assert_new s).1
  | Event.fido_assert_set_rp assert id r => r = (lib.fido_assert_set_rp s assert id).1
  | Event.fido_assert_set_clientdata_hash assert hash r =>
    r = (lib.fido_assert_set_clientdata_hash s assert hash).1
  | Event.fido_assert_allow_cred assert id r => r = (lib.fido_assert_allow_cred s assert id).1
  | Event.fido_assert_set_uv assert uv r => r = (lib.fido_assert_set_uv s assert uv).1
  | Event.fido_assert_count assert ret => ret = lib.fido_assert_count s assert
  | Event.fido_assert_id_len assert idx ret => ret = lib.fido_assert_id_len s assert idx
  | Event.fido_assert_id_ptr assert idx ret => ret = lib.fido_assert_id_ptr s assert idx
  | Event.fido_assert_authdata_len assert idx ret =>
    ret = lib.fido_assert_authdata_len s assert idx
  | Event.fido_assert_authdata_ptr assert idx ret =>
    ret = lib.fido_assert_authdata_ptr s assert idx
  | Event.fido_assert_sig_len assert idx ret => ret = lib.fido_assert_sig_len s assert idx
  | Event.fido_assert_sig_ptr assert idx ret => ret = lib.fido_assert_sig_ptr s assert idx
  | Event.fido_assert_user_id_len assert idx ret =>
    ret = lib.fido_assert_user_id_len s assert idx
  | Event.fido_assert_user_id_ptr assert idx ret =>
    ret = lib.fido_assert_user_id_ptr s assert idx
  | _ => True

/-- The library state after the calls of a trace, started in state `s`. -/
def stateAfter (lib : Lib σ) (s : σ) (t : Trace) : σ := t.foldl lib.next s

/-- The trace is a faithful log of the library started in state `s`: every logged result
is the result the library gives at that point. -/
def faithful (lib : Lib σ) : σ → Trace → Prop
  | _, [] => True
  | s, e :: t => lib.answers s e ∧ faithful lib (lib.next s e) t

/-- The outcome's trace is a faithful log of the library started in state `s0`. -/
def faithfulOutcome (lib : Lib σ) (s0 : σ) (o : Outcome) : Prop := faithful lib s0 o.trace

/-! ## What the trace shows -/

/-- The option handed to a user-verification setter call. -/
def Event.uvOption : Event → Option fido_opt_t
  | Event.fido_cred_set_uv _ uv _ => some uv
  | Event.fido_assert_set_uv _ uv _ => some uv
  | _ => none

/-- The options handed to the user-verification setter, one per call, in call order. -/
def uvCalls (t : Trace) : List fido_opt_t := t.filterMap Event.uvOption

/-- The call is a device allocation `fido_dev_new`. -/
def Event.isDevNew : Event → Bool
  | Event.fido_dev_new _ => true
  | _ => false

/-- The operation got past its builder: it went on to allocate the device handle. -/
def builderCompleted (t : Trace) : Bool := t.any Event.isDevNew

/-- The path handed to a device-open call. -/
def Event.openedPath : Event → Option CStr
  | Event.fido_dev_open _ path _ => some path
  | _ => none

/-- The paths handed to `fido_dev_open`, one per call, in call order. -/
def openedPaths (t : Trace) : List CStr := t.filterMap Event.openedPath

/-- The status and the number of devices an enumeration call reported. -/
def Event.enumeration : Event → Option (Int × Nat)
  | Event.fido_dev_info_manifest _ _ r olen => some (r, olen)
  | _ => none

/-- The results of the enumeration calls, in call order. -/
def enumerations (t : Trace) : List (Int × Nat) := t.filterMap Event.enumeration

/-- The enumeration index asked for and the path reported by a path query. -/
def Event.enumeratedPath : Event → Option (Nat × CStr)
  | Event.fido_dev_info_path _ i ret => some (i, ret)
  | _ => none

/-- The device paths read from the enumeration buffer, with their index, in call order. -/
def enumeratedPaths (t : Trace) : List (Nat × CStr) := t.filterMap Event.enumeratedPath

/-- The call allocates a protocol object or a device handle, or opens a device. -/
def Event.touchesDevice : Event → Bool
  | Event.fido_cred_new _ => true
  | Event.fido_assert_new _ => true
  | Event.fido_dev_new _ => true
  | Event.fido_dev_open _ _ _ => true
  | _ => false

/-- The call is an allocation that returned `NULL` or a builder setter that returned a
non-success status: the failures that make an operation return before it opens a
device. -/
def Event.builderFailure : Event → Bool
  | Event.fido_cred_new ret => ret.isNone
  | Event.fido_assert_new ret => ret.isNone
  | Event.fido_dev_new ret => ret.isNone
  | Event.fido_cred_set_type _ _ r => decide (r ≠ FIDO_OK)
  | Event.fido_cred_set_rp _ _ _ r => decide (r ≠ FIDO_OK)
  | Event.fido_cred_set_user _ _ _ _ _ r => decide (r ≠ FIDO_OK)
  | Event.fido_cred_set_clientdata_hash _ _ r => decide (r ≠ FIDO_OK)
  | Event.fido_cred_set_rk _ _ r => decide (r ≠ FIDO_OK)
  | Event.fido_cred_set_uv _ _ r => decide (r ≠ FIDO_OK)
  | Event.fido_assert_set_rp _ _ r => decide (r ≠ FIDO_OK)
  | Event.fido_assert_set_clientdata_hash _ _ r => decide (r ≠ FIDO_OK)
  | Event.fido_assert_allow_cred _ _ r => decide (r ≠ FIDO_OK)
  | Event.fido_assert_set_uv _ _ r => decide (r ≠ FIDO_OK)
  | _ => false

/-- The call failed: a builder failure, an enumeration that returned a non-success status
or found no device, a device open or a transaction that returned a non-success status. -/
def Event.failed : Event → Bool
  | Event.fido_dev_info_manifest _ _ r olen => decide (r ≠ FIDO_OK) || decide (olen = 0)
  | Event.fido_dev_open _ _ r => decide (r ≠ FIDO_OK)
  | Event.fido_dev_make_cred _ _ _ r => decide (r ≠ FIDO_OK)
  | Event.fido_dev_get_assert _ _ _ r => decide (r ≠ FIDO_OK)
  | e => e.builderFailure

/-! ## User verification (C4) -/

/-- The user-verification policy in the words of the specification, as the list of
options the setter is to be called with: "required" enforces, "preferred" omits the flag,
any other text disables explicitly; without a text-valued `userVerification` the setter is
not called. -/
def uvExpected (options : JSValue) : List fido_opt_t :=
  match options.Get "userVerification" with
  | JSValue.string uv =>
    if uv = "required" then [FIDO_OPT_TRUE]
    else if uv = "preferred" then [FIDO_OPT_OMIT]
    else [FIDO_OPT_FALSE]
  | _ => []

/-! ## Default device selection (C8, C9) -/

/-- The enumeration buffer default device selection allocates when it starts in library
state `s` (lines 111 and 332). -/
def enumerationBuffer (lib : Lib σ) (s : σ) : Ptr := newPtr [] (lib.fido_dev_info_new s 64).1

/-- The status and the number of devices the library reports for the enumeration call of
default device selection started in library state `s` (lines 116 and 337). -/
def enumerationAnswer (lib : Lib σ) (s : σ) : Int × Nat :=
  (lib.fido_dev_info_manifest (lib.fido_dev_info_new s 64).2 (enumerationBuffer lib s) 64).1

/-- The path the library reports, after that enumeration, for the device at enumeration
index 0 (lines 122-123 and 343-344). -/
def firstDevicePath (lib : Lib σ) (s : σ) : CStr :=
  lib.fido_dev_info_path
    (lib.fido_dev_info_manifest (lib.fido_dev_info_new s 64).2 (enumerationBuffer lib s) 64).2
    (enumerationBuffer lib s) 0

/-- What C8 says of an outcome of an operation started in library state `s`: the trace is
a faithful log of the library and starts with the allocation of the enumeration buffer
and the enumeration call, the only one, logged with the library's answer.  When that
answer is success with at least one device, the only path read is the one the library
reports for enumeration index 0, at most one device is opened and it is opened by exactly
that path, and it is opened unless an allocation or a builder setter fails (so also
whenever the operation succeeds).  When that answer is success with no device, the
operation fails with "No FIDO2 devices found" after three calls: allocate the enumeration
buffer, enumerate, release the buffer. -/
def defaultDeviceRule (lib : Lib σ) (s : σ) (o : Outcome) : Prop :=
  faithful lib s o.trace ∧
  (∃ rest : Trace, o.trace =
    Event.fido_dev_info_new 64 (enumerationBuffer lib s) ::
    Event.fido_dev_info_manifest (enumerationBuffer lib s) 64 (enumerationAnswer lib s).1
      (enumerationAnswer lib s).2 :: rest) ∧
  enumerations o.trace = [enumerationAnswer lib s] ∧
  ((enumerationAnswer lib s).1 = FIDO_OK → (enumerationAnswer lib s).2 ≥ 1 →
    enumeratedPaths o.trace = [(0, firstDevicePath lib s)] ∧
    (openedPaths o.trace = [] ∨ openedPaths o.trace = [firstDevicePath lib s]) ∧
    (o.trace.any Event.builderFailure = false →
      openedPaths o.trace = [firstDevicePath lib s]) ∧
    (o.exception = none → openedPaths o.trace = [firstDevicePath lib s])) ∧
  ((enumerationAnswer lib s).1 = FIDO_OK → (enumerationAnswer lib s).2 = 0 →
    o.exception = some (JSError.Error "No FIDO2 devices found") ∧
    o.trace.any Event.touchesDevice = false ∧
    o.trace = [Event.fido_dev_info_new 64 (enumerationBuffer lib s),
      Event.fido_dev_info_manifest (enumerationBuffer lib s) 64 FIDO_OK 0,
      Event.fido_dev_info_free (enumerationBuffer lib s) 0])

/-- What a stage entered after the calls `t` with the chosen `devicePath` adds to the
trace, as far as device selection is concerned. -/
def extendsSelection (devicePath : String) (t : Trace) (o : Outcome) : Prop :=
  (∃ u : Trace, o.trace = t ++ u) ∧
  enumerations o.trace = enumerations t ∧ enumeratedPaths o.trace = enumeratedPaths t ∧
  (openedPaths o.trace = openedPaths t ∨
    openedPaths o.trace = openedPaths t ++ [c_str devicePath]) ∧
  (o.trace.any Event.builderFailure = false →
    openedPaths o.trace = openedPaths t ++ [c_str devicePath]) ∧
  (o.exception = none → openedPaths o.trace = openedPaths t ++ [c_str devicePath])

/-- What C9 (as amended) says of one operation's outcome: whenever the outcome's
enumeration call returned a non-success status, the operation fails with
"No FIDO2 devices found" after three calls: allocate the enumeration buffer, enumerate,
release the buffer. -/
def failedEnumerationRule (o : Outcome) : Prop :=
  ∀ (r : Int) (n : Nat), (r, n) ∈ enumerations o.trace → r ≠ FIDO_OK →
    o.exception = some (JSError.Error "No FIDO2 devices found") ∧
    ∃ dev_infos : Ptr, o.trace = [Event.fido_dev_info_new 64 dev_infos,
      Event.fido_dev_info_manifest dev_infos 64 r n,
      Event.fido_dev_info_free dev_infos n]

/-! ## Marshalling of the results (C5, C6, C7) -/

/-- The byte sequence `b` is a copy of the `len` octets at `data`: same length, same
content. -/
def copyOf (data : Nat → Byte) (len : Nat) (b : Bytes) : Prop :=
  b.length = len ∧ ∀ i, i < len → b.get? i = some (data i)

/-- The value is a buffer holding a copy of the `len` octets at `data`. -/
def isCopy (v : JSValue) (data : Nat → Byte) (len : Nat) : Prop :=
  ∃ b : Bytes, copyOf data len b ∧ v = JSValue.buffer b

/-- What C5 says of an outcome of `MakeCredential` started in library state `s`: the
trace is a faithful log of the library; its last calls are the successful transaction on
a credential object `cred`, the release of the device, and the reads of credential id,
authenticator data and attestation, each logged with what the library reports for `cred`
in the state `s1` it is in after the transaction and the release of the device; and the
result is built from copies `c`, `a`, `t` of exactly these, `id` and `rawId` from the
same copy. -/
def credentialResultRule (lib : Lib σ) (s : σ) (o : Outcome) : Prop :=
  faithful lib s o.trace ∧
  ∃ (pre : Trace) (dev cred : Ptr) (pin : Option CStr) (s1 : σ) (c a t : Bytes),
    s1 = stateAfter lib s (pre ++
      [Event.fido_dev_make_cred dev cred pin FIDO_OK,
       Event.fido_dev_close dev, Event.fido_dev_free dev]) ∧
    o.trace = pre ++
      [Event.fido_dev_make_cred dev cred pin FIDO_OK,
       Event.fido_dev_close dev, Event.fido_dev_free dev,
       Event.fido_cred_id_len cred (lib.fido_cred_id_len s1 cred),
       Event.fido_cred_id_ptr cred (lib.fido_cred_id_ptr s1 cred),
       Event.fido_cred_authdata_len cred (lib.fido_cred_authdata_len s1 cred),
       Event.fido_cred_authdata_ptr cred (lib.fido_cred_authdata_ptr s1 cred),
       Event.fido_cred_x5c_len cred (lib.fido_cred_x5c_len s1 cred),
       Event.fido_cred_x5c_ptr cred (lib.fido_cred_x5c_ptr s1 cred),
       Event.fido_cred_free cred] ∧
    copyOf (lib.fido_cred_id_ptr s1 cred) (lib.fido_cred_id_len s1 cred) c ∧
    copyOf (lib.fido_cred_authdata_ptr s1 cred) (lib.fido_cred_authdata_len s1 cred) a ∧
    copyOf (lib.fido_cred_x5c_ptr s1 cred) (lib.fido_cred_x5c_len s1 cred) t ∧
    o.value = JSValue.object
      [("id", JSValue.buffer c), ("rawId", JSValue.buffer c),
       ("response", JSValue.object
          [("authenticatorData", JSValue.buffer a), ("attestationObject", JSValue.buffer t)]),
       ("type", JSValue.string "public-key")] ∧
    o.value.Get "id" = o.value.Get "rawId"

/-- The statuses the transaction calls `fido_dev_make_cred` and `fido_dev_get_assert`
returned, in call order. -/
def transactionStatuses (t : Trace) : List Int :=
  t.filterMap fun e => match e with
    | Event.fido_dev_make_cred _ _ _ r => some r
    | Event.fido_dev_get_assert _ _ _ r => some r
    | _ => none

/-! ### Assertions -/

/-- The assertion counts the library reported, in call order. -/
def assertCounts (t : Trace) : List Nat :=
  t.filterMap fun e => match e with
    | Event.fido_assert_count _ n => some n
    | _ => none

/-- The assertion index a call reads from (nothing for the other calls). -/
def Event.assertIndex : Event → Option Nat
  | Event.fido_assert_id_len _ idx _ => some idx
  | Event.fido_assert_id_ptr _ idx _ => some idx
  | Event.fido_assert_authdata_len _ idx _ => some idx
  | Event.fido_assert_authdata_ptr _ idx _ => some idx
  | Event.fido_assert_sig_len _ idx _ => some idx
  | Event.fido_assert_sig_ptr _ idx _ => some idx
  | Event.fido_assert_user_id_len _ idx _ => some idx
  | Event.fido_assert_user_id_ptr _ idx _ => some idx
  | _ => none

/-- The assertion indices read from, one per read, in call order. -/
def assertIndices (t : Trace) : List Nat := t.filterMap Event.assertIndex

/-- The user-id lengths the library reported, with the assertion index asked for. -/
def userIdLens (t : Trace) : List (Nat × Nat) :=
  t.filterMap fun e => match e with
    | Event.fido_assert_user_id_len _ idx n => some (idx, n)
    | _ => none

/-- The user-id pointers the library reported, with the assertion index asked for. -/
def userIdPtrs (t : Trace) : List (Nat × (Nat → Byte)) :=
  t.filterMap fun e => match e with
    | Event.fido_assert_user_id_ptr _ idx p => some (idx, p)
    | _ => none

/-- The field `response.userHandle` of a returned result. -/
def userHandleOf (value : JSValue) : JSValue := (value.Get "response").Get "userHandle"

/-- What C6 says of an outcome of `GetAssertion` started in library state `s`: the trace
is a faithful log of the library and holds the successful transaction on an assertion
object `assert`; with `s1` the state of the library after the transaction and the release
of the device, the library reports at least one assertion; the user-id length was asked
once, for assertion index 0, and the answer logged is what the library reports there;
`userHandle` is null exactly when that length is zero; otherwise the user-id pointer was
asked once, for index 0, and `userHandle` is a copy of the user id the library reports;
it is never an empty byte sequence. -/
def userHandleRule (lib : Lib σ) (s : σ) (o : Outcome) : Prop :=
  faithful lib s o.trace ∧
  ∃ (pre rest : Trace) (dev assert : Ptr) (pin : Option CStr) (s1 : σ),
    s1 = stateAfter lib s (pre ++
      [Event.fido_dev_get_assert dev assert pin FIDO_OK,
       Event.fido_dev_close dev, Event.fido_dev_free dev]) ∧
    o.trace = pre ++
      [Event.fido_dev_get_assert dev assert pin FIDO_OK,
       Event.fido_dev_close dev, Event.fido_dev_free dev] ++ rest ∧
    lib.fido_assert_count s1 assert ≠ 0 ∧
    userIdLens o.trace = [(0, lib.fido_assert_user_id_len s1 assert 0)] ∧
    (userHandleOf o.value = JSValue.null ↔ lib.fido_assert_user_id_len s1 assert 0 = 0) ∧
    (lib.fido_assert_user_id_len s1 assert 0 ≠ 0 →
      userIdPtrs o.trace = [(0, lib.fido_assert_user_id_ptr s1 assert 0)] ∧
      isCopy (userHandleOf o.value) (lib.fido_assert_user_id_ptr s1 assert 0)
        (lib.fido_assert_user_id_len s1 assert 0)) ∧
    userHandleOf o.value ≠ JSValue.buffer []

/-- What C7 says of an outcome of `GetAssertion` started in library state `s`: the trace
is a faithful log of the library; no read ever asks for an assertion index other than 0;
and the trace holds the successful transaction on an assertion object `assert` such that,
with `s1` the state of the library after the transaction and the release of the device:
if the library reports an assertion count of zero, the count is the last read, the
operation fails with "No assertion returned" and the result object is empty; if it
reports a non-zero count, the operation succeeds, the reads that follow the count are
those of id, authenticator data, signature and user id at index 0, each logged with what
the library reports, and `id`, `rawId`, `authenticatorData`, `signature` are copies of
these and `userHandle` is null for a zero user-id length and a copy of the user id
otherwise. -/
def assertionMarshalRule (lib : Lib σ) (s : σ) (o : Outcome) : Prop :=
  faithful lib s o.trace ∧
  (∀ i ∈ assertIndices o.trace, i = 0) ∧
  ∃ (pre : Trace) (dev assert : Ptr) (pin : Option CStr) (s1 : σ),
    s1 = stateAfter lib s (pre ++
      [Event.fido_dev_get_assert dev assert pin FIDO_OK,
       Event.fido_dev_close dev, Event.fido_dev_free dev]) ∧
    (lib.fido_assert_count s1 assert = 0 →
      o.trace = pre ++
        [Event.fido_dev_get_assert dev assert pin FIDO_OK,
         Event.fido_dev_close dev, Event.fido_dev_free dev,
         Event.fido_assert_count assert 0, Event.fido_assert_free assert] ∧
      o.exception = some (JSError.Error "No assertion returned") ∧
      o.value = JSValue.object []) ∧
    (lib.fido_assert_count s1 assert ≠ 0 →
      o.exception = none ∧
      o.trace = pre ++
        [Event.fido_dev_get_assert dev assert pin FIDO_OK,
         Event.fido_dev_close dev, Event.fido_dev_free dev,
         Event.fido_assert_count assert (lib.fido_assert_count s1 assert),
         Event.fido_assert_id_len assert 0 (lib.fido_assert_id_len s1 assert 0),
         Event.fido_assert_id_ptr assert 0 (lib.fido_assert_id_ptr s1 assert 0),
         Event.fido_assert_authdata_len assert 0 (lib.fido_assert_authdata_len s1 assert 0),
         Event.fido_assert_authdata_ptr assert 0 (lib.fido_assert_authdata_ptr s1 assert 0),
         Event.fido_assert_sig_len assert 0 (lib.fido_assert_sig_len s1 assert 0),
         Event.fido_assert_sig_ptr assert 0 (lib.fido_assert_sig_ptr s1 assert 0),
         Event.fido_assert_user_id_len assert 0 (lib.fido_assert_user_id_len s1 assert 0)] ++
        (if lib.fido_assert_user_id_len s1 assert 0 = 0 then []
         else [Event.fido_assert_user_id_ptr assert 0
                 (lib.fido_assert_user_id_ptr s1 assert 0)]) ++
        [Event.fido_assert_free assert] ∧
      ∃ i a g u : JSValue,
        isCopy i (lib.fido_assert_id_ptr s1 assert 0) (lib.fido_assert_id_len s1 assert 0) ∧
        isCopy a (lib.fido_assert_authdata_ptr s1 assert 0)
          (lib.fido_assert_authdata_len s1 assert 0) ∧
        isCopy g (lib.fido_assert_sig_ptr s1 assert 0)
          (lib.fido_assert_sig_len s1 assert 0) ∧
        (lib.fido_assert_user_id_len s1 assert 0 = 0 → u = JSValue.null) ∧
        (lib.fido_assert_user_id_len s1 assert 0 ≠ 0 →
          isCopy u (lib.fido_assert_user_id_ptr s1 assert 0)
            (lib.fido_assert_user_id_len s1 assert 0)) ∧
        o.value = JSValue.object
          [("id", i), ("rawId", i),
           ("response", JSValue.object
              [("authenticatorData", a), ("signature", g), ("userHandle", u)]),
           ("type", JSValue.string "public-key")])

/-! ## The allow list (C10) -/

/-- The credential id and the status of a call that submits an allow-list entry. -/
def Event.allowCall : Event → Option (Bytes × Int)
  | Event.fido_assert_allow_cred _ id r => some (id, r)
  | _ => none

/-- The entries submitted to the assertion object with the status of each submission, in
call order. -/
def allowCalls (t : Trace) : List (Bytes × Int) := t.filterMap Event.allowCall

/-- The call sets the relying party or the client-data hash of an assertion object. -/
def Event.isAssertParamSetter : Event → Bool
  | Event.fido_assert_set_rp _ _ _ => true
  | Event.fido_assert_set_clientdata_hash _ _ _ => true
  | _ => false

/-- The statuses of the client-data-hash setter calls on an assertion object. -/
def assertClientDataStatuses (t : Trace) : List Int :=
  t.filterMap fun e => match e with
    | Event.fido_assert_set_clientdata_hash _ _ r => some r
    | _ => none

/-- What C10 says of an outcome of `GetAssertion` for the allow list `allowed` once the
client-data-hash setter has succeeded: the trace is `pre`, that setter call, the
submissions, `post`, where all relying-party and client-data calls are in front of the
submissions and every user-verification call is behind them.  Either every entry was
submitted and accepted, one call per entry in request order; or the entries up to the
first rejected one were submitted and nothing after it, no user-verification call was
made, no device handle was allocated or opened, and the operation fails with
"Failed to add allowed credential: " followed by the library's text for the status. -/
def allowListOutcome (lib : Lib σ) (allowed : List Bytes) (o : Outcome) : Prop :=
  ∃ (pre post : Trace) (assert : Ptr) (hash : Bytes),
    allowCalls pre = [] ∧ uvCalls pre = [] ∧
    allowCalls post = [] ∧ post.any Event.isAssertParamSetter = false ∧
    ((o.trace = pre ++ [Event.fido_assert_set_clientdata_hash assert hash FIDO_OK] ++
        (allowed.map fun c => Event.fido_assert_allow_cred assert c FIDO_OK) ++ post ∧
      allowCalls o.trace = allowed.map fun c => (c, FIDO_OK)) ∨
     (∃ (accepted : List Bytes) (rejected : Bytes) (rest : List Bytes) (r : Int),
        allowed = accepted ++ rejected :: rest ∧ r ≠ FIDO_OK ∧
        o.trace = pre ++ [Event.fido_assert_set_clientdata_hash assert hash FIDO_OK] ++
          ((accepted.map fun c => Event.fido_assert_allow_cred assert c FIDO_OK) ++
            [Event.fido_assert_allow_cred assert rejected r]) ++ post ∧
        allowCalls o.trace = (accepted.map fun c => (c, FIDO_OK)) ++ [(rejected, r)] ∧
        uvCalls o.trace = [] ∧ builderCompleted o.trace = false ∧ openedPaths o.trace = [] ∧
        o.exception = some (JSError.Error
          ("Failed to add allowed credential: " ++ (lib.fido_strerr r).val))))

/-- The rule `allowListOutcome` applies as soon as the client-data-hash setter of the
assertion object has returned success (which it is only asked to do after the
relying-party setter has). -/
def allowListRule (lib : Lib σ) (allowed : List Bytes) (o : Outcome) : Prop :=
  FIDO_OK ∈ assertClientDataStatuses o.trace → allowListOutcome lib allowed o

/-! ## Concrete runs -/

/-- The memory holding the given octets (and zeroes behind them). -/
def bytesAt (bs : Bytes) : Nat → Byte := fun i => bs.getD i 0

/-- A simulated authenticator that accepts every call: one attached device, credential
id `[7,7]`, authenticator data `[0xAA]`, attestation `[0xBB,0xCC]`, and one assertion
with signature `[1,2]` and user id `[5]`. -/
def okLib : Lib Unit where
  fido_strerr := fun _ => ⟨"FIDO_ERR", by decide⟩
  fido_dev_info_new := fun s _ => (true, s)
  fido_dev_info_manifest := fun s _ _ => ((FIDO_OK, 1), s)
  fido_dev_info_path := fun _ _ _ => ⟨"/dev/hidraw0", by decide⟩
  fido_dev_info_manufacturer_string := fun _ _ _ => ⟨"Acme", by decide⟩
  fido_dev_info_product_string := fun _ _ _ => ⟨"Key", by decide⟩
  fido_dev_info_free := fun s _ _ => s
  fido_cred_new := fun s => (true, s)
  fido_cred_set_type := fun s _ _ => (FIDO_OK, s)
  fido_cred_set_rp := fun s _ _ _ => (FIDO_OK, s)
  fido_cred_set_user := fun s _ _ _ _ _ => (FIDO_OK, s)
  fido_cred_set_clientdata_hash := fun s _ _ => (FIDO_OK, s)
  fido_cred_set_rk := fun s _ _ => (FIDO_OK, s)
  fido_cred_set_uv := fun s _ _ => (FIDO_OK, s)
  fido_cred_id_len := fun _ _ => 2
  fido_cred_id_ptr := fun _ _ => bytesAt [7, 7]
  fido_cred_authdata_len := fun _ _ => 1
  fido_cred_authdata_ptr := fun _ _ => bytesAt [0xAA]
  fido_cred_x5c_len := fun _ _ => 2
  fido_cred_x5c_ptr := fun _ _ => bytesAt [0xBB, 0xCC]
  fido_dev_new := fun s => (true, s)
  fido_dev_open := fun s _ _ => (FIDO_OK, s)
  fido_dev_close := fun s _ => s
  fido_dev_free := fun s _ => s
  fido_dev_make_cred := fun s _ _ _ => (FIDO_OK, s)
  fido_dev_get_assert := fun s _ _ _ => (FIDO_OK, s)
  fido_assert_new := fun s => (true, s)
  fido_assert_set_rp := fun s _ _ => (FIDO_OK, s)
  fido_assert_set_clientdata_hash := fun s _ _ => (FIDO_OK, s)
  fido_assert_allow_cred := fun s _ _ => (FIDO_OK, s)
  fido_assert_set_uv := fun s _ _ => (FIDO_OK, s)
  fido_assert_count := fun _ _ => 1
  fido_assert_id_len := fun _ _ _ => 2
  fido_assert_id_ptr := fun _ _ _ => bytesAt [7, 7]
  fido_assert_authdata_len := fun _ _ _ => 1
  fido_assert_authdata_ptr := fun _ _ _ => bytesAt [0xAA]
  fido_assert_sig_len := fun _ _ _ => 2
  fido_assert_sig_ptr := fun _ _ _ => bytesAt [1, 2]
  fido_assert_user_id_len := fun _ _ _ => 1
  fido_assert_user_id_ptr := fun _ _ _ => bytesAt [5]

/-- The authenticator `okLib`, except that the enumeration call fails with status -1. -/
def enumFailLib : Lib Unit :=
  { okLib with fido_dev_info_manifest := fun s _ _ => ((-1, 0), s) }

/-- The authenticator `okLib`, except that no device is attached. -/
def noDeviceLib : Lib Unit :=
  { okLib with fido_dev_info_manifest := fun s _ _ => ((FIDO_OK, 0), s) }

/-- The authenticator `okLib`, except that the transaction yields no assertion. -/
def noAssertionLib : Lib Unit :=
  { okLib with fido_assert_count := fun _ _ => 0 }

/-- The authenticator `okLib`, except that the assertion carries no user id. -/
def noUserIdLib : Lib Unit :=
  { okLib with fido_assert_user_id_len := fun _ _ _ => 0 }

/-- The authenticator `okLib`, except that it rejects the credential id `[2]` in an allow
list with status -7. -/
def rejectLib : Lib Unit :=
  { okLib with fido_assert_allow_cred := fun s _ id => (if id = [2] then -7 else FIDO_OK, s) }

/-- The credential-creation request of the example scenario. -/
def demoRequest : JSValue :=
  JSValue.object
    [("rp", JSValue.object
        [("id", JSValue.string "example.com"), ("name", JSValue.string "Example")]),
     ("user", JSValue.object
        [("id", JSValue.buffer [1, 2, 3]), ("name", JSValue.string "alice"),
         ("displayName", JSValue.string "Alice")]),
     ("challenge", JSValue.buffer [9, 9, 9, 9]),
     ("resident", JSValue.boolean true),
     ("userVerification", JSValue.string "required")]

/-- The request of the example scenario written with the member names of the
specification's data model (`rpId`, `userId`, `residentKey`, ...) instead of the
members the binding reads (`rp.id`, `user.id`, `resident`, ...). -/
def flatRequest : JSValue :=
  JSValue.object
    [("rpId", JSValue.string "example.com"), ("rpName", JSValue.string "Example"),
     ("userId", JSValue.buffer [1, 2, 3]), ("userName", JSValue.string "alice"),
     ("userDisplayName", JSValue.string "Alice"),
     ("challenge", JSValue.buffer [9, 9, 9, 9]),
     ("residentKey", JSValue.boolean true),
     ("userVerification", JSValue.string "required")]

/-- The request `demoRequest` without its `userVerification` field. -/
def demoRequestNoUV : JSValue :=
  JSValue.object
    [("rp", JSValue.object
        [("id", JSValue.string "example.com"), ("name", JSValue.string "Example")]),
     ("user", JSValue.object
        [("id", JSValue.buffer [1, 2, 3]), ("name", JSValue.string "alice"),
         ("displayName", JSValue.string "Alice")]),
     ("challenge", JSValue.buffer [9, 9, 9, 9]),
     ("resident", JSValue.boolean true)]

/-- A credential-creation request whose user has no id. -/
def demoRequestNoUserId : JSValue :=
  JSValue.object
    [("rp", JSValue.object
        [("id", JSValue.string "example.com"), ("name", JSValue.string "Example")]),
     ("user", JSValue.object [("name", JSValue.string "alice")]),
     ("challenge", JSValue.buffer [9, 9, 9, 9]),
     ("device", JSValue.string "/dev/hidraw0")]

/-- An assertion request with an allow list of three entries. -/
def demoAssertion : JSValue :=
  JSValue.object
    [("rpId", JSValue.string "example.com"),
     ("challenge", JSValue.buffer [9, 9, 9, 9]),
     ("allowCredentials", JSValue.array
        [JSValue.object [("id", JSValue.buffer [1])],
         JSValue.object [("id", JSValue.buffer [2])],
         JSValue.object [("id", JSValue.buffer [3])]]),
     ("userVerification", JSValue.string "preferred")]

/-- The request `demoAssertion` without its `userVerification` field. -/
def demoAssertionNoUV : JSValue :=
  JSValue.object
    [("rpId", JSValue.string "example.com"),
     ("challenge", JSValue.buffer [9, 9, 9, 9])]

/-- An assertion request with an empty challenge. -/
def demoAssertionNoChallenge : JSValue :=
  JSValue.object
    [("rpId", JSValue.string "example.com"),
     ("challenge", JSValue.buffer []),
     ("allowCredentials", JSValue.array [JSValue.object [("id", JSValue.buffer [1])]]),
     ("userVerification", JSValue.string "required"),
     ("pin", JSValue.string "1234"),
     ("device", JSValue.string "/dev/hidraw0")]

/-! # Theorems -/

/-! ## The exits of `MakeCredential`

Each stage of the operation is summarised by the list of its exits: the outcome at every
`return`, with the results the library handed back as the only unknowns. -/

theorem Outcome.ite_ind {P : Outcome → Prop} {c : Prop} [Decidable c] {A B : Outcome}
    (hA : c → P A) (hB : ¬ c → P B) : P (if c then A else B) := by
  split
  · exact hA ‹_›
  · exact hB ‹_›

theorem newPtr_of_ne_none {t : Trace} {ok : Bool} (h : ¬ newPtr t ok = none) :
    newPtr t ok = some t.length := by
  unfold newPtr at *
  split <;> simp_all

theorem newPtr_nil_cases (ok : Bool) : newPtr [] ok = none ∨ newPtr [] ok = some 0 := by
  cases ok <;> simp [newPtr]

theorem MakeCredential_session_exits (lib : Lib σ) (devicePath pin : String) (cred : Ptr)
    (s : σ) (t : Trace) :
    SessionExit lib devicePath pin cred t
      (MakeCredential_session lib [] devicePath pin cred s t) := by
  unfold MakeCredential_session
  dsimp only
  apply Outcome.ite_ind <;> intro h1
  · rw [h1]
    simp only [List.append_assoc, List.singleton_append, List.cons_append, List.nil_append]
    exact SessionExit.dev_new_failed
  rw [newPtr_of_ne_none h1]
  repeat' (with_reducible apply Outcome.ite_ind <;> intro hc)
  all_goals simp only [List.append_assoc, List.singleton_append, List.cons_append, List.nil_append]
  · exact SessionExit.open_failed _ hc
  · rename_i h2
    rw [not_not.mp h2]
    exact SessionExit.make_cred_failed _ hc
  · rename_i h2
    rw [not_not.mp h2, not_not.mp hc]
    exact SessionExit.done _ _ _ _ _ _

theorem MakeCredential_build_exits (lib : Lib σ) (options : JSValue) (rpId rpName : String)
    (userId : Bytes) (userName userDisplayName : String) (challenge : Bytes)
    (pin devicePath : String) (s : σ) (t : Trace) :
    BuildExit lib options rpId rpName userId userName userDisplayName challenge pin devicePath t
      (MakeCredential_build lib [] options rpId rpName userId userName userDisplayName
        challenge pin devicePath s t) := by
  unfold MakeCredential_build
  dsimp only
  apply Outcome.ite_ind <;> intro h1
  · rw [h1]
    exact BuildExit.cred_new_failed
  rw [newPtr_of_ne_none h1]
  apply Outcome.ite_ind <;> intro h2
  · simp only [List.append_assoc, List.singleton_append, List.cons_append, List.nil_append]
    exact BuildExit.setter_failed 0 (by decide) _ h2
  rw [not_not.mp h2]
  apply Outcome.ite_ind <;> intro h3
  · simp only [List.append_assoc, List.singleton_append, List.cons_append, List.nil_append]
    exact BuildExit.setter_failed 1 (by decide) _ h3
  rw [not_not.mp h3]
  apply Outcome.ite_ind <;> intro h4
  · simp only [List.append_assoc, List.singleton_append, List.cons_append, List.nil_append]
    exact BuildExit.setter_failed 2 (by decide) _ h4
  rw [not_not.mp h4]
  apply Outcome.ite_ind <;> intro h5
  · simp only [List.append_assoc, List.singleton_append, List.cons_append, List.nil_append]
    exact BuildExit.setter_failed 3 (by decide) _ h5
  rw [not_not.mp h5]
  apply Outcome.ite_ind <;> intro h6
  · simp only [List.append_assoc, List.singleton_append, List.cons_append, List.nil_append]
    exact BuildExit.setter_failed 4 (by decide) _ h6
  rw [not_not.mp h6]
  apply Outcome.ite_ind <;> intro h7
  · have huv : uvSetting options = some
        (if (options.Get "userVerification").asString = "required" then FIDO_OPT_TRUE
         else if (options.Get "userVerification").asString = "preferred" then FIDO_OPT_OMIT
         else FIDO_OPT_FALSE) := by
      simp only [uvSetting, h7, if_true]
    apply Outcome.ite_ind <;> intro h8
    · simp only [List.append_assoc, List.singleton_append, List.cons_append, List.nil_append]
      exact BuildExit.uv_failed _ huv _ h8
    · rw [not_not.mp h8]
      apply BuildExit.session
      rw [huv]
      simp only [List.append_assoc, List.singleton_append, List.cons_append, List.nil_append]
      exact MakeCredential_session_exits lib devicePath pin _ _ _
  · have huv : uvSetting options = none := by
      simp only [uvSetting, h7, if_false]
    apply BuildExit.session
    rw [huv]
    simp only [List.append_assoc, List.singleton_append, List.cons_append, List.nil_append]
    exact MakeCredential_session_exits lib devicePath pin _ _ _

theorem MakeCredential_exits (lib : Lib σ) (s : σ) (info : List JSValue) :
    MakeCredentialExit lib info (MakeCredential lib s info) := by
  unfold MakeCredential
  dsimp only
  apply Outcome.ite_ind <;> intro h1
  · exact MakeCredentialExit.not_an_object (by simpa using h1)
  have hobj : (info.getD 0 JSValue.undefined).IsObject = true := by
    simp only [Bool.or_eq_true, decide_eq_true_eq, Bool.not_eq_true', not_or,
      Bool.not_eq_false] at h1
    exact h1.2
  apply Outcome.ite_ind <;> intro h2
  · exact MakeCredentialExit.missing_parameters hobj (by simpa [or_assoc] using h2)
  have hv : credRpId (info.getD 0 JSValue.undefined) ≠ "" ∧
      credUserId (info.getD 0 JSValue.undefined) ≠ [] ∧
      optBuffer (info.getD 0 JSValue.undefined) "challenge" ≠ [] := by
    simpa [not_or, and_assoc] using h2
  apply Outcome.ite_ind <;> intro h3
  · exact MakeCredentialExit.built hobj hv.1 hv.2.1 hv.2.2 _ _ (DeviceChoice.given h3) _
      (MakeCredential_build_exits _ _ _ _ _ _ _ _ _ _ _ _)
  apply Outcome.ite_ind <;> intro h4
  · exact MakeCredentialExit.no_devices hobj hv.1 hv.2.1 hv.2.2 h3 _ (newPtr_nil_cases _) _ _
      (by simpa using h4)
  · have h5 : (lib.fido_dev_info_manifest (lib.fido_dev_info_new s 64).2
          (newPtr [] (lib.fido_dev_info_new s 64).1) 64).1.1 = FIDO_OK ∧
        (lib.fido_dev_info_manifest (lib.fido_dev_info_new s 64).2
          (newPtr [] (lib.fido_dev_info_new s 64).1) 64).1.2 ≠ 0 := by
      simpa [not_or] using h4
    refine MakeCredentialExit.built hobj hv.1 hv.2.1 hv.2.2 _ _ ?_ _
      (MakeCredential_build_exits _ _ _ _ _ _ _ _ _ _ _ _)
    have := DeviceChoice.first h3 _ (newPtr_nil_cases (lib.fido_dev_info_new s 64).1) _ h5.2
      (lib.fido_dev_info_path (lib.fido_dev_info_manifest (lib.fido_dev_info_new s 64).2
          (newPtr [] (lib.fido_dev_info_new s 64).1) 64).2
        (newPtr [] (lib.fido_dev_info_new s 64).1) 0)
    rw [← h5.1] at this
    exact this

/-! ## The exits of `GetAssertion` -/

theorem GetAssertion_session_exits (lib : Lib σ) (devicePath pin : String) (assert : Ptr)
    (s : σ) (t : Trace) :
    AssertSessionExit lib devicePath pin assert t
      (GetAssertion_session lib [] devicePath pin assert s t) := by
  unfold GetAssertion_session
  dsimp only
  apply Outcome.ite_ind <;> intro h1
  · rw [h1]
    simp only [List.append_assoc, List.singleton_append, List.cons_append, List.nil_append]
    exact AssertSessionExit.dev_new_failed
  rw [newPtr_of_ne_none h1]
  apply Outcome.ite_ind <;> intro h2
  · simp only [List.append_assoc, List.singleton_append, List.cons_append, List.nil_append]
    exact AssertSessionExit.open_failed _ h2
  rw [not_not.mp h2]
  apply Outcome.ite_ind <;> intro h3
  · simp only [List.append_assoc, List.singleton_append, List.cons_append, List.nil_append]
    exact AssertSessionExit.get_assert_failed _ h3
  rw [not_not.mp h3]
  apply Outcome.ite_ind <;> intro h4
  · rw [h4]
    simp only [List.append_assoc, List.singleton_append, List.cons_append, List.nil_append]
    exact AssertSessionExit.no_assertion
  apply Outcome.ite_ind <;> intro h5
  · simp only [List.append_assoc, List.singleton_append, List.cons_append, List.nil_append]
    exact AssertSessionExit.done_with_user_handle _ h4 _ _ _ _ _ _ _ h5 _
  · rw [Nat.eq_zero_of_not_pos h5]
    simp only [List.append_assoc, List.singleton_append, List.cons_append, List.nil_append]
    exact AssertSessionExit.done_without_user_handle _ h4 _ _ _ _ _ _

/-- The exits of the loop over the allowed credentials: it runs to its end with every
entry accepted, or it stops at the first rejected entry. -/
theorem GetAssertion_allowLoop_exits (lib : Lib σ) (assert : Ptr) (creds : List Bytes) :
    ∀ (s : σ) (t : Trace) (res : Option Int × σ × Trace),
      GetAssertion_allowLoop lib assert creds s t = res →
      (∃ s', res = (none, s',
          t ++ creds.map fun c => Event.fido_assert_allow_cred assert c FIDO_OK)) ∨
      (∃ pre cred post r s', creds = pre ++ cred :: post ∧ r ≠ FIDO_OK ∧
        res = (some r, s',
          t ++ ((pre.map fun c => Event.fido_assert_allow_cred assert c FIDO_OK) ++
            [Event.fido_assert_allow_cred assert cred r]))) := by
  induction creds with
  | nil =>
    intro s t res h
    left
    exact ⟨s, by simpa [GetAssertion_allowLoop] using h.symm⟩
  | cons c cs ih =>
    intro s t res h
    unfold GetAssertion_allowLoop at h
    dsimp only at h
    by_cases hr : (lib.fido_assert_allow_cred s assert c).1 ≠ FIDO_OK
    · right
      rw [if_pos hr] at h
      exact ⟨[], c, cs, _, _, rfl, hr, by simpa using h.symm⟩
    · rw [if_neg hr] at h
      rw [not_not.mp hr] at h
      rcases ih _ _ _ h with ⟨s', h'⟩ | ⟨pre, cred, post, r, s', hsplit, hne, h'⟩
      · left
        exact ⟨s', by simpa using h'⟩
      · right
        exact ⟨c :: pre, cred, post, r, s', by simp [hsplit], hne, by simpa using h'⟩

theorem GetAssertion_build_exits (lib : Lib σ) (options : JSValue) (rpId : String)
    (challenge : Bytes) (allowedCredentials : List Bytes) (pin devicePath : String)
    (s : σ) (t : Trace) :
    AssertBuildExit lib options rpId challenge allowedCredentials pin devicePath t
      (GetAssertion_build lib [] options rpId challenge allowedCredentials pin devicePath
        s t) := by
  unfold GetAssertion_build
  dsimp only
  apply Outcome.ite_ind <;> intro h1
  · rw [h1]
    exact AssertBuildExit.assert_new_failed
  rw [newPtr_of_ne_none h1]
  apply Outcome.ite_ind <;> intro h2
  · simp only [List.append_assoc, List.singleton_append, List.cons_append, List.nil_append]
    exact AssertBuildExit.rp_failed _ h2
  rw [not_not.mp h2]
  apply Outcome.ite_ind <;> intro h3
  · simp only [List.append_assoc, List.singleton_append, List.cons_append, List.nil_append]
    exact AssertBuildExit.clientdata_failed _ h3
  rw [not_not.mp h3]
  generalize hl : GetAssertion_allowLoop lib _ _ _ _ = res
  rcases GetAssertion_allowLoop_exits lib _ _ _ _ _ hl with
    ⟨s', h'⟩ | ⟨pre, cred, post, r, s', hsplit, hne, h'⟩
  · subst h'
    dsimp only
    apply Outcome.ite_ind <;> intro h7
    · have huv : uvSetting options = some
          (if (options.Get "userVerification").asString = "required" then FIDO_OPT_TRUE
           else if (options.Get "userVerification").asString = "preferred" then FIDO_OPT_OMIT
           else FIDO_OPT_FALSE) := by
        simp only [uvSetting, h7, if_true]
      apply Outcome.ite_ind <;> intro h8
      · simp only [List.append_assoc, List.singleton_append, List.cons_append,
          List.nil_append]
        exact AssertBuildExit.uv_failed _ huv _ h8
      · rw [not_not.mp h8]
        apply AssertBuildExit.session
        rw [huv]
        simp only [List.append_assoc, List.singleton_append, List.cons_append,
          List.nil_append]
        exact GetAssertion_session_exits lib devicePath pin _ _ _
    · have huv : uvSetting options = none := by
        simp only [uvSetting, h7, if_false]
      apply AssertBuildExit.session
      rw [huv]
      simp only [List.append_assoc, List.singleton_append, List.cons_append, List.nil_append,
        Option.toList, List.map_nil, List.append_nil]
      exact GetAssertion_session_exits lib devicePath pin _ _ _
  · subst h'
    dsimp only
    simp only [List.append_assoc, List.singleton_append, List.cons_append, List.nil_append]
    exact AssertBuildExit.allow_cred_failed pre cred post hsplit _ hne

theorem GetAssertion_exits (lib : Lib σ) (s : σ) (info : List JSValue) :
    GetAssertionExit lib info (GetAssertion lib s info) := by
  unfold GetAssertion
  dsimp only
  apply Outcome.ite_ind <;> intro h1
  · exact GetAssertionExit.not_an_object (by simpa using h1)
  have hobj : (info.getD 0 JSValue.undefined).IsObject = true := by
    simp only [Bool.or_eq_true, decide_eq_true_eq, Bool.not_eq_true', not_or,
      Bool.not_eq_false] at h1
    exact h1.2
  apply Outcome.ite_ind <;> intro h2
  · exact GetAssertionExit.missing_parameters hobj (by simpa using h2)
  have hv : optString (info.getD 0 JSValue.undefined) "rpId" ≠ "" ∧
      optBuffer (info.getD 0 JSValue.undefined) "challenge" ≠ [] := by
    simpa [not_or] using h2
  apply Outcome.ite_ind <;> intro h3
  · exact GetAssertionExit.built hobj hv.1 hv.2 _ _ (DeviceChoice.given h3) _
      (GetAssertion_build_exits _ _ _ _ _ _ _ _ _)
  apply Outcome.ite_ind <;> intro h4
  · exact GetAssertionExit.no_devices hobj hv.1 hv.2 h3 _ (newPtr_nil_cases _) _ _
      (by simpa using h4)
  · have h5 : (lib.fido_dev_info_manifest (lib.fido_dev_info_new s 64).2
          (newPtr [] (lib.fido_dev_info_new s 64).1) 64).1.1 = FIDO_OK ∧
        (lib.fido_dev_info_manifest (lib.fido_dev_info_new s 64).2
          (newPtr [] (lib.fido_dev_info_new s 64).1) 64).1.2 ≠ 0 := by
      simpa [not_or] using h4
    refine GetAssertionExit.built hobj hv.1 hv.2 _ _ ?_ _
      (GetAssertion_build_exits _ _ _ _ _ _ _ _ _)
    have := DeviceChoice.first h3 _ (newPtr_nil_cases (lib.fido_dev_info_new s 64).1) _ h5.2
      (lib.fido_dev_info_path (lib.fido_dev_info_manifest (lib.fido_dev_info_new s 64).2
          (newPtr [] (lib.fido_dev_info_new s 64).1) 64).2
        (newPtr [] (lib.fido_dev_info_new s 64).1) 0)
    rw [← h5.1] at this
    exact this

/-! ## The trace as a log of the library -/

theorem stateAfter_nil (lib : Lib σ) (s : σ) : stateAfter lib s [] = s := rfl

theorem stateAfter_cons (lib : Lib σ) (s : σ) (e : Event) (t : Trace) :
    stateAfter lib s (e :: t) = stateAfter lib (lib.next s e) t := rfl

theorem stateAfter_append (lib : Lib σ) (s : σ) (t u : Trace) :
    stateAfter lib s (t ++ u) = stateAfter lib (stateAfter lib s t) u := by
  simp [stateAfter, List.foldl_append]

theorem faithful_append (lib : Lib σ) (t u : Trace) :
    ∀ s : σ, faithful lib s (t ++ u) ↔
      faithful lib s t ∧ faithful lib (stateAfter lib s t) u := by
  induction t with
  | nil => intro s; simp [faithful, stateAfter_nil]
  | cons e t ih =>
    intro s
    simp [faithful, stateAfter, ih, and_assoc]

theorem newPtr_isSome (t : Trace) (ok : Bool) : (newPtr t ok).isSome = ok := by
  cases ok <;> simp [newPtr]

theorem MakeCredential_session_faithful (lib : Lib σ) (result : List (String × JSValue))
    (devicePath pin : String) (cred : Ptr) (s0 s : σ) (t : Trace)
    (hf : faithful lib s0 t) (hs : stateAfter lib s0 t = s) :
    faithfulOutcome lib s0 (MakeCredential_session lib result devicePath pin cred s t) := by
  subst hs
  unfold MakeCredential_session
  dsimp only
  repeat' (with_reducible apply Outcome.ite_ind <;> intro hc)
  all_goals
    simp [faithfulOutcome, faithful_append, stateAfter_append, hf, faithful, stateAfter_nil,
        stateAfter_cons,
      Lib.answers, Lib.next, newPtr_isSome]

theorem MakeCredential_build_faithful (lib : Lib σ) (result : List (String × JSValue))
    (options : JSValue) (rpId rpName : String) (userId : Bytes)
    (userName userDisplayName : String) (challenge : Bytes) (pin devicePath : String)
    (s0 s : σ) (t : Trace) (hf : faithful lib s0 t) (hs : stateAfter lib s0 t = s) :
    faithfulOutcome lib s0 (MakeCredential_build lib result options rpId rpName userId
      userName userDisplayName challenge pin devicePath s t) := by
  subst hs
  unfold MakeCredential_build
  dsimp only
  repeat' (with_reducible apply Outcome.ite_ind <;> intro hc)
  all_goals
    first
    | (apply MakeCredential_session_faithful <;>
        simp [faithful_append, stateAfter_append, hf, faithful, stateAfter_nil, stateAfter_cons,
          Lib.answers, Lib.next, newPtr_isSome])
    | simp [faithfulOutcome, faithful_append, stateAfter_append, hf, faithful, stateAfter_nil,
        stateAfter_cons,
        Lib.answers, Lib.next, newPtr_isSome]

theorem MakeCredential_faithful (lib : Lib σ) (s : σ) (info : List JSValue) :
    faithful lib s (MakeCredential lib s info).trace := by
  show faithfulOutcome lib s (MakeCredential lib s info)
  unfold MakeCredential
  dsimp only
  repeat' (with_reducible apply Outcome.ite_ind <;> intro hc)
  all_goals
    first
    | (apply MakeCredential_build_faithful <;>
        simp [faithful_append, stateAfter_append, faithful, stateAfter_nil, stateAfter_cons,
          Lib.answers, Lib.next, newPtr_isSome])
    | simp [faithfulOutcome, faithful_append, stateAfter_append, faithful, stateAfter_nil,
        stateAfter_cons,
        Lib.answers, Lib.next, newPtr_isSome]

theorem GetAssertion_session_faithful (lib : Lib σ) (result : List (String × JSValue))
    (devicePath pin : String) (assert : Ptr) (s0 s : σ) (t : Trace)
    (hf : faithful lib s0 t) (hs : stateAfter lib s0 t = s) :
    faithfulOutcome lib s0 (GetAssertion_session lib result devicePath pin assert s t) := by
  subst hs
  unfold GetAssertion_session
  dsimp only
  repeat' (with_reducible apply Outcome.ite_ind <;> intro hc)
  all_goals
    simp [faithfulOutcome, faithful_append, stateAfter_append, hf, faithful, stateAfter_nil,
        stateAfter_cons,
      Lib.answers, Lib.next, newPtr_isSome]

theorem GetAssertion_allowLoop_faithful (lib : Lib σ) (assert : Ptr) (s0 : σ)
    (creds : List Bytes) :
    ∀ (s : σ) (t : Trace), faithful lib s0 t → stateAfter lib s0 t = s →
      faithful lib s0 (GetAssertion_allowLoop lib assert creds s t).2.2 ∧
      stateAfter lib s0 (GetAssertion_allowLoop lib assert creds s t).2.2 =
        (GetAssertion_allowLoop lib assert creds s t).2.1 := by
  induction creds with
  | nil => intro s t hf hs; exact ⟨hf, hs⟩
  | cons c cs ih =>
    intro s t hf hs
    unfold GetAssertion_allowLoop
    dsimp only
    have hf' : faithful lib s0 (t ++ [Event.fido_assert_allow_cred assert c
        (lib.fido_assert_allow_cred s assert c).1]) := by
      simp [faithful_append, hf, hs, faithful, Lib.answers]
    have hs' : stateAfter lib s0 (t ++ [Event.fido_assert_allow_cred assert c
        (lib.fido_assert_allow_cred s assert c).1]) =
          (lib.fido_assert_allow_cred s assert c).2 := by
      simp [stateAfter_append, hs, stateAfter_nil, stateAfter_cons, Lib.next]
    split
    · exact ⟨hf', hs'⟩
    · exact ih _ _ hf' hs'

theorem GetAssertion_build_faithful (lib : Lib σ) (result : List (String × JSValue))
    (options : JSValue) (rpId : String) (challenge : Bytes) (allowedCredentials : List Bytes)
    (pin devicePath : String) (s0 s : σ) (t : Trace)
    (hf : faithful lib s0 t) (hs : stateAfter lib s0 t = s) :
    faithfulOutcome lib s0 (GetAssertion_build lib result options rpId challenge
      allowedCredentials pin devicePath s t) := by
  unfold GetAssertion_build
  dsimp only
  apply Outcome.ite_ind <;> intro h1
  · simp [faithfulOutcome, faithful_append, stateAfter_append, hf, hs, faithful,
      stateAfter_nil, stateAfter_cons,
      Lib.answers, Lib.next, newPtr_isSome]
  apply Outcome.ite_ind <;> intro h2
  · simp [faithfulOutcome, faithful_append, stateAfter_append, hf, hs, faithful,
      stateAfter_nil, stateAfter_cons,
      Lib.answers, Lib.next, newPtr_isSome]
  apply Outcome.ite_ind <;> intro h3
  · simp [faithfulOutcome, faithful_append, stateAfter_append, hf, hs, faithful,
      stateAfter_nil, stateAfter_cons,
      Lib.answers, Lib.next, newPtr_isSome]
  have hloop := GetAssertion_allowLoop_faithful lib (newPtr t (lib.fido_assert_new s).1) s0
    allowedCredentials
    (lib.fido_assert_set_clientdata_hash
      (lib.fido_assert_set_rp (lib.fido_assert_new s).2 (newPtr t (lib.fido_assert_new s).1)
        (c_str rpId)).2 (newPtr t (lib.fido_assert_new s).1) challenge).2
    (t ++ [Event.fido_assert_new (newPtr t (lib.fido_assert_new s).1)] ++
      [Event.fido_assert_set_rp (newPtr t (lib.fido_assert_new s).1) (c_str rpId)
        (lib.fido_assert_set_rp (lib.fido_assert_new s).2 (newPtr t (lib.fido_assert_new s).1)
          (c_str rpId)).1] ++
      [Event.fido_assert_set_clientdata_hash (newPtr t (lib.fido_assert_new s).1) challenge
        (lib.fido_assert_set_clientdata_hash
          (lib.fido_assert_set_rp (lib.fido_assert_new s).2
            (newPtr t (lib.fido_assert_new s).1) (c_str rpId)).2
          (newPtr t (lib.fido_assert_new s).1) challenge).1])
    (by simp [faithful_append, stateAfter_append, hf, hs, faithful, stateAfter_nil, stateAfter_cons,
          Lib.answers, Lib.next, newPtr_isSome])
    (by simp [stateAfter_append, hs, stateAfter_nil, stateAfter_cons, Lib.next])
  generalize GetAssertion_allowLoop lib _ _ _ _ = res at hloop
  obtain ⟨r, s', t'⟩ := res
  obtain ⟨hf', hs'⟩ := hloop
  dsimp only at hf' hs'
  cases r with
  | some r =>
    dsimp only
    simp [faithfulOutcome, faithful_append, hf', faithful, Lib.answers]
  | none =>
    dsimp only
    repeat' (with_reducible apply Outcome.ite_ind <;> intro hc)
    all_goals
      first
      | (apply GetAssertion_session_faithful <;>
          simp [faithful_append, stateAfter_append, hf', hs', faithful, stateAfter_nil,
              stateAfter_cons,
            Lib.answers, Lib.next, newPtr_isSome])
      | simp [faithfulOutcome, faithful_append, stateAfter_append, hf', hs', faithful,
          stateAfter_nil, stateAfter_cons, Lib.answers, Lib.next, newPtr_isSome]

theorem GetAssertion_faithful (lib : Lib σ) (s : σ) (info : List JSValue) :
    faithful lib s (GetAssertion lib s info).trace := by
  show faithfulOutcome lib s (GetAssertion lib s info)
  unfold GetAssertion
  dsimp only
  repeat' (with_reducible apply Outcome.ite_ind <;> intro hc)
  all_goals
    first
    | (apply GetAssertion_build_faithful <;>
        simp [faithful_append, stateAfter_append, faithful, stateAfter_nil, stateAfter_cons,
          Lib.answers, Lib.next, newPtr_isSome])
    | simp [faithfulOutcome, faithful_append, stateAfter_append, faithful, stateAfter_nil,
        stateAfter_cons,
        Lib.answers, Lib.next, newPtr_isSome]

/-! ## Validation (C1, C2) -/

/-- A text field reads as empty exactly when it is missing, is not a text, or is the
empty text. -/
theorem optString_eq_empty_iff (o : JSValue) (k : String) :
    optString o k = "" ↔
      o.Has k = false ∨ (o.Get k).IsString = false ∨ o.Get k = JSValue.string "" := by
  unfold optString
  cases hh : o.Has k
  · simp
  · cases hg : o.Get k <;> simp [JSValue.IsString, JSValue.asString]

/-- A binary field reads as empty exactly when it is missing, is not a buffer, or is the
empty buffer. -/
theorem optBuffer_eq_nil_iff (o : JSValue) (k : String) :
    optBuffer o k = [] ↔
      o.Has k = false ∨ (o.Get k).IsBuffer = false ∨ o.Get k = JSValue.buffer [] := by
  unfold optBuffer
  cases hh : o.Has k
  · simp
  · cases hg : o.Get k <;> simp [JSValue.IsBuffer, JSValue.asBytes]

/-- The relying-party id reads as empty exactly when `rp` is missing or not an object, or
its `id` is missing, not a text, or empty. -/
theorem credRpId_eq_empty_iff (options : JSValue) :
    credRpId options = "" ↔
      options.Has "rp" = false ∨ (options.Get "rp").IsObject = false ∨
        optString (options.Get "rp") "id" = "" := by
  unfold credRpId
  cases options.Has "rp" <;> cases (options.Get "rp").IsObject <;> simp

/-- The user id reads as empty exactly when `user` is missing or not an object, or its
`id` is missing, not a buffer, or empty. -/
theorem credUserId_eq_nil_iff (options : JSValue) :
    credUserId options = [] ↔
      options.Has "user" = false ∨ (options.Get "user").IsObject = false ∨
        optBuffer (options.Get "user") "id" = [] := by
  unfold credUserId
  cases options.Has "user" <;> cases (options.Get "user").IsObject <;> simp

/-- C1: for every credential-creation request (an object handed over as first argument)
whose relying-party id, user id or challenge is missing or empty, `MakeCredential` fails
with the error "Missing required parameters", returns the empty result object and has
issued no call at all to the protocol library. -/
theorem makeCredential_missing_parameters (lib : Lib σ) (s : σ) (options : JSValue)
    (rest : List JSValue) (hobj : options.IsObject = true)
    (hmissing : credRpId options = "" ∨ credUserId options = [] ∨
      optBuffer options "challenge" = []) :
    MakeCredential lib s (options :: rest) =
      ⟨JSValue.object [], some (JSError.Error "Missing required parameters"), []⟩ := by
  unfold MakeCredential
  dsimp only
  rw [if_neg (by simp [hobj]), if_pos (by simpa [or_assoc] using hmissing)]

/-- C2: for every assertion request (an object handed over as first argument) whose
relying-party id or challenge is missing or empty, `GetAssertion` fails with the error
"Missing required parameters", returns the empty result object and has issued no call at
all to the protocol library, whatever else the request holds. -/
theorem getAssertion_missing_parameters (lib : Lib σ) (s : σ) (options : JSValue)
    (rest : List JSValue) (hobj : options.IsObject = true)
    (hmissing : optString options "rpId" = "" ∨ optBuffer options "challenge" = []) :
    GetAssertion lib s (options :: rest) =
      ⟨JSValue.object [], some (JSError.Error "Missing required parameters"), []⟩ := by
  unfold GetAssertion
  dsimp only
  rw [if_neg (by simp [hobj]), if_pos (by simpa using hmissing)]

/-! ## Release of native allocations (C3) -/

theorem leakFree_of_heap_empty {t : Trace} (h : heapAfter t = Heap.empty) : leakFree t := by
  simp [leakFree, outstanding, h, Heap.empty]

theorem heapAfter_append (t u : Trace) :
    heapAfter (t ++ u) = u.foldl Heap.step (heapAfter t) := by
  simp [heapAfter, List.foldl_append]

theorem SessionExit.cred_session_heap {lib : Lib σ} {devicePath pin : String} {c : Nat} {t : Trace}
    {o : Outcome} (h : SessionExit lib devicePath pin (some c) t o)
    (ht : heapAfter t = ⟨[(Kind.credential, c)], false, false⟩) :
    heapAfter o.trace = Heap.empty := by
  cases h <;>
    simp [heapAfter_append, ht, Heap.step, Event.used, Event.allocated, Event.released,
      objOf, Heap.empty]

theorem BuildExit.cred_build_heap {lib : Lib σ} {options : JSValue} {rpId rpName : String}
    {userId : Bytes} {userName userDisplayName : String} {challenge : Bytes}
    {pin devicePath : String} {t : Trace} {o : Outcome}
    (h : BuildExit lib options rpId rpName userId userName userDisplayName challenge pin
      devicePath t o)
    (ht : heapAfter t = Heap.empty) : heapAfter o.trace = Heap.empty := by
  cases h with
  | cred_new_failed =>
    simp [heapAfter_append, ht, Heap.step, Event.used, Event.allocated, Event.released,
      objOf, Heap.empty]
  | setter_failed k hk r hr =>
    interval_cases k <;>
      simp [heapAfter_append, ht, Heap.step, Event.used, Event.allocated, Event.released,
        objOf, Heap.empty, credSetterCalls]
  | uv_failed uv huv r hr =>
    simp [heapAfter_append, ht, Heap.step, Event.used, Event.allocated, Event.released,
      objOf, Heap.empty, credSetterCalls]
  | session o ho =>
    apply ho.cred_session_heap
    cases uvSetting options <;>
      simp [heapAfter_append, ht, Heap.step, Event.used, Event.allocated, Event.released,
        objOf, Heap.empty, credSetterCalls]

theorem DeviceChoice.choice_heap {options : JSValue} {devicePath : String} {t : Trace}
    (h : DeviceChoice options devicePath t) : heapAfter t = Heap.empty := by
  cases h with
  | given h => rfl
  | first h dev_infos hp ndevs hn path =>
    rcases hp with rfl | rfl <;>
      simp [heapAfter, Heap.step, Event.used, Event.allocated, Event.released, objOf,
        Heap.empty]

theorem MakeCredential_heap (lib : Lib σ) (s : σ) (info : List JSValue) :
    heapAfter (MakeCredential lib s info).trace = Heap.empty := by
  have h := MakeCredential_exits lib s info
  generalize MakeCredential lib s info = o at h
  cases h with
  | not_an_object h => rfl
  | missing_parameters hobj h => rfl
  | no_devices hobj hrp huser hch hdev dev_infos hp r ndevs h =>
    rcases hp with rfl | rfl <;>
      simp [heapAfter, Heap.step, Event.used, Event.allocated, Event.released, objOf,
        Heap.empty]
  | built hobj hrp huser hch devicePath t hsel o ho => exact ho.cred_build_heap hsel.choice_heap

theorem heap_foldl_uses (h : Heap) (hd : h.doubleFree = false) (hu : h.useAfterFree = false)
    (es : List Event)
    (hes : ∀ e ∈ es, e.allocated = [] ∧ e.released = [] ∧ ∀ o ∈ e.used, o ∈ h.live) :
    es.foldl Heap.step h = h := by
  induction es with
  | nil => rfl
  | cons e es ih =>
    have he := hes e (List.mem_cons_self _ _)
    have hstep : Heap.step h e = h := by
      cases h with
      | mk live df uaf =>
        simp only at hd hu
        have hall : (e.used.all fun o => live.contains o) = true := by
          simpa using he.2.2
        simp only [Heap.step, he.1, he.2.1, hall, hd, hu, List.nil_append, List.diff_nil,
          List.all_nil, Bool.not_true, Bool.or_false]
    rw [List.foldl_cons, hstep]
    exact ih fun e' he' => hes e' (List.mem_cons_of_mem _ he')

theorem AssertSessionExit.assert_session_heap {lib : Lib σ} {devicePath pin : String} {c : Nat} {t : Trace}
    {o : Outcome} (h : AssertSessionExit lib devicePath pin (some c) t o)
    (ht : heapAfter t = ⟨[(Kind.assertion, c)], false, false⟩) :
    heapAfter o.trace = Heap.empty := by
  cases h <;>
    simp [heapAfter_append, ht, Heap.step, Event.used, Event.allocated, Event.released,
      objOf, Heap.empty]

theorem allow_events_heap (c : Nat) (h : Heap) (hc : (Kind.assertion, c) ∈ h.live)
    (hd : h.doubleFree = false) (hu : h.useAfterFree = false) (creds : List Bytes) :
    (creds.map fun x => Event.fido_assert_allow_cred (some c) x FIDO_OK).foldl Heap.step h
      = h := by
  apply heap_foldl_uses h hd hu
  intro e he
  rcases List.mem_map.mp he with ⟨x, _, rfl⟩
  simpa [Event.allocated, Event.released, Event.used, objOf] using hc

theorem AssertBuildExit.assert_build_heap {lib : Lib σ} {options : JSValue} {rpId : String}
    {challenge : Bytes} {allowedCredentials : List Bytes} {pin devicePath : String}
    {t : Trace} {o : Outcome}
    (h : AssertBuildExit lib options rpId challenge allowedCredentials pin devicePath t o)
    (ht : heapAfter t = Heap.empty) : heapAfter o.trace = Heap.empty := by
  have h3 : heapAfter (t ++ [Event.fido_assert_new (some t.length),
      Event.fido_assert_set_rp (some t.length) (c_str rpId) FIDO_OK,
      Event.fido_assert_set_clientdata_hash (some t.length) challenge FIDO_OK]) =
      ⟨[(Kind.assertion, t.length)], false, false⟩ := by
    simp [heapAfter_append, ht, Heap.step, Event.used, Event.allocated, Event.released,
      objOf, Heap.empty]
  have hloop : ∀ creds : List Bytes, heapAfter (t ++ [Event.fido_assert_new (some t.length),
      Event.fido_assert_set_rp (some t.length) (c_str rpId) FIDO_OK,
      Event.fido_assert_set_clientdata_hash (some t.length) challenge FIDO_OK] ++
      creds.map fun x => Event.fido_assert_allow_cred (some t.length) x FIDO_OK) =
      ⟨[(Kind.assertion, t.length)], false, false⟩ := by
    intro creds
    rw [heapAfter_append, h3]
    exact allow_events_heap _ _ (by simp) rfl rfl creds
  cases h with
  | assert_new_failed =>
    simp [heapAfter_append, ht, Heap.step, Event.used, Event.allocated, Event.released,
      objOf, Heap.empty]
  | rp_failed r hr =>
    simp [heapAfter_append, ht, Heap.step, Event.used, Event.allocated, Event.released,
      objOf, Heap.empty]
  | clientdata_failed r hr =>
    simp [heapAfter_append, ht, Heap.step, Event.used, Event.allocated, Event.released,
      objOf, Heap.empty]
  | allow_cred_failed pre cred post hsplit r hr =>
    have := hloop pre
    simp only [List.append_assoc, List.cons_append, List.nil_append] at this
    show heapAfter (t ++ _) = _
    rw [show (t ++ (Event.fido_assert_new (some t.length) ::
          Event.fido_assert_set_rp (some t.length) (c_str rpId) FIDO_OK ::
          Event.fido_assert_set_clientdata_hash (some t.length) challenge FIDO_OK ::
          ((pre.map fun c => Event.fido_assert_allow_cred (some t.length) c FIDO_OK) ++
            [Event.fido_assert_allow_cred (some t.length) cred r,
             Event.fido_assert_free (some t.length), Event.fido_strerr r]))) =
        (t ++ (Event.fido_assert_new (some t.length) ::
          Event.fido_assert_set_rp (some t.length) (c_str rpId) FIDO_OK ::
          Event.fido_assert_set_clientdata_hash (some t.length) challenge FIDO_OK ::
          (pre.map fun c => Event.fido_assert_allow_cred (some t.length) c FIDO_OK))) ++
            [Event.fido_assert_allow_cred (some t.length) cred r,
             Event.fido_assert_free (some t.length), Event.fido_strerr r] by simp]
    rw [heapAfter_append, this]
    simp [Heap.step, Event.used, Event.allocated, Event.released, objOf, Heap.empty]
  | uv_failed uv huv r hr =>
    have := hloop allowedCredentials
    simp only [List.append_assoc, List.cons_append, List.nil_append] at this
    show heapAfter (t ++ _) = _
    rw [show (t ++ (Event.fido_assert_new (some t.length) ::
          Event.fido_assert_set_rp (some t.length) (c_str rpId) FIDO_OK ::
          Event.fido_assert_set_clientdata_hash (some t.length) challenge FIDO_OK ::
          ((allowedCredentials.map fun c =>
              Event.fido_assert_allow_cred (some t.length) c FIDO_OK) ++
            [Event.fido_assert_set_uv (some t.length) uv r,
             Event.fido_assert_free (some t.length), Event.fido_strerr r]))) =
        (t ++ (Event.fido_assert_new (some t.length) ::
          Event.fido_assert_set_rp (some t.length) (c_str rpId) FIDO_OK ::
          Event.fido_assert_set_clientdata_hash (some t.length) challenge FIDO_OK ::
          (allowedCredentials.map fun c =>
              Event.fido_assert_allow_cred (some t.length) c FIDO_OK))) ++
            [Event.fido_assert_set_uv (some t.length) uv r,
             Event.fido_assert_free (some t.length), Event.fido_strerr r] by simp]
    rw [heapAfter_append, this]
    simp [Heap.step, Event.used, Event.allocated, Event.released, objOf, Heap.empty]
  | session o ho =>
    apply ho.assert_session_heap
    have := hloop allowedCredentials
    simp only [List.append_assoc, List.cons_append, List.nil_append] at this
    rw [show (t ++ (Event.fido_assert_new (some t.length) ::
          Event.fido_assert_set_rp (some t.length) (c_str rpId) FIDO_OK ::
          Event.fido_assert_set_clientdata_hash (some t.length) challenge FIDO_OK ::
          ((allowedCredentials.map fun c =>
              Event.fido_assert_allow_cred (some t.length) c FIDO_OK) ++
            (uvSetting options).toList.map fun uv =>
              Event.fido_assert_set_uv (some t.length) uv FIDO_OK))) =
        (t ++ (Event.fido_assert_new (some t.length) ::
          Event.fido_assert_set_rp (some t.length) (c_str rpId) FIDO_OK ::
          Event.fido_assert_set_clientdata_hash (some t.length) challenge FIDO_OK ::
          (allowedCredentials.map fun c =>
              Event.fido_assert_allow_cred (some t.length) c FIDO_OK))) ++
            (uvSetting options).toList.map fun uv =>
              Event.fido_assert_set_uv (some t.length) uv FIDO_OK by simp]
    rw [heapAfter_append, this]
    cases uvSetting options <;>
      simp [Heap.step, Event.used, Event.allocated, Event.released, objOf, Heap.empty]

theorem GetAssertion_heap (lib : Lib σ) (s : σ) (info : List JSValue) :
    heapAfter (GetAssertion lib s info).trace = Heap.empty := by
  have h := GetAssertion_exits lib s info
  generalize GetAssertion lib s info = o at h
  cases h with
  | not_an_object h => rfl
  | missing_parameters hobj h => rfl
  | no_devices hobj hrp hch hdev dev_infos hp r ndevs h =>
    rcases hp with rfl | rfl <;>
      simp [heapAfter, Heap.step, Event.used, Event.allocated, Event.released, objOf,
        Heap.empty]
  | built hobj hrp hch devicePath t hsel o ho => exact ho.assert_build_heap hsel.choice_heap

theorem ListDevices_loop_trace (lib : Lib σ) (s : σ) (dev_infos : Ptr) (is : List Nat) :
    ∀ (acc : List JSValue) (t : Trace),
      ∃ es : List Event, (ListDevices_loop lib s dev_infos is acc t).2 = t ++ es ∧
        ∀ e ∈ es, e.allocated = [] ∧ e.released = [] ∧
          e.used = objOf Kind.enumeration dev_infos := by
  induction is with
  | nil => intro acc t; exact ⟨[], by simp [ListDevices_loop], by simp⟩
  | cons i is ih =>
    intro acc t
    unfold ListDevices_loop
    dsimp only
    obtain ⟨es, hes, hall⟩ := ih
      (acc ++ [JSValue.object (objSet (objSet (objSet [] "path"
        (JSValue.string (lib.fido_dev_info_path s dev_infos i).val)) "manufacturer"
        (JSValue.string (lib.fido_dev_info_manufacturer_string s dev_infos i).val)) "product"
        (JSValue.string (lib.fido_dev_info_product_string s dev_infos i).val))])
      (t ++ [Event.fido_dev_info_ptr dev_infos i] ++
        [Event.fido_dev_info_path dev_infos i (lib.fido_dev_info_path s dev_infos i)] ++
        [Event.fido_dev_info_ptr dev_infos i] ++
        [Event.fido_dev_info_manufacturer_string dev_infos i
          (lib.fido_dev_info_manufacturer_string s dev_infos i)] ++
        [Event.fido_dev_info_ptr dev_infos i] ++
        [Event.fido_dev_info_product_string dev_infos i
          (lib.fido_dev_info_product_string s dev_infos i)])
    refine ⟨[Event.fido_dev_info_ptr dev_infos i,
        Event.fido_dev_info_path dev_infos i (lib.fido_dev_info_path s dev_infos i),
        Event.fido_dev_info_ptr dev_infos i,
        Event.fido_dev_info_manufacturer_string dev_infos i
          (lib.fido_dev_info_manufacturer_string s dev_infos i),
        Event.fido_dev_info_ptr dev_infos i,
        Event.fido_dev_info_product_string dev_infos i
          (lib.fido_dev_info_product_string s dev_infos i)] ++ es, ?_, ?_⟩
    · rw [hes]
      simp
    · intro e he
      rcases List.mem_append.mp he with he | he
      · simp only [List.mem_cons, List.mem_singleton, List.not_mem_nil, or_false] at he
        rcases he with rfl | rfl | rfl | rfl | rfl | rfl <;>
          simp [Event.allocated, Event.released, Event.used]
      · exact hall e he

theorem ListDevices_heap (lib : Lib σ) (s : σ) :
    heapAfter (ListDevices lib s).trace = Heap.empty := by
  unfold ListDevices
  dsimp only
  split
  · cases (lib.fido_dev_info_new s 64).1 <;>
      simp [heapAfter, newPtr, Heap.step, Event.used, Event.allocated, Event.released, objOf,
        Heap.empty]
  · obtain ⟨es, hes, hall⟩ := ListDevices_loop_trace lib
      (lib.fido_dev_info_manifest (lib.fido_dev_info_new s 64).2
        (newPtr [] (lib.fido_dev_info_new s 64).1) 64).2
      (newPtr [] (lib.fido_dev_info_new s 64).1)
      (List.range (lib.fido_dev_info_manifest (lib.fido_dev_info_new s 64).2
        (newPtr [] (lib.fido_dev_info_new s 64).1) 64).1.2) []
      ([Event.fido_dev_info_new 64 (newPtr [] (lib.fido_dev_info_new s 64).1)] ++
        [Event.fido_dev_info_manifest (newPtr [] (lib.fido_dev_info_new s 64).1) 64
          (lib.fido_dev_info_manifest (lib.fido_dev_info_new s 64).2
            (newPtr [] (lib.fido_dev_info_new s 64).1) 64).1.1
          (lib.fido_dev_info_manifest (lib.fido_dev_info_new s 64).2
            (newPtr [] (lib.fido_dev_info_new s 64).1) 64).1.2])
    rw [hes, heapAfter_append, heapAfter_append]
    have h2 : heapAfter ([Event.fido_dev_info_new 64 (newPtr [] (lib.fido_dev_info_new s 64).1)] ++
        [Event.fido_dev_info_manifest (newPtr [] (lib.fido_dev_info_new s 64).1) 64
          (lib.fido_dev_info_manifest (lib.fido_dev_info_new s 64).2
            (newPtr [] (lib.fido_dev_info_new s 64).1) 64).1.1
          (lib.fido_dev_info_manifest (lib.fido_dev_info_new s 64).2
            (newPtr [] (lib.fido_dev_info_new s 64).1) 64).1.2]) =
        ⟨objOf Kind.enumeration (newPtr [] (lib.fido_dev_info_new s 64).1), false, false⟩ := by
      cases (lib.fido_dev_info_new s 64).1 <;>
        simp [heapAfter, newPtr, Heap.step, Event.used, Event.allocated, Event.released, objOf,
          Heap.empty]
    rw [h2, heap_foldl_uses _ rfl rfl es (fun e he => ⟨(hall e he).1, (hall e he).2.1, by
      rw [(hall e he).2.2]; exact fun o ho => ho⟩)]
    cases (lib.fido_dev_info_new s 64).1 <;>
      simp [newPtr, Heap.step, Event.used, Event.allocated, Event.released, objOf, Heap.empty]

/-- C3: whatever the request and whichever library calls fail, after `ListDevices`,
`MakeCredential` or `GetAssertion` returns, the number of outstanding native allocations
(enumeration buffer, credential object, assertion object, device handle) is zero, no
object was released twice and no object was used after its release. -/
theorem native_allocations_released (lib : Lib σ) (s : σ) (info : List JSValue) :
    leakFree (ListDevices lib s).trace ∧ leakFree (MakeCredential lib s info).trace ∧
      leakFree (GetAssertion lib s info).trace :=
  ⟨leakFree_of_heap_empty (ListDevices_heap lib s),
   leakFree_of_heap_empty (MakeCredential_heap lib s info),
   leakFree_of_heap_empty (GetAssertion_heap lib s info)⟩

/-! ## What the trace shows -/

theorem filterMap_map_eq_nil {α β : Type} (f : Event → Option β) (g : α → Event)
    (h : ∀ a, f (g a) = none) (l : List α) : (l.map g).filterMap f = [] := by
  induction l with
  | nil => rfl
  | cons a l ih => simp [List.filterMap_cons, h a, ih]

theorem any_map_eq_false {α : Type} (f : Event → Bool) (g : α → Event)
    (h : ∀ a, f (g a) = false) (l : List α) : (l.map g).any f = false := by
  induction l with
  | nil => rfl
  | cons a l ih => simp [h a, ih]

/-! ## User verification (C4) -/

theorem uvSetting_toList (options : JSValue) :
    (uvSetting options).toList = uvExpected options := by
  unfold uvSetting uvExpected JSValue.Has JSValue.Get
  cases h : options.props.lookup "userVerification" with
  | none => simp
  | some v =>
    cases v <;> simp [JSValue.IsString, JSValue.asString]
    rename_i uv
    by_cases h1 : uv = "required"
    · simp [h1]
    · by_cases h2 : uv = "preferred"
      · simp [h2]
      · simp [h1, h2]

theorem SessionExit.cred_session_uv {lib : Lib σ} {devicePath pin : String} {cred : Ptr} {t : Trace}
    {o : Outcome} (h : SessionExit lib devicePath pin cred t o) :
    uvCalls o.trace = uvCalls t ∧ builderCompleted o.trace = true := by
  cases h <;> simp [uvCalls, builderCompleted, Event.uvOption, Event.isDevNew]

theorem BuildExit.cred_build_uv {lib : Lib σ} {options : JSValue} {rpId rpName : String}
    {userId : Bytes} {userName userDisplayName : String} {challenge : Bytes}
    {pin devicePath : String} {t : Trace} {o : Outcome}
    (h : BuildExit lib options rpId rpName userId userName userDisplayName challenge pin
      devicePath t o)
    (ht : uvCalls t = []) (hb : builderCompleted t = false) :
    (uvCalls o.trace = [] ∨ uvCalls o.trace = uvExpected options) ∧
      (builderCompleted o.trace = true → uvCalls o.trace = uvExpected options) := by
  unfold uvCalls builderCompleted at *
  cases h with
  | cred_new_failed => simp [ht, hb, Event.uvOption, Event.isDevNew]
  | setter_failed k hk r hr =>
    interval_cases k <;> simp [ht, hb, Event.uvOption, Event.isDevNew, credSetterCalls]
  | uv_failed uv huv r hr =>
    have := uvSetting_toList options
    rw [huv] at this
    simp [ht, hb, Event.uvOption, Event.isDevNew, credSetterCalls, ← this]
  | session o ho =>
    have h1 := ho.cred_session_uv
    unfold uvCalls at h1
    rw [h1.1, ← uvSetting_toList]
    cases uvSetting options <;> simp [ht, Event.uvOption, credSetterCalls]

theorem AssertSessionExit.assert_session_uv {lib : Lib σ} {devicePath pin : String} {assert : Ptr}
    {t : Trace} {o : Outcome} (h : AssertSessionExit lib devicePath pin assert t o) :
    uvCalls o.trace = uvCalls t ∧ builderCompleted o.trace = true := by
  cases h <;> simp [uvCalls, builderCompleted, Event.uvOption, Event.isDevNew]

theorem AssertBuildExit.assert_build_uv {lib : Lib σ} {options : JSValue} {rpId : String}
    {challenge : Bytes} {allowedCredentials : List Bytes} {pin devicePath : String}
    {t : Trace} {o : Outcome}
    (h : AssertBuildExit lib options rpId challenge allowedCredentials pin devicePath t o)
    (ht : uvCalls t = []) (hb : builderCompleted t = false) :
    (uvCalls o.trace = [] ∨ uvCalls o.trace = uvExpected options) ∧
      (builderCompleted o.trace = true → uvCalls o.trace = uvExpected options) := by
  unfold uvCalls builderCompleted at *
  cases h with
  | assert_new_failed => simp [ht, hb, Event.uvOption, Event.isDevNew]
  | rp_failed r hr => simp [ht, hb, Event.uvOption, Event.isDevNew]
  | clientdata_failed r hr => simp [ht, hb, Event.uvOption, Event.isDevNew]
  | allow_cred_failed pre cred post hsplit r hr =>
    simp [ht, hb, Event.uvOption, Event.isDevNew, filterMap_map_eq_nil, any_map_eq_false]
  | uv_failed uv huv r hr =>
    have := uvSetting_toList options
    rw [huv] at this
    simp [ht, hb, Event.uvOption, Event.isDevNew, filterMap_map_eq_nil, any_map_eq_false,
      ← this]
  | session o ho =>
    have h1 := ho.assert_session_uv
    unfold uvCalls at h1
    rw [h1.1, ← uvSetting_toList]
    cases uvSetting options <;> simp [ht, Event.uvOption, filterMap_map_eq_nil]

theorem DeviceChoice.quiet {options : JSValue} {devicePath : String} {t : Trace}
    (h : DeviceChoice options devicePath t) :
    uvCalls t = [] ∧ builderCompleted t = false ∧ openedPaths t = [] ∧
      t.any Event.touchesDevice = false := by
  cases h <;>
    simp [uvCalls, builderCompleted, openedPaths, Event.uvOption, Event.isDevNew,
      Event.openedPath, Event.touchesDevice]

/-- C4 (as amended): in `MakeCredential` and in `GetAssertion` the user-verification
setter is called at most once, and only with the option the policy prescribes:
"required" gives true, "preferred" gives omit, any other text gives false, and for an
absent (or non-text) `userVerification` the setter is not called at all.  Whenever the
builder completes (the operation goes on to allocate the device handle) the setter has
been called exactly as prescribed. -/
theorem user_verification_mapping (lib : Lib σ) (s : σ) (info : List JSValue) :
    ((uvCalls (MakeCredential lib s info).trace = [] ∨
        uvCalls (MakeCredential lib s info).trace =
          uvExpected (info.getD 0 JSValue.undefined)) ∧
      (builderCompleted (MakeCredential lib s info).trace = true →
        uvCalls (MakeCredential lib s info).trace =
          uvExpected (info.getD 0 JSValue.undefined))) ∧
    ((uvCalls (GetAssertion lib s info).trace = [] ∨
        uvCalls (GetAssertion lib s info).trace =
          uvExpected (info.getD 0 JSValue.undefined)) ∧
      (builderCompleted (GetAssertion lib s info).trace = true →
        uvCalls (GetAssertion lib s info).trace =
          uvExpected (info.getD 0 JSValue.undefined))) := by
  constructor
  · have h := MakeCredential_exits lib s info
    generalize MakeCredential lib s info = o at h
    cases h with
    | not_an_object h => simp [uvCalls, builderCompleted]
    | missing_parameters hobj h => simp [uvCalls, builderCompleted]
    | no_devices hobj hrp huser hch hdev dev_infos hp r ndevs h =>
      simp [uvCalls, builderCompleted, Event.uvOption, Event.isDevNew]
    | built hobj hrp huser hch devicePath t hsel o ho =>
      exact ho.cred_build_uv hsel.quiet.1 hsel.quiet.2.1
  · have h := GetAssertion_exits lib s info
    generalize GetAssertion lib s info = o at h
    cases h with
    | not_an_object h => simp [uvCalls, builderCompleted]
    | missing_parameters hobj h => simp [uvCalls, builderCompleted]
    | no_devices hobj hrp hch hdev dev_infos hp r ndevs h =>
      simp [uvCalls, builderCompleted, Event.uvOption, Event.isDevNew]
    | built hobj hrp hch devicePath t hsel o ho =>
      exact ho.assert_build_uv hsel.quiet.1 hsel.quiet.2.1

/-! ## Default device selection (C8, C9) -/

theorem takeWhile_eq_self_of_all {α : Type} (p : α → Bool) (l : List α)
    (h : l.all p = true) : l.takeWhile p = l := by
  induction l with
  | nil => rfl
  | cons a l ih =>
    simp only [List.all_cons, Bool.and_eq_true] at h
    simp [List.takeWhile_cons, h.1, ih h.2]

/-- Handing a C string through a `std::string` and back leaves it unchanged. -/
theorem c_str_val (p : CStr) : c_str p.val = p := by
  apply Subtype.ext
  have h : p.val.data.all (fun c => c != NUL) = true := p.property
  simp only [c_str, takeWhile_eq_self_of_all _ _ h]

theorem SessionExit.cred_session_paths {lib : Lib σ} {devicePath pin : String} {cred : Ptr} {t : Trace}
    {o : Outcome} (h : SessionExit lib devicePath pin cred t o) :
    enumerations o.trace = enumerations t ∧ enumeratedPaths o.trace = enumeratedPaths t ∧
      (openedPaths o.trace = openedPaths t ∨
        openedPaths o.trace = openedPaths t ++ [c_str devicePath]) ∧
      (o.exception = none → openedPaths o.trace = openedPaths t ++ [c_str devicePath]) := by
  cases h <;>
    simp [enumerations, enumeratedPaths, openedPaths, Event.enumeration,
      Event.enumeratedPath, Event.openedPath]

theorem BuildExit.cred_build_paths {lib : Lib σ} {options : JSValue} {rpId rpName : String}
    {userId : Bytes} {userName userDisplayName : String} {challenge : Bytes}
    {pin devicePath : String} {t : Trace} {o : Outcome}
    (h : BuildExit lib options rpId rpName userId userName userDisplayName challenge pin
      devicePath t o) :
    enumerations o.trace = enumerations t ∧ enumeratedPaths o.trace = enumeratedPaths t ∧
      (openedPaths o.trace = openedPaths t ∨
        openedPaths o.trace = openedPaths t ++ [c_str devicePath]) ∧
      (o.exception = none → openedPaths o.trace = openedPaths t ++ [c_str devicePath]) := by
  cases h with
  | cred_new_failed =>
    simp [enumerations, enumeratedPaths, openedPaths, Event.enumeration,
      Event.enumeratedPath, Event.openedPath]
  | setter_failed k hk r hr =>
    interval_cases k <;>
      simp [enumerations, enumeratedPaths, openedPaths, Event.enumeration,
        Event.enumeratedPath, Event.openedPath, credSetterCalls]
  | uv_failed uv huv r hr =>
    simp [enumerations, enumeratedPaths, openedPaths, Event.enumeration,
      Event.enumeratedPath, Event.openedPath, credSetterCalls]
  | session o ho =>
    have h1 := ho.cred_session_paths
    cases huv : uvSetting options <;> rw [huv] at h1 <;>
      simpa [enumerations, enumeratedPaths, openedPaths, Event.enumeration,
        Event.enumeratedPath, Event.openedPath, credSetterCalls] using h1

theorem filterMap_const_none {α β : Type} (l : List α) :
    l.filterMap (fun _ => (none : Option β)) = [] := by
  induction l with
  | nil => rfl
  | cons a l ih => simp [List.filterMap_cons, ih]

theorem AssertSessionExit.assert_session_paths {lib : Lib σ} {devicePath pin : String} {assert : Ptr}
    {t : Trace} {o : Outcome} (h : AssertSessionExit lib devicePath pin assert t o) :
    enumerations o.trace = enumerations t ∧ enumeratedPaths o.trace = enumeratedPaths t ∧
      (openedPaths o.trace = openedPaths t ∨
        openedPaths o.trace = openedPaths t ++ [c_str devicePath]) ∧
      (o.exception = none → openedPaths o.trace = openedPaths t ++ [c_str devicePath]) := by
  cases h <;>
    simp [enumerations, enumeratedPaths, openedPaths, Event.enumeration,
      Event.enumeratedPath, Event.openedPath]

theorem AssertBuildExit.assert_build_paths {lib : Lib σ} {options : JSValue} {rpId : String}
    {challenge : Bytes} {allowedCredentials : List Bytes} {pin devicePath : String}
    {t : Trace} {o : Outcome}
    (h : AssertBuildExit lib options rpId challenge allowedCredentials pin devicePath t o) :
    enumerations o.trace = enumerations t ∧ enumeratedPaths o.trace = enumeratedPaths t ∧
      (openedPaths o.trace = openedPaths t ∨
        openedPaths o.trace = openedPaths t ++ [c_str devicePath]) ∧
      (o.exception = none → openedPaths o.trace = openedPaths t ++ [c_str devicePath]) := by
  cases h with
  | assert_new_failed =>
    simp [enumerations, enumeratedPaths, openedPaths, Event.enumeration,
      Event.enumeratedPath, Event.openedPath]
  | rp_failed r hr =>
    simp [enumerations, enumeratedPaths, openedPaths, Event.enumeration,
      Event.enumeratedPath, Event.openedPath]
  | clientdata_failed r hr =>
    simp [enumerations, enumeratedPaths, openedPaths, Event.enumeration,
      Event.enumeratedPath, Event.openedPath]
  | allow_cred_failed pre cred post hsplit r hr =>
    simp [enumerations, enumeratedPaths, openedPaths, Event.enumeration,
      Event.enumeratedPath, Event.openedPath, filterMap_map_eq_nil]
  | uv_failed uv huv r hr =>
    simp [enumerations, enumeratedPaths, openedPaths, Event.enumeration,
      Event.enumeratedPath, Event.openedPath, filterMap_map_eq_nil]
  | session o ho =>
    have h1 := ho.assert_session_paths
    cases huv : uvSetting options <;> rw [huv] at h1 <;>
      simpa [enumerations, enumeratedPaths, openedPaths, Event.enumeration,
        Event.enumeratedPath, Event.openedPath, Function.comp_def, filterMap_const_none]
        using h1

theorem SessionExit.cred_session_opens {lib : Lib σ} {devicePath pin : String} {cred : Ptr}
    {t : Trace} {o : Outcome} (h : SessionExit lib devicePath pin cred t o) :
    (∃ u : Trace, o.trace = t ++ u) ∧
    (o.trace.any Event.builderFailure = false →
      openedPaths o.trace = openedPaths t ++ [c_str devicePath]) := by
  cases h <;>
    exact ⟨⟨_, rfl⟩, by simp [openedPaths, Event.openedPath, Event.builderFailure]⟩

theorem BuildExit.cred_build_opens {lib : Lib σ} {options : JSValue} {rpId rpName : String}
    {userId : Bytes} {userName userDisplayName : String} {challenge : Bytes}
    {pin devicePath : String} {t : Trace} {o : Outcome}
    (h : BuildExit lib options rpId rpName userId userName userDisplayName challenge pin
      devicePath t o) : extendsSelection devicePath t o := by
  have hp := h.cred_build_paths
  refine ⟨?_, hp.1, hp.2.1, hp.2.2.1, ?_, hp.2.2.2⟩
  · cases h with
    | cred_new_failed => exact ⟨_, rfl⟩
    | setter_failed k hk r hr => exact ⟨_, rfl⟩
    | uv_failed uv huv r hr => exact ⟨_, rfl⟩
    | session o ho =>
      obtain ⟨u, hu⟩ := ho.cred_session_opens.1
      exact ⟨_, by rw [hu, List.append_assoc]⟩
  · cases h with
    | cred_new_failed => simp [Event.builderFailure]
    | setter_failed k hk r hr =>
      interval_cases k <;> simp [Event.builderFailure, credSetterCalls, hr]
    | uv_failed uv huv r hr => simp [Event.builderFailure, credSetterCalls, hr]
    | session o ho =>
      intro hb
      have h1 := ho.cred_session_opens.2 hb
      cases huv : uvSetting options <;> rw [huv] at h1 <;>
        simpa [openedPaths, Event.openedPath, credSetterCalls] using h1

theorem AssertSessionExit.assert_session_opens {lib : Lib σ} {devicePath pin : String}
    {assert : Ptr} {t : Trace} {o : Outcome}
    (h : AssertSessionExit lib devicePath pin assert t o) :
    (∃ u : Trace, o.trace = t ++ u) ∧
    (o.trace.any Event.builderFailure = false →
      openedPaths o.trace = openedPaths t ++ [c_str devicePath]) := by
  cases h <;>
    exact ⟨⟨_, rfl⟩, by simp [openedPaths, Event.openedPath, Event.builderFailure]⟩

theorem AssertBuildExit.assert_build_opens {lib : Lib σ} {options : JSValue} {rpId : String}
    {challenge : Bytes} {allowedCredentials : List Bytes} {pin devicePath : String}
    {t : Trace} {o : Outcome}
    (h : AssertBuildExit lib options rpId challenge allowedCredentials pin devicePath t o) :
    extendsSelection devicePath t o := by
  have hp := h.assert_build_paths
  refine ⟨?_, hp.1, hp.2.1, hp.2.2.1, ?_, hp.2.2.2⟩
  · cases h with
    | assert_new_failed => exact ⟨_, rfl⟩
    | rp_failed r hr => exact ⟨_, rfl⟩
    | clientdata_failed r hr => exact ⟨_, rfl⟩
    | allow_cred_failed pre cred post hsplit r hr => exact ⟨_, rfl⟩
    | uv_failed uv huv r hr => exact ⟨_, rfl⟩
    | session o ho =>
      obtain ⟨u, hu⟩ := ho.assert_session_opens.1
      exact ⟨_, by rw [hu, List.append_assoc]⟩
  · cases h with
    | assert_new_failed => simp [Event.builderFailure]
    | rp_failed r hr => simp [Event.builderFailure, hr]
    | clientdata_failed r hr => simp [Event.builderFailure, hr]
    | allow_cred_failed pre cred post hsplit r hr => simp [Event.builderFailure, hr]
    | uv_failed uv huv r hr => simp [Event.builderFailure, hr]
    | session o ho =>
      intro hb
      have h1 := ho.assert_session_opens.2 hb
      cases huv : uvSetting options <;> rw [huv] at h1 <;>
        simpa [openedPaths, Event.openedPath, Function.comp_def, filterMap_const_none]
          using h1

/-- The outcome of a stage that is entered with the path of the first enumerated device,
after an enumeration that found a device, obeys the rule of C8. -/
theorem defaultDeviceRule_of_first (lib : Lib σ) (s : σ) (o : Outcome)
    (hf : faithful lib s o.trace) (hn : (enumerationAnswer lib s).2 ≠ 0)
    (h : extendsSelection (firstDevicePath lib s).val
      [Event.fido_dev_info_new 64 (enumerationBuffer lib s),
       Event.fido_dev_info_manifest (enumerationBuffer lib s) 64 (enumerationAnswer lib s).1
         (enumerationAnswer lib s).2,
       Event.fido_dev_info_ptr (enumerationBuffer lib s) 0,
       Event.fido_dev_info_path (enumerationBuffer lib s) 0 (firstDevicePath lib s),
       Event.fido_dev_info_free (enumerationBuffer lib s) (enumerationAnswer lib s).2] o) :
    defaultDeviceRule lib s o := by
  obtain ⟨⟨u, hu⟩, he, hp, ho, hb, hx⟩ := h
  refine ⟨hf, ⟨_, by rw [hu]; rfl⟩, ?_, ?_, ?_⟩
  · rw [he]
    simp [enumerations, Event.enumeration]
  · intro _ _
    refine ⟨?_, ?_, ?_, ?_⟩
    · rw [hp]
      simp [enumeratedPaths, Event.enumeratedPath]
    · simpa [openedPaths, Event.openedPath, c_str_val] using ho
    · intro hbf
      simpa [openedPaths, Event.openedPath, c_str_val] using hb hbf
    · intro hex
      simpa [openedPaths, Event.openedPath, c_str_val] using hx hex
  · intro _ h0
    exact absurd h0 hn

/-- The outcome of default device selection when the enumeration fails or finds no
device obeys the rule of C8. -/
theorem defaultDeviceRule_of_none (lib : Lib σ) (s : σ)
    (h : (enumerationAnswer lib s).1 ≠ FIDO_OK ∨ (enumerationAnswer lib s).2 = 0) :
    defaultDeviceRule lib s
      ⟨JSValue.object [], some (JSError.Error "No FIDO2 devices found"),
        [Event.fido_dev_info_new 64 (enumerationBuffer lib s),
         Event.fido_dev_info_manifest (enumerationBuffer lib s) 64 (enumerationAnswer lib s).1
           (enumerationAnswer lib s).2,
         Event.fido_dev_info_free (enumerationBuffer lib s) (enumerationAnswer lib s).2]⟩ := by
  refine ⟨?_, ⟨_, rfl⟩, ?_, ?_, ?_⟩
  · simp [faithful, Lib.answers, Lib.next, enumerationBuffer, enumerationAnswer,
      newPtr_isSome]
  · simp [enumerations, Event.enumeration]
  · intro hr hn
    rcases h with h | h
    · exact absurd hr h
    · omega
  · intro hr h0
    refine ⟨rfl, by simp [Event.touchesDevice], ?_⟩
    simp only [hr, h0]

/-- C8: default device selection in `MakeCredential` and `GetAssertion`, on a request
that passes validation and names no device.  Both operations start by enumerating the
devices.  When the library reports success with at least one device, the device opened
is the one whose path the library reports for enumeration index 0: no other path is
read, no other device is opened, and that device is opened unless an allocation or a
builder setter fails first.  When the library reports success with no device, the
operation fails with "No FIDO2 devices found" without allocating a protocol object or a
device handle and without opening a device. -/
theorem default_device_selection (lib : Lib σ) (s : σ) (options : JSValue)
    (rest : List JSValue) (hobj : options.IsObject = true)
    (hdev : (options.Has "device" && (options.Get "device").IsString) = false)
    (hch : optBuffer options "challenge" ≠ []) :
    (credRpId options ≠ "" → credUserId options ≠ [] →
      defaultDeviceRule lib s (MakeCredential lib s (options :: rest))) ∧
    (optString options "rpId" ≠ "" →
      defaultDeviceRule lib s (GetAssertion lib s (options :: rest))) := by
  constructor
  · intro hrp huser
    have hf := MakeCredential_faithful lib s (options :: rest)
    revert hf
    unfold MakeCredential
    dsimp only
    rw [if_neg (by simp [hobj]), if_neg (by simp [hrp, huser, hch]),
      if_neg (by simp [hdev])]
    apply Outcome.ite_ind (P := fun o => faithful lib s o.trace → defaultDeviceRule lib s o)
      <;> intro h4 <;> intro hf
    · exact defaultDeviceRule_of_none lib s (by simpa using h4)
    · have h5 : (enumerationAnswer lib s).1 = FIDO_OK ∧ (enumerationAnswer lib s).2 ≠ 0 := by
        simpa [not_or] using h4
      exact defaultDeviceRule_of_first lib s _ hf h5.2
        (MakeCredential_build_exits _ _ _ _ _ _ _ _ _ _ _ _).cred_build_opens
  · intro hrp
    have hf := GetAssertion_faithful lib s (options :: rest)
    revert hf
    unfold GetAssertion
    dsimp only
    rw [if_neg (by simp [hobj]), if_neg (by simp [hrp, hch]), if_neg (by simp [hdev])]
    apply Outcome.ite_ind (P := fun o => faithful lib s o.trace → defaultDeviceRule lib s o)
      <;> intro h4 <;> intro hf
    · exact defaultDeviceRule_of_none lib s (by simpa using h4)
    · have h5 : (enumerationAnswer lib s).1 = FIDO_OK ∧ (enumerationAnswer lib s).2 ≠ 0 := by
        simpa [not_or] using h4
      exact defaultDeviceRule_of_first lib s _ hf h5.2
        (GetAssertion_build_exits _ _ _ _ _ _ _ _ _).assert_build_opens

theorem DeviceChoice.failed_rule {options : JSValue} {devicePath : String} {t : Trace}
    (h : DeviceChoice options devicePath t) {o : Outcome}
    (hp : enumerations o.trace = enumerations t) : failedEnumerationRule o := by
  intro r n hn hr
  rw [hp] at hn
  cases h with
  | given h => simp [enumerations] at hn
  | first h dev_infos hptr ndevs hne path =>
    simp [enumerations, Event.enumeration] at hn
    exact absurd hn.1 hr

/-- C9 (as amended): in `MakeCredential` and `GetAssertion`, a failed enumeration during
default device selection is reported by the same error "No FIDO2 devices found" as an
enumeration that finds no device; the enumeration buffer is released and nothing else is
called. -/
theorem failed_enumeration_reported_as_no_device (lib : Lib σ) (s : σ)
    (info : List JSValue) :
    failedEnumerationRule (MakeCredential lib s info) ∧
      failedEnumerationRule (GetAssertion lib s info) := by
  constructor
  · have h := MakeCredential_exits lib s info
    generalize MakeCredential lib s info = o at h
    cases h with
    | not_an_object h => intro r n hn; simp [enumerations] at hn
    | missing_parameters hobj h => intro r n hn; simp [enumerations] at hn
    | no_devices hobj hrp huser hch hdev dev_infos hp r ndevs h =>
      intro r' n hn _
      have : r = r' ∧ n = ndevs := by
        simpa [enumerations, Event.enumeration, eq_comm] using hn
      obtain ⟨rfl, rfl⟩ := this
      exact ⟨rfl, dev_infos, rfl⟩
    | built hobj hrp huser hch devicePath t hsel o ho => exact hsel.failed_rule ho.cred_build_paths.1
  · have h := GetAssertion_exits lib s info
    generalize GetAssertion lib s info = o at h
    cases h with
    | not_an_object h => intro r n hn; simp [enumerations] at hn
    | missing_parameters hobj h => intro r n hn; simp [enumerations] at hn
    | no_devices hobj hrp hch hdev dev_infos hp r ndevs h =>
      intro r' n hn _
      have : r = r' ∧ n = ndevs := by
        simpa [enumerations, Event.enumeration, eq_comm] using hn
      obtain ⟨rfl, rfl⟩ := this
      exact ⟨rfl, dev_infos, rfl⟩
    | built hobj hrp hch devicePath t hsel o ho => exact hsel.failed_rule ho.assert_build_paths.1

/-! ## Marshalling of the results (C5, C6, C7) -/

theorem makeBuffer_copyOf (data : Nat → Byte) (len : Nat) :
    copyOf data len (makeBuffer data len) := by
  constructor
  · simp [makeBuffer]
  · intro i hi
    simp [makeBuffer, List.getElem?_map, List.getElem?_range hi]

theorem copyOf_unique {data : Nat → Byte} {len : Nat} {b : Bytes} (h : copyOf data len b) :
    b = makeBuffer data len := by
  apply List.ext_get?
  intro i
  have h2 := makeBuffer_copyOf data len
  by_cases hi : i < len
  · rw [h.2 i hi, h2.2 i hi]
  · rw [List.get?_eq_none.mpr (by rw [h.1]; omega),
      List.get?_eq_none.mpr (by rw [h2.1]; omega)]

theorem SessionExit.result {lib : Lib σ} {devicePath pin : String} {cred : Ptr} {t : Trace}
    {o : Outcome} (h : SessionExit lib devicePath pin cred t o) (s : σ)
    (hf : faithful lib s o.trace) (hno : o.trace.any Event.failed = false) :
    o.exception = none ∧ credentialResultRule lib s o := by
  cases h with
  | dev_new_failed => simp [Event.failed, Event.builderFailure] at hno
  | open_failed r hr => simp [Event.failed, Event.builderFailure, hr] at hno
  | make_cred_failed r hr => simp [Event.failed, Event.builderFailure, hr] at hno
  | done id_len id_ptr authData_len authData_ptr attestation_len attestation_ptr =>
    have hf' := hf
    simp only [faithful_append, faithful, Lib.answers, Lib.next, stateAfter_cons,
      stateAfter_nil, and_true, true_and] at hf'
    obtain ⟨-, -, -, -, h1, h2, h3, h4, h5, h6⟩ := hf'
    subst h1 h2 h3 h4 h5 h6
    refine ⟨rfl, hf, t ++ [Event.fido_dev_new (some t.length),
        Event.fido_dev_open (some t.length) (c_str devicePath) FIDO_OK],
      some t.length, cred, pinArg pin, _, _, _, _, ?_, ?_, makeBuffer_copyOf _ _,
      makeBuffer_copyOf _ _, makeBuffer_copyOf _ _, rfl, rfl⟩
    · simp [stateAfter_append, stateAfter_cons, stateAfter_nil, Lib.next]
    · simp

/-- C5: for every credential-creation request that passes validation and in whose run no
call to the library fails (every allocation and builder setter, the device open and the
transaction succeed), `MakeCredential` succeeds; its last calls are the transaction and
the reads of the credential id, the authenticator data and the attestation from the
credential object, and the result is exactly
`{id, rawId, response: {authenticatorData, attestationObject}, type: "public-key"}` where
`id` and `rawId` are both the same copy of the credential id the library reports for the
credential object after the transaction, and the two response fields are copies of the
authenticator data and the attestation it reports, each with unchanged length and
content. -/
theorem makeCredential_result (lib : Lib σ) (s : σ) (options : JSValue)
    (rest : List JSValue) (hobj : options.IsObject = true) (hrp : credRpId options ≠ "")
    (huser : credUserId options ≠ []) (hch : optBuffer options "challenge" ≠ [])
    (hno : (MakeCredential lib s (options :: rest)).trace.any Event.failed = false) :
    (MakeCredential lib s (options :: rest)).exception = none ∧
      credentialResultRule lib s (MakeCredential lib s (options :: rest)) := by
  have hf := MakeCredential_faithful lib s (options :: rest)
  have h := MakeCredential_exits lib s (options :: rest)
  generalize MakeCredential lib s (options :: rest) = o at h hno hf
  cases h with
  | not_an_object h => simp [hobj] at h
  | missing_parameters _ h =>
    simp only [List.getD_cons_zero] at h
    rcases h with h | h | h
    · exact absurd h hrp
    · exact absurd h huser
    · exact absurd h hch
  | no_devices _ _ _ _ hdev dev_infos hp r ndevs h =>
    rcases h with h | h <;> simp [Event.failed, Event.builderFailure, h] at hno
  | built _ _ _ _ devicePath t hsel o ho =>
    cases ho with
    | cred_new_failed => simp [Event.failed, Event.builderFailure] at hno
    | setter_failed k hk r hr =>
      interval_cases k <;>
        simp [Event.failed, Event.builderFailure, credSetterCalls, hr] at hno
    | uv_failed uv huv r hr =>
      simp [Event.failed, Event.builderFailure, credSetterCalls, hr] at hno
    | session o ho => exact ho.result s hf hno

theorem DeviceChoice.no_transaction {options : JSValue} {devicePath : String} {t : Trace}
    (h : DeviceChoice options devicePath t) : transactionStatuses t = [] := by
  cases h <;> simp [transactionStatuses]

/-! ### Assertions -/

theorem makeBuffer_ne_nil (data : Nat → Byte) {len : Nat} (h : len > 0) :
    makeBuffer data len ≠ [] := by
  intro hnil
  have := (makeBuffer_copyOf data len).1
  rw [hnil] at this
  simp at this
  omega

theorem makeBuffer_isCopy (data : Nat → Byte) (len : Nat) :
    isCopy (JSValue.buffer (makeBuffer data len)) data len :=
  ⟨_, makeBuffer_copyOf data len, rfl⟩

theorem isCopy_eq {v : JSValue} {data : Nat → Byte} {len : Nat} (h : isCopy v data len) :
    v = JSValue.buffer (makeBuffer data len) := by
  obtain ⟨b, hb, rfl⟩ := h
  rw [copyOf_unique hb]

theorem assert_session_state (lib : Lib σ) (s : σ) (t : Trace) (devicePath : String)
    (assert : Ptr) (pin : Option CStr) :
    stateAfter lib s
      ((t ++ [Event.fido_dev_new (some t.length),
          Event.fido_dev_open (some t.length) (c_str devicePath) FIDO_OK]) ++
        [Event.fido_dev_get_assert (some t.length) assert pin FIDO_OK,
         Event.fido_dev_close (some t.length), Event.fido_dev_free (some t.length)]) =
    lib.fido_dev_free
      (lib.fido_dev_close
        (lib.fido_dev_get_assert
          (lib.fido_dev_open (lib.fido_dev_new (stateAfter lib s t)).2 (some t.length)
            (c_str devicePath)).2
          (some t.length) assert pin).2
        (some t.length))
      (some t.length) := by
  simp [stateAfter_append, stateAfter_cons, stateAfter_nil, Lib.next]

theorem AssertSessionExit.user_handle {lib : Lib σ} {devicePath pin : String} {assert : Ptr}
    {t : Trace} {o : Outcome} (h : AssertSessionExit lib devicePath pin assert t o) (s : σ)
    (hf : faithful lib s o.trace)
    (ht : userIdLens t = [] ∧ userIdPtrs t = []) (hok : o.exception = none) :
    userHandleRule lib s o := by
  unfold userIdLens userIdPtrs at ht
  have hS := assert_session_state lib s t devicePath assert (pinArg pin)
  cases h with
  | dev_new_failed => simp at hok
  | open_failed r hr => simp at hok
  | get_assert_failed r hr => simp at hok
  | no_assertion => simp at hok
  | done_with_user_handle assert_count hcount id_len id_ptr authData_len authData_ptr
      sig_len sig_ptr user_id_len hlen user_id_ptr =>
    have hf' := hf
    simp only [faithful_append, faithful, Lib.answers, Lib.next, stateAfter_cons,
      stateAfter_nil, and_true, true_and] at hf'
    rw [← hS] at hf'
    obtain ⟨-, -, -, -, h0, -, -, -, -, -, -, h7, h8⟩ := hf'
    refine ⟨hf, t ++ [Event.fido_dev_new (some t.length),
        Event.fido_dev_open (some t.length) (c_str devicePath) FIDO_OK],
      [Event.fido_assert_count assert assert_count,
       Event.fido_assert_id_len assert 0 id_len, Event.fido_assert_id_ptr assert 0 id_ptr,
       Event.fido_assert_authdata_len assert 0 authData_len,
       Event.fido_assert_authdata_ptr assert 0 authData_ptr,
       Event.fido_assert_sig_len assert 0 sig_len,
       Event.fido_assert_sig_ptr assert 0 sig_ptr,
       Event.fido_assert_user_id_len assert 0 user_id_len,
       Event.fido_assert_user_id_ptr assert 0 user_id_ptr,
       Event.fido_assert_free assert],
      some t.length, assert, pinArg pin, _, rfl, ?_, h0 ▸ hcount, ?_, ?_, ?_, ?_⟩
    · simp
    · rw [← h7]
      simp [userIdLens, ht.1]
    · rw [← h7]
      simp only [userHandleOf, JSValue.Get, JSValue.props, List.lookup]
      simp
      omega
    · intro _
      rw [← h7, ← h8]
      refine ⟨by simp [userIdPtrs, ht.2], ?_⟩
      simp only [userHandleOf, JSValue.Get, JSValue.props, List.lookup]
      exact makeBuffer_isCopy _ _
    · simp only [userHandleOf, JSValue.Get, JSValue.props, List.lookup]
      simpa using makeBuffer_ne_nil _ hlen
  | done_without_user_handle assert_count hcount id_len id_ptr authData_len authData_ptr
      sig_len sig_ptr =>
    have hf' := hf
    simp only [faithful_append, faithful, Lib.answers, Lib.next, stateAfter_cons,
      stateAfter_nil, and_true, true_and] at hf'
    rw [← hS] at hf'
    obtain ⟨-, -, -, -, h0, -, -, -, -, -, -, h7⟩ := hf'
    refine ⟨hf, t ++ [Event.fido_dev_new (some t.length),
        Event.fido_dev_open (some t.length) (c_str devicePath) FIDO_OK],
      [Event.fido_assert_count assert assert_count,
       Event.fido_assert_id_len assert 0 id_len, Event.fido_assert_id_ptr assert 0 id_ptr,
       Event.fido_assert_authdata_len assert 0 authData_len,
       Event.fido_assert_authdata_ptr assert 0 authData_ptr,
       Event.fido_assert_sig_len assert 0 sig_len,
       Event.fido_assert_sig_ptr assert 0 sig_ptr,
       Event.fido_assert_user_id_len assert 0 0,
       Event.fido_assert_free assert],
      some t.length, assert, pinArg pin, _, rfl, ?_, h0 ▸ hcount, ?_, ?_, ?_, ?_⟩
    · simp
    · rw [← h7]
      simp [userIdLens, ht.1]
    · rw [← h7]
      simp [userHandleOf, JSValue.Get, JSValue.props, List.lookup]
    · intro hne
      exact absurd h7.symm hne
    · simp [userHandleOf, JSValue.Get, JSValue.props, List.lookup]

theorem AssertSessionExit.marshal {lib : Lib σ} {devicePath pin : String} {assert : Ptr}
    {t : Trace} {o : Outcome} (h : AssertSessionExit lib devicePath pin assert t o) (s : σ)
    (hf : faithful lib s o.trace) (ht : assertIndices t = [])
    (hno : o.trace.any Event.failed = false) : assertionMarshalRule lib s o := by
  unfold assertIndices at ht
  have hS := assert_session_state lib s t devicePath assert (pinArg pin)
  cases h with
  | dev_new_failed => simp [Event.failed, Event.builderFailure] at hno
  | open_failed r hr => simp [Event.failed, Event.builderFailure, hr] at hno
  | get_assert_failed r hr => simp [Event.failed, Event.builderFailure, hr] at hno
  | no_assertion =>
    have hf' := hf
    simp only [faithful_append, faithful, Lib.answers, Lib.next, stateAfter_cons,
      stateAfter_nil, and_true, true_and] at hf'
    rw [← hS] at hf'
    obtain ⟨-, -, -, -, h0⟩ := hf'
    refine ⟨hf, by simp [assertIndices, ht, Event.assertIndex],
      t ++ [Event.fido_dev_new (some t.length),
        Event.fido_dev_open (some t.length) (c_str devicePath) FIDO_OK],
      some t.length, assert, pinArg pin, _, rfl, ?_, ?_⟩
    · intro _
      exact ⟨by simp, rfl, rfl⟩
    · intro hne
      exact absurd h0.symm hne
  | done_with_user_handle assert_count hcount id_len id_ptr authData_len authData_ptr
      sig_len sig_ptr user_id_len hlen user_id_ptr =>
    have hf' := hf
    simp only [faithful_append, faithful, Lib.answers, Lib.next, stateAfter_cons,
      stateAfter_nil, and_true, true_and] at hf'
    rw [← hS] at hf'
    obtain ⟨-, -, -, -, h0, h1, h2, h3, h4, h5, h6, h7, h8⟩ := hf'
    have hlen' : user_id_len ≠ 0 := by omega
    refine ⟨hf, by simp [assertIndices, ht, Event.assertIndex],
      t ++ [Event.fido_dev_new (some t.length),
        Event.fido_dev_open (some t.length) (c_str devicePath) FIDO_OK],
      some t.length, assert, pinArg pin, _, rfl, ?_, ?_⟩
    · intro hz
      exact absurd (h0.trans hz) hcount
    · intro _
      rw [← h0, ← h1, ← h2, ← h3, ← h4, ← h5, ← h6, ← h7, ← h8]
      refine ⟨rfl, by simp [hlen'], _, _, _, _, makeBuffer_isCopy _ _, makeBuffer_isCopy _ _,
        makeBuffer_isCopy _ _, fun hz => absurd hz hlen', fun _ => makeBuffer_isCopy _ _, rfl⟩
  | done_without_user_handle assert_count hcount id_len id_ptr authData_len authData_ptr
      sig_len sig_ptr =>
    have hf' := hf
    simp only [faithful_append, faithful, Lib.answers, Lib.next, stateAfter_cons,
      stateAfter_nil, and_true, true_and] at hf'
    rw [← hS] at hf'
    obtain ⟨-, -, -, -, h0, h1, h2, h3, h4, h5, h6, h7⟩ := hf'
    refine ⟨hf, by simp [assertIndices, ht, Event.assertIndex],
      t ++ [Event.fido_dev_new (some t.length),
        Event.fido_dev_open (some t.length) (c_str devicePath) FIDO_OK],
      some t.length, assert, pinArg pin, _, rfl, ?_, ?_⟩
    · intro hz
      exact absurd (h0.trans hz) hcount
    · intro _
      rw [← h0, ← h1, ← h2, ← h3, ← h4, ← h5, ← h6, ← h7]
      refine ⟨rfl, by simp, _, _, _, JSValue.null, makeBuffer_isCopy _ _,
        makeBuffer_isCopy _ _, makeBuffer_isCopy _ _, fun _ => rfl,
        fun hne => absurd rfl hne, rfl⟩

theorem AssertSessionExit.index_zero {lib : Lib σ} {devicePath pin : String} {assert : Ptr}
    {t : Trace} {o : Outcome} (h : AssertSessionExit lib devicePath pin assert t o)
    (ht : assertIndices t = []) : ∀ i ∈ assertIndices o.trace, i = 0 := by
  unfold assertIndices at *
  cases h <;> simp [ht, Event.assertIndex]

theorem AssertBuildExit.session_entry_quiet (options : JSValue) (rpId : String)
    (challenge : Bytes) (allowedCredentials : List Bytes) {t : Trace}
    (ht : userIdLens t = [] ∧ userIdPtrs t = [] ∧ assertCounts t = [] ∧ assertIndices t = []) :
    let t' := t ++ (Event.fido_assert_new (some t.length) ::
      Event.fido_assert_set_rp (some t.length) (c_str rpId) FIDO_OK ::
      Event.fido_assert_set_clientdata_hash (some t.length) challenge FIDO_OK ::
      ((allowedCredentials.map fun c =>
          Event.fido_assert_allow_cred (some t.length) c FIDO_OK) ++
        (uvSetting options).toList.map fun uv =>
          Event.fido_assert_set_uv (some t.length) uv FIDO_OK))
    userIdLens t' = [] ∧ userIdPtrs t' = [] ∧ assertCounts t' = [] ∧ assertIndices t' = [] := by
  unfold userIdLens userIdPtrs assertCounts assertIndices at *
  cases uvSetting options <;>
    simp [ht, Event.assertIndex, Function.comp_def, filterMap_const_none]

theorem DeviceChoice.no_reads {options : JSValue} {devicePath : String} {t : Trace}
    (h : DeviceChoice options devicePath t) :
    userIdLens t = [] ∧ userIdPtrs t = [] ∧ assertCounts t = [] ∧ assertIndices t = [] := by
  cases h <;> simp [userIdLens, userIdPtrs, assertCounts, assertIndices, Event.assertIndex]

/-- C6: whenever `GetAssertion` succeeds, its transaction call has succeeded and the
library reports at least one assertion, and `response.userHandle` is null if and only if
the user-id length the library reports for assertion index 0 is zero; for a non-zero
length it is a byte sequence equal in length and content to the user id the library
reports for index 0; it is never an empty byte sequence. -/
theorem getAssertion_user_handle (lib : Lib σ) (s : σ) (info : List JSValue)
    (hok : (GetAssertion lib s info).exception = none) :
    userHandleRule lib s (GetAssertion lib s info) := by
  have hf := GetAssertion_faithful lib s info
  have h := GetAssertion_exits lib s info
  generalize GetAssertion lib s info = o at h hok hf
  cases h with
  | not_an_object h => simp at hok
  | missing_parameters hobj h => simp at hok
  | no_devices hobj hrp hch hdev dev_infos hp r ndevs h => simp at hok
  | built hobj hrp hch devicePath t hsel o ho =>
    cases ho with
    | assert_new_failed => simp at hok
    | rp_failed r hr => simp at hok
    | clientdata_failed r hr => simp at hok
    | allow_cred_failed pre cred post hsplit r hr => simp at hok
    | uv_failed uv huv r hr => simp at hok
    | session o ho =>
      have hq := AssertBuildExit.session_entry_quiet (info.getD 0 JSValue.undefined)
        (optString (info.getD 0 JSValue.undefined) "rpId")
        (optBuffer (info.getD 0 JSValue.undefined) "challenge")
        (allowedCredentialsOf (info.getD 0 JSValue.undefined)) hsel.no_reads
      exact ho.user_handle s hf ⟨hq.1, hq.2.1⟩ hok

/-- C7: for every assertion request that passes validation and in whose run no call to
the library fails (so that the transaction call returns success): when the library then
reports an assertion count of zero, `GetAssertion` fails with "No assertion returned"
and returns an object without any result field; when it reports a count of at least
one, `GetAssertion` succeeds and `id`, `rawId`, `authenticatorData`, `signature` and
`userHandle` are copies of what the library reports for assertion index 0; and no read
ever asks for another index. -/
theorem getAssertion_marshalling (lib : Lib σ) (s : σ) (options : JSValue)
    (rest : List JSValue) (hobj : options.IsObject = true)
    (hrp : optString options "rpId" ≠ "") (hch : optBuffer options "challenge" ≠ [])
    (hno : (GetAssertion lib s (options :: rest)).trace.any Event.failed = false) :
    assertionMarshalRule lib s (GetAssertion lib s (options :: rest)) := by
  have hf := GetAssertion_faithful lib s (options :: rest)
  have h := GetAssertion_exits lib s (options :: rest)
  generalize GetAssertion lib s (options :: rest) = o at h hno hf
  cases h with
  | not_an_object h => simp [hobj] at h
  | missing_parameters _ h =>
    simp only [List.getD_cons_zero] at h
    rcases h with h | h
    · exact absurd h hrp
    · exact absurd h hch
  | no_devices _ _ _ hdev dev_infos hp r ndevs h =>
    rcases h with h | h <;> simp [Event.failed, Event.builderFailure, h] at hno
  | built _ _ _ devicePath t hsel o ho =>
    cases ho with
    | assert_new_failed => simp [Event.failed, Event.builderFailure] at hno
    | rp_failed r hr => simp [Event.failed, Event.builderFailure, hr] at hno
    | clientdata_failed r hr => simp [Event.failed, Event.builderFailure, hr] at hno
    | allow_cred_failed pre cred post hsplit r hr =>
      simp [Event.failed, Event.builderFailure, hr] at hno
    | uv_failed uv huv r hr => simp [Event.failed, Event.builderFailure, hr] at hno
    | session o ho =>
      have hq := AssertBuildExit.session_entry_quiet
        ((options :: rest).getD 0 JSValue.undefined)
        (optString ((options :: rest).getD 0 JSValue.undefined) "rpId")
        (optBuffer ((options :: rest).getD 0 JSValue.undefined) "challenge")
        (allowedCredentialsOf ((options :: rest).getD 0 JSValue.undefined)) hsel.no_reads
      exact ho.marshal s hf hq.2.2.2 hno

/-- In every run of `GetAssertion`, whatever the request and the library do, every read
of a per-assertion field asks for assertion index 0. -/
theorem getAssertion_reads_index_zero (lib : Lib σ) (s : σ) (info : List JSValue) :
    ∀ i ∈ assertIndices (GetAssertion lib s info).trace, i = 0 := by
  have h := GetAssertion_exits lib s info
  generalize GetAssertion lib s info = o at h
  cases h with
  | not_an_object h => simp [assertIndices]
  | missing_parameters hobj h => simp [assertIndices]
  | no_devices hobj hrp hch hdev dev_infos hp r ndevs h =>
    simp [assertIndices, Event.assertIndex]
  | built hobj hrp hch devicePath t hsel o ho =>
    have hq := hsel.no_reads.2.2.2
    cases ho with
    | assert_new_failed =>
      unfold assertIndices at *
      simp [Event.assertIndex, hq]
    | rp_failed r hr =>
      unfold assertIndices at *
      simp [Event.assertIndex, hq]
    | clientdata_failed r hr =>
      unfold assertIndices at *
      simp [Event.assertIndex, hq]
    | allow_cred_failed pre cred post hsplit r hr =>
      unfold assertIndices at *
      simp [Event.assertIndex, hq, Function.comp_def, filterMap_const_none]
    | uv_failed uv huv r hr =>
      unfold assertIndices at *
      simp [Event.assertIndex, hq, Function.comp_def, filterMap_const_none]
    | session o ho =>
      have hq' := AssertBuildExit.session_entry_quiet (info.getD 0 JSValue.undefined)
        (optString (info.getD 0 JSValue.undefined) "rpId")
        (optBuffer (info.getD 0 JSValue.undefined) "challenge")
        (allowedCredentialsOf (info.getD 0 JSValue.undefined)) hsel.no_reads
      exact ho.index_zero hq'.2.2.2

theorem AssertSessionExit.succeeds_iff {lib : Lib σ} {devicePath pin : String}
    {assert : Ptr} {t : Trace} {o : Outcome}
    (h : AssertSessionExit lib devicePath pin assert t o)
    (ht : transactionStatuses t = [] ∧ assertCounts t = []) :
    o.exception = none ↔
      (FIDO_OK ∈ transactionStatuses o.trace ∧ ∃ n ∈ assertCounts o.trace, n ≠ 0) := by
  unfold transactionStatuses assertCounts at *
  cases h with
  | dev_new_failed => simp [ht]
  | open_failed r hr => simp [ht]
  | get_assert_failed r hr => simp [ht, Ne.symm hr]
  | no_assertion => simp [ht]
  | done_with_user_handle assert_count hcount id_len id_ptr authData_len authData_ptr
      sig_len sig_ptr user_id_len hlen user_id_ptr => simp [ht, hcount]
  | done_without_user_handle assert_count hcount id_len id_ptr authData_len authData_ptr
      sig_len sig_ptr => simp [ht, hcount]

/-- `GetAssertion` succeeds exactly when its transaction call returns success and the
assertion object then reports at least one assertion. -/
theorem getAssertion_succeeds_iff (lib : Lib σ) (s : σ) (info : List JSValue) :
    (GetAssertion lib s info).exception = none ↔
      (FIDO_OK ∈ transactionStatuses (GetAssertion lib s info).trace ∧
        ∃ n ∈ assertCounts (GetAssertion lib s info).trace, n ≠ 0) := by
  have h := GetAssertion_exits lib s info
  generalize GetAssertion lib s info = o at h
  cases h with
  | not_an_object h => simp [transactionStatuses]
  | missing_parameters hobj h => simp [transactionStatuses]
  | no_devices hobj hrp hch hdev dev_infos hp r ndevs h => simp [transactionStatuses]
  | built hobj hrp hch devicePath t hsel o ho =>
    have ht := hsel.no_transaction
    have hq := hsel.no_reads.2.2.1
    cases ho with
    | assert_new_failed =>
      unfold transactionStatuses at *
      simp [ht]
    | rp_failed r hr =>
      unfold transactionStatuses at *
      simp [ht]
    | clientdata_failed r hr =>
      unfold transactionStatuses at *
      simp [ht]
    | allow_cred_failed pre cred post hsplit r hr =>
      unfold transactionStatuses at *
      simp [ht, Function.comp_def, filterMap_const_none]
    | uv_failed uv huv r hr =>
      unfold transactionStatuses at *
      simp [ht, Function.comp_def, filterMap_const_none]
    | session o ho =>
      refine ho.succeeds_iff ⟨?_, ?_⟩
      · unfold transactionStatuses at *
        cases uvSetting (info.getD 0 JSValue.undefined) <;>
          simp [ht, Function.comp_def, filterMap_const_none]
      · unfold assertCounts at *
        cases uvSetting (info.getD 0 JSValue.undefined) <;>
          simp [hq, Function.comp_def, filterMap_const_none]

/-! ## The allow list (C10) -/

theorem AssertSessionExit.tail {lib : Lib σ} {devicePath pin : String} {assert : Ptr}
    {t : Trace} {o : Outcome} (h : AssertSessionExit lib devicePath pin assert t o) :
    ∃ post : Trace, o.trace = t ++ post ∧ allowCalls post = [] ∧
      post.any Event.isAssertParamSetter = false := by
  cases h <;> exact ⟨_, rfl, by simp [allowCalls, Event.allowCall],
    by simp [Event.isAssertParamSetter]⟩

theorem DeviceChoice.no_assert_calls {options : JSValue} {devicePath : String} {t : Trace}
    (h : DeviceChoice options devicePath t) :
    allowCalls t = [] ∧ assertClientDataStatuses t = [] := by
  cases h <;> simp [allowCalls, assertClientDataStatuses, Event.allowCall]

theorem allowCalls_accepted (assert : Ptr) (l : List Bytes) :
    allowCalls (l.map fun c => Event.fido_assert_allow_cred assert c FIDO_OK) =
      l.map fun c => (c, FIDO_OK) := by
  induction l with
  | nil => rfl
  | cons a l ih =>
    unfold allowCalls at *
    simp [List.filterMap_cons, Event.allowCall, ih]

theorem AssertBuildExit.allow_list {lib : Lib σ} {options : JSValue} {rpId : String}
    {challenge : Bytes} {allowedCredentials : List Bytes} {pin devicePath : String}
    {t : Trace} {o : Outcome}
    (h : AssertBuildExit lib options rpId challenge allowedCredentials pin devicePath t o)
    (ht : allowCalls t = [] ∧ assertClientDataStatuses t = [] ∧ uvCalls t = [] ∧
      builderCompleted t = false ∧ openedPaths t = []) :
    allowListRule lib allowedCredentials o := by
  intro hcd
  have hpre : allowCalls (t ++ [Event.fido_assert_new (some t.length),
      Event.fido_assert_set_rp (some t.length) (c_str rpId) FIDO_OK]) = [] ∧
      uvCalls (t ++ [Event.fido_assert_new (some t.length),
      Event.fido_assert_set_rp (some t.length) (c_str rpId) FIDO_OK]) = [] := by
    have h1 := ht.1
    have h2 := ht.2.2.1
    unfold allowCalls uvCalls at *
    simp [h1, h2, Event.allowCall, Event.uvOption]
  have hacc := allowCalls_accepted (some t.length)
  have ht1 := ht.1
  have ht2 := ht.2.1
  have ht3 := ht.2.2.1
  have ht4 := ht.2.2.2.1
  have ht5 := ht.2.2.2.2
  cases h with
  | assert_new_failed =>
    unfold assertClientDataStatuses at hcd ht2
    simp [ht2] at hcd
  | rp_failed r hr =>
    unfold assertClientDataStatuses at hcd ht2
    simp [ht2] at hcd
  | clientdata_failed r hr =>
    unfold assertClientDataStatuses at hcd ht2
    simp [ht2] at hcd
    exact absurd hcd.symm hr
  | allow_cred_failed pre cred post hsplit r hr =>
    refine ⟨_, [Event.fido_assert_free (some t.length), Event.fido_strerr r], some t.length,
      challenge, hpre.1, hpre.2, by simp [allowCalls, Event.allowCall],
      by simp [Event.isAssertParamSetter], Or.inr ⟨pre, cred, post, r, hsplit, hr, by simp,
        ?_, ?_, ?_, ?_, rfl⟩⟩
    · have := hacc pre
      unfold allowCalls at *
      simp [ht1, Event.allowCall, this]
    · unfold uvCalls at *
      simp [ht3, Event.uvOption, Function.comp_def, filterMap_const_none]
    · unfold builderCompleted at *
      simp [ht4, Event.isDevNew, any_map_eq_false]
    · unfold openedPaths at *
      simp [ht5, Event.openedPath, Function.comp_def, filterMap_const_none]
  | uv_failed uv huv r hr =>
    refine ⟨_, [Event.fido_assert_set_uv (some t.length) uv r,
        Event.fido_assert_free (some t.length), Event.fido_strerr r], some t.length,
      challenge, hpre.1, hpre.2, by simp [allowCalls, Event.allowCall],
      by simp [Event.isAssertParamSetter], Or.inl ⟨by simp, ?_⟩⟩
    have := hacc allowedCredentials
    unfold allowCalls at *
    simp [ht1, Event.allowCall, this]
  | session o ho =>
    obtain ⟨post, hpost, hp1, hp2⟩ := ho.tail
    refine ⟨_, ((uvSetting options).toList.map fun uv =>
          Event.fido_assert_set_uv (some t.length) uv FIDO_OK) ++ post, some t.length,
      challenge, hpre.1, hpre.2, ?_, ?_, Or.inl ⟨by rw [hpost]; simp, ?_⟩⟩
    · unfold allowCalls at *
      cases uvSetting options <;> simp [hp1, Event.allowCall]
    · cases uvSetting options <;> simp [hp2, Event.isAssertParamSetter]
    · rw [hpost]
      have := hacc allowedCredentials
      unfold allowCalls at *
      cases uvSetting options <;> simp [ht1, hp1, Event.allowCall, this]

/-- C10: in `GetAssertion`, once the relying-party and client-data-hash setters have
succeeded, the allow-list entries are submitted one call per entry, in request order,
each with the entry's bytes, behind those two setters and in front of the
user-verification setter.  If the library rejects an entry, exactly the entries up to and
including it have been submitted, the user-verification setter is not called, no device
is allocated or opened, and the operation fails with "Failed to add allowed credential: "
followed by the library's text for that status; otherwise all entries have been
submitted. -/
theorem allow_list_submission (lib : Lib σ) (s : σ) (info : List JSValue) :
    allowListRule lib (allowedCredentialsOf (info.getD 0 JSValue.undefined))
      (GetAssertion lib s info) := by
  have h := GetAssertion_exits lib s info
  generalize GetAssertion lib s info = o at h
  cases h with
  | not_an_object h => intro hcd; simp [assertClientDataStatuses] at hcd
  | missing_parameters hobj h => intro hcd; simp [assertClientDataStatuses] at hcd
  | no_devices hobj hrp hch hdev dev_infos hp r ndevs h =>
    intro hcd; simp [assertClientDataStatuses] at hcd
  | built hobj hrp hch devicePath t hsel o ho =>
    exact ho.allow_list ⟨hsel.no_assert_calls.1, hsel.no_assert_calls.2, hsel.quiet.1,
      hsel.quiet.2.1, hsel.quiet.2.2.1⟩

/-! ## Concrete runs -/

theorem makeCredential_missing_parameters_witness :
    demoRequestNoUserId.IsObject = true ∧
    (credRpId demoRequestNoUserId = "" ∨ credUserId demoRequestNoUserId = [] ∨
      optBuffer demoRequestNoUserId "challenge" = []) ∧
    MakeCredential okLib () [demoRequestNoUserId] =
      ⟨JSValue.object [], some (JSError.Error "Missing required parameters"), []⟩ :=
  ⟨rfl, Or.inr (Or.inl rfl),
    makeCredential_missing_parameters okLib () demoRequestNoUserId [] rfl
      (Or.inr (Or.inl rfl))⟩

theorem getAssertion_missing_parameters_witness :
    demoAssertionNoChallenge.IsObject = true ∧
    (optString demoAssertionNoChallenge "rpId" = "" ∨
      optBuffer demoAssertionNoChallenge "challenge" = []) ∧
    GetAssertion okLib () [demoAssertionNoChallenge] =
      ⟨JSValue.object [], some (JSError.Error "Missing required parameters"), []⟩ :=
  ⟨rfl, Or.inr rfl,
    getAssertion_missing_parameters okLib () demoAssertionNoChallenge [] rfl (Or.inr rfl)⟩

/-- The bookkeeping tells a leak, a double release and a use after release apart from a
clean trace. -/
theorem heap_bookkeeping_detects :
    outstanding [Event.fido_cred_new (some 0)] = 1 ∧
    (heapAfter [Event.fido_cred_new (some 0), Event.fido_cred_free (some 0),
      Event.fido_cred_free (some 0)]).doubleFree = true ∧
    (heapAfter [Event.fido_cred_new (some 0), Event.fido_cred_free (some 0),
      Event.fido_cred_set_type (some 0) COSE_ES256 FIDO_OK]).useAfterFree = true ∧
    heapAfter [Event.fido_cred_new (some 0), Event.fido_cred_set_type (some 0) COSE_ES256 FIDO_OK,
      Event.fido_cred_free (some 0)] = Heap.empty := by
  refine ⟨by decide, by decide, by decide, by decide⟩

/-- The example scenario of the specification: the request `demoRequest` against the
authenticator `okLib`. -/
theorem makeCredential_example :
    (MakeCredential okLib () [demoRequest]).exception = none ∧
    (MakeCredential okLib () [demoRequest]).value = JSValue.object
      [("id", JSValue.buffer [7, 7]), ("rawId", JSValue.buffer [7, 7]),
       ("response", JSValue.object
          [("authenticatorData", JSValue.buffer [0xAA]),
           ("attestationObject", JSValue.buffer [0xBB, 0xCC])]),
       ("type", JSValue.string "public-key")] ∧
    uvCalls (MakeCredential okLib () [demoRequest]).trace = [FIDO_OPT_TRUE] ∧
    openedPaths (MakeCredential okLib () [demoRequest]).trace =
      [⟨"/dev/hidraw0", by decide⟩] :=
  ⟨rfl, rfl, rfl, rfl⟩

/-- The binding takes the parameters of a credential-creation request from the members
`rp.id`, `rp.name`, `user.id`, `user.name`, `user.displayName`, `challenge` and
`resident`: `demoRequest` carries the parameters of the example scenario there, and an
object that carries them under the names of the specification's data model does not
pass validation. -/
theorem makeCredential_request_shape :
    (credRpId demoRequest = "example.com" ∧ credRpName demoRequest = "Example" ∧
      credUserId demoRequest = [1, 2, 3] ∧ credUserName demoRequest = "alice" ∧
      credUserDisplayName demoRequest = "Alice" ∧
      optBuffer demoRequest "challenge" = [9, 9, 9, 9] ∧
      rkSetting demoRequest = FIDO_OPT_TRUE ∧ uvSetting demoRequest = some FIDO_OPT_TRUE) ∧
    MakeCredential okLib () [flatRequest] =
      ⟨JSValue.object [], some (JSError.Error "Missing required parameters"), []⟩ :=
  ⟨⟨rfl, rfl, rfl, rfl, rfl, rfl, rfl, rfl⟩, rfl⟩

theorem makeCredential_result_witness :
    (demoRequest.IsObject = true ∧ credRpId demoRequest = "example.com" ∧
      credUserId demoRequest = [1, 2, 3] ∧
      optBuffer demoRequest "challenge" = [9, 9, 9, 9] ∧
      (MakeCredential okLib () [demoRequest]).trace.any Event.failed = false) ∧
    (MakeCredential okLib () [demoRequest]).exception = none ∧
    (MakeCredential okLib () [demoRequest]).value = JSValue.object
      [("id", JSValue.buffer [7, 7]), ("rawId", JSValue.buffer [7, 7]),
       ("response", JSValue.object
          [("authenticatorData", JSValue.buffer [0xAA]),
           ("attestationObject", JSValue.buffer [0xBB, 0xCC])]),
       ("type", JSValue.string "public-key")] := by
  obtain ⟨hex, -, pre, dev, cred, pin, s1, c, a, t, -, -, hc, ha, ht, hv, -⟩ :=
    makeCredential_result okLib () demoRequest [] rfl (by decide) (by decide) (by decide) rfl
  refine ⟨⟨rfl, rfl, rfl, rfl, rfl⟩, hex, ?_⟩
  rw [hv, copyOf_unique hc, copyOf_unique ha, copyOf_unique ht]
  rfl

/-- A run of `GetAssertion` with a user id of length one: `userHandle` is that octet. -/
theorem getAssertion_example :
    (GetAssertion okLib () [demoAssertion]).exception = none ∧
    userHandleOf (GetAssertion okLib () [demoAssertion]).value = JSValue.buffer [5] ∧
    allowCalls (GetAssertion okLib () [demoAssertion]).trace =
      [([1], FIDO_OK), ([2], FIDO_OK), ([3], FIDO_OK)] ∧
    uvCalls (GetAssertion okLib () [demoAssertion]).trace = [FIDO_OPT_OMIT] :=
  ⟨rfl, rfl, rfl, rfl⟩

theorem getAssertion_user_handle_witness :
    ((GetAssertion okLib () [demoAssertion]).exception = none ∧
      userHandleOf (GetAssertion okLib () [demoAssertion]).value = JSValue.buffer [5]) ∧
    ((GetAssertion noUserIdLib () [demoAssertion]).exception = none ∧
      userHandleOf (GetAssertion noUserIdLib () [demoAssertion]).value = JSValue.null) := by
  constructor
  · obtain ⟨-, pre, rest, dev, assert, pin, s1, -, -, -, -, -, hcopy, -⟩ :=
      getAssertion_user_handle okLib () [demoAssertion] rfl
    exact ⟨rfl, isCopy_eq (hcopy Nat.one_ne_zero).2⟩
  · obtain ⟨-, pre, rest, dev, assert, pin, s1, -, -, -, -, hnull, -, -⟩ :=
      getAssertion_user_handle noUserIdLib () [demoAssertion] rfl
    exact ⟨rfl, hnull.mpr rfl⟩

theorem getAssertion_marshalling_witness :
    ((demoAssertion.IsObject = true ∧ optString demoAssertion "rpId" = "example.com" ∧
        optBuffer demoAssertion "challenge" = [9, 9, 9, 9] ∧
        (GetAssertion okLib () [demoAssertion]).trace.any Event.failed = false) ∧
      (GetAssertion okLib () [demoAssertion]).exception = none ∧
      (GetAssertion okLib () [demoAssertion]).value = JSValue.object
        [("id", JSValue.buffer [7, 7]), ("rawId", JSValue.buffer [7, 7]),
         ("response", JSValue.object
            [("authenticatorData", JSValue.buffer [0xAA]),
             ("signature", JSValue.buffer [1, 2]),
             ("userHandle", JSValue.buffer [5])]),
         ("type", JSValue.string "public-key")] ∧
      assertIndices (GetAssertion okLib () [demoAssertion]).trace =
        [0, 0, 0, 0, 0, 0, 0, 0]) ∧
    ((GetAssertion noAssertionLib () [demoAssertion]).trace.any Event.failed = false ∧
      (GetAssertion noAssertionLib () [demoAssertion]).exception =
        some (JSError.Error "No assertion returned") ∧
      (GetAssertion noAssertionLib () [demoAssertion]).value = JSValue.object []) := by
  constructor
  · obtain ⟨-, -, pre, dev, assert, pin, s1, -, -, hnz⟩ :=
      getAssertion_marshalling okLib () demoAssertion [] rfl (by decide) (by decide) rfl
    obtain ⟨hex, -, i, a, g, u, hi, ha, hg, -, hu, hv⟩ := hnz Nat.one_ne_zero
    refine ⟨⟨rfl, rfl, rfl, rfl⟩, hex, ?_, rfl⟩
    rw [hv, isCopy_eq hi, isCopy_eq ha, isCopy_eq hg, isCopy_eq (hu Nat.one_ne_zero)]
    rfl
  · obtain ⟨-, -, pre, dev, assert, pin, s1, -, hzero, -⟩ :=
      getAssertion_marshalling noAssertionLib () demoAssertion [] rfl (by decide)
        (by decide) rfl
    exact ⟨rfl, (hzero rfl).2⟩

/-- C4, as stated, fails: for a request without `userVerification` both operations
complete their builder and succeed without ever calling the user-verification setter
(the claim has it called with the false option). -/
theorem user_verification_absent_counterexample :
    (demoRequestNoUV.Has "userVerification" = false ∧
      builderCompleted (MakeCredential okLib () [demoRequestNoUV]).trace = true ∧
      (MakeCredential okLib () [demoRequestNoUV]).exception = none ∧
      uvCalls (MakeCredential okLib () [demoRequestNoUV]).trace = [] ∧
      uvCalls (MakeCredential okLib () [demoRequestNoUV]).trace ≠ [FIDO_OPT_FALSE]) ∧
    (demoAssertionNoUV.Has "userVerification" = false ∧
      builderCompleted (GetAssertion okLib () [demoAssertionNoUV]).trace = true ∧
      (GetAssertion okLib () [demoAssertionNoUV]).exception = none ∧
      uvCalls (GetAssertion okLib () [demoAssertionNoUV]).trace = [] ∧
      uvCalls (GetAssertion okLib () [demoAssertionNoUV]).trace ≠ [FIDO_OPT_FALSE]) :=
  ⟨⟨rfl, rfl, rfl, rfl, by decide⟩, ⟨rfl, rfl, rfl, rfl, by decide⟩⟩

theorem user_verification_mapping_witness :
    builderCompleted (MakeCredential okLib () [demoRequest]).trace = true ∧
    uvCalls (MakeCredential okLib () [demoRequest]).trace = uvExpected demoRequest ∧
    uvExpected demoRequest = [FIDO_OPT_TRUE] :=
  ⟨rfl, (user_verification_mapping okLib () [demoRequest]).1.2 rfl, rfl⟩

theorem default_device_selection_witness :
    (demoRequest.IsObject = true ∧ demoRequest.Has "device" = false ∧
      demoAssertion.IsObject = true ∧ demoAssertion.Has "device" = false) ∧
    (enumerationAnswer okLib () = (FIDO_OK, 1) ∧
      enumeratedPaths (MakeCredential okLib () [demoRequest]).trace =
        [(0, ⟨"/dev/hidraw0", by decide⟩)] ∧
      openedPaths (MakeCredential okLib () [demoRequest]).trace =
        [⟨"/dev/hidraw0", by decide⟩] ∧
      enumeratedPaths (GetAssertion okLib () [demoAssertion]).trace =
        [(0, ⟨"/dev/hidraw0", by decide⟩)] ∧
      openedPaths (GetAssertion okLib () [demoAssertion]).trace =
        [⟨"/dev/hidraw0", by decide⟩]) ∧
    (enumerationAnswer noDeviceLib () = (FIDO_OK, 0) ∧
      (MakeCredential noDeviceLib () [demoRequest]).exception =
        some (JSError.Error "No FIDO2 devices found") ∧
      (MakeCredential noDeviceLib () [demoRequest]).trace.any Event.touchesDevice = false ∧
      (GetAssertion noDeviceLib () [demoAssertion]).exception =
        some (JSError.Error "No FIDO2 devices found") ∧
      (GetAssertion noDeviceLib () [demoAssertion]).trace =
        [Event.fido_dev_info_new 64 (some 0),
         Event.fido_dev_info_manifest (some 0) 64 FIDO_OK 0,
         Event.fido_dev_info_free (some 0) 0]) := by
  have hmc := ((default_device_selection okLib () demoRequest [] rfl rfl (by decide)).1
    (by decide) (by decide)).2.2.2.1 rfl (Nat.le_refl 1)
  have hga := ((default_device_selection okLib () demoAssertion [] rfl rfl (by decide)).2
    (by decide)).2.2.2.1 rfl (Nat.le_refl 1)
  have hmc0 := ((default_device_selection noDeviceLib () demoRequest [] rfl rfl
    (by decide)).1 (by decide) (by decide)).2.2.2.2 rfl rfl
  have hga0 := ((default_device_selection noDeviceLib () demoAssertion [] rfl rfl
    (by decide)).2 (by decide)).2.2.2.2 rfl rfl
  exact ⟨⟨rfl, rfl, rfl, rfl⟩, ⟨rfl, hmc.1, hmc.2.2.1 rfl, hga.1, hga.2.2.1 rfl⟩,
    ⟨rfl, hmc0.1, hmc0.2.1, hga0.1, hga0.2.2⟩⟩

/-- C9, as stated, fails: with the enumeration failing (status -1) and with the
enumeration succeeding with no device, both operations report the very same error and
return the very same (empty) object. -/
theorem failed_enumeration_counterexample :
    (enumerations (MakeCredential enumFailLib () [demoRequest]).trace = [(-1, 0)] ∧
      enumerations (MakeCredential noDeviceLib () [demoRequest]).trace = [(FIDO_OK, 0)] ∧
      (MakeCredential enumFailLib () [demoRequest]).exception =
        (MakeCredential noDeviceLib () [demoRequest]).exception ∧
      (MakeCredential enumFailLib () [demoRequest]).value =
        (MakeCredential noDeviceLib () [demoRequest]).value) ∧
    (enumerations (GetAssertion enumFailLib () [demoAssertion]).trace = [(-1, 0)] ∧
      enumerations (GetAssertion noDeviceLib () [demoAssertion]).trace = [(FIDO_OK, 0)] ∧
      (GetAssertion enumFailLib () [demoAssertion]).exception =
        (GetAssertion noDeviceLib () [demoAssertion]).exception ∧
      (GetAssertion enumFailLib () [demoAssertion]).value =
        (GetAssertion noDeviceLib () [demoAssertion]).value) :=
  ⟨⟨rfl, rfl, rfl, rfl⟩, ⟨rfl, rfl, rfl, rfl⟩⟩

theorem failed_enumeration_witness :
    (-1, 0) ∈ enumerations (MakeCredential enumFailLib () [demoRequest]).trace ∧
    (-1 : Int) ≠ FIDO_OK ∧
    (MakeCredential enumFailLib () [demoRequest]).exception =
      some (JSError.Error "No FIDO2 devices found") ∧
    ∃ dev_infos : Ptr, (MakeCredential enumFailLib () [demoRequest]).trace =
      [Event.fido_dev_info_new 64 dev_infos,
       Event.fido_dev_info_manifest dev_infos 64 (-1) 0,
       Event.fido_dev_info_free dev_infos 0] :=
  ⟨List.mem_singleton_self _, by decide,
    (failed_enumeration_reported_as_no_device enumFailLib () [demoRequest]).1 (-1) 0
      (List.mem_singleton_self _) (by decide)⟩

theorem allow_list_submission_witness :
    FIDO_OK ∈ assertClientDataStatuses (GetAssertion rejectLib () [demoAssertion]).trace ∧
    allowListOutcome rejectLib (allowedCredentialsOf demoAssertion)
      (GetAssertion rejectLib () [demoAssertion]) ∧
    allowedCredentialsOf demoAssertion = [[1], [2], [3]] ∧
    allowCalls (GetAssertion rejectLib () [demoAssertion]).trace =
      [([1], FIDO_OK), ([2], -7)] ∧
    (GetAssertion rejectLib () [demoAssertion]).exception =
      some (JSError.Error "Failed to add allowed credential: FIDO_ERR") :=
  ⟨List.mem_singleton_self _,
    allow_list_submission rejectLib () [demoAssertion] (List.mem_singleton_self _),
    rfl, rfl, rfl⟩

end Fido2
